import Mathlib

/-!
# iRODS S3 resource plugin: shared session, byte shares, glacier states, retry loop

A shallow embedding of the parts of `s3_operations.cpp`, `s3_transport.cpp` and
`multipart_shared_data.hpp` that decide the properties proved below.

Machine integers are mathematical integers with an explicit wrap at every
conversion or operation that can leave the range of its C++ type.
-/

/-! ## Machine integers -/

/-- Value of an integer after conversion to `std::uint64_t` / `std::size_t`. -/
def to_uint64 (x : Int) : Nat := (x % 2 ^ 64).toNat

/-- Value of an integer after conversion to `std::int64_t` / `off_t`. -/
def to_int64 (x : Int) : Int := (x + 2 ^ 63) % 2 ^ 64 - 2 ^ 63

/-- Value of an integer after conversion to `int`. -/
def to_int32 (x : Int) : Int := (x + 2 ^ 31) % 2 ^ 32 - 2 ^ 31

/-! ## Results and statuses -/

/-- Error codes of `rodsErrorTable.h` that the modelled code uses; `num` is a plain
numeric code (0 for success, a byte count, a system status). -/
inductive irods_code
  | num (n : Int)
  | S3_FILE_OPEN_ERR
  | S3_FILE_STAT_ERR
  | REPLICA_IS_BEING_STAGED
  | REPLICA_STAGING_FAILED
  | SYS_INTERNAL_ERR
  | SYS_NOT_SUPPORTED
  | UNIX_FILE_CLOSE_ERR
  deriving DecidableEq, Repr

/-- An `irods::error`: the status flag read by `ok()`, the code and the message. -/
structure irods_error where
  status : Bool
  code : irods_code
  message : String
  deriving DecidableEq, Repr

/-- The macro `SUCCESS()`. -/
def SUCCESS : irods_error := { status := true, code := irods_code.num 0, message := "" }

/-- The macro `ERROR(code, message)`. -/
def ERROR (code : irods_code) (message : String) : irods_error :=
  { status := false, code := code, message := message }

/-- The method `irods::error::ok()`. -/
def irods_error.ok (e : irods_error) : Bool := e.status

/-- The macro `PASS(e)`: the same status and code are handed up the call chain. -/
def PASS (e : irods_error) : irods_error := e

/-- The macro `PASSMSG(message, e)`: status and code of `e` under a new message. -/
def PASSMSG (message : String) (e : irods_error) : irods_error := { e with message := message }

/-- The libs3 status codes that the modelled code names, and `Other` for every other
member of the libs3 enumeration. -/
inductive S3Status
  | S3StatusOK
  | S3StatusNameLookupError
  | S3StatusFailedToConnect
  | S3StatusConnectionFailed
  | S3StatusErrorInternalError
  | S3StatusErrorOperationAborted
  | S3StatusErrorRequestTimeout
  | S3StatusHttpErrorNotFound
  | S3StatusErrorUnknown
  | S3StatusErrorNoSuchKey
  | Other (code : Nat)
  deriving DecidableEq, Repr

/-! ## The shared multipart session (`multipart_shared_data.hpp`) -/

namespace shared_data

/-- Modelled from the spec: the enumeration `cache_file_download_status`, declared in
`types.hpp` outside the sources; the spec gives NOT_STARTED, IN_PROGRESS, COMPLETE. -/
inductive cache_file_download_status
  | NOT_STARTED
  | IN_PROGRESS
  | COMPLETE
  deriving DecidableEq, Repr

/-- The struct `multipart_shared_data` of `multipart_shared_data.hpp`, the session that
`atomic_exec` hands to the lambdas of `s3_operations.cpp`; `last_error_code` is kept as
the integer value of the enumeration `error_codes`. -/
structure multipart_shared_data where
  threads_remaining_to_close : Int
  /-- Modelled from the spec: the resolved parallelism of the current operation, 0 when
  unknown; `s3_operations.cpp` reads and writes the field, the header in the sources
  does not declare it -/
  number_of_threads : Int
  done_initiate_multipart : Bool
  upload_id : String
  etags : List String
  last_error_code : Int
  cache_file_download_progress : cache_file_download_status
  ref_count : Int
  existing_object_size : Int
  circular_buffer_read_timeout : Bool
  file_open_counter : Int
  cache_file_flushed : Bool
  know_number_of_threads : Bool
  first_open_has_trunc_flag : Bool
  deriving DecidableEq, Repr

/-- The constructor of `multipart_shared_data` (`error_codes::SUCCESS` is 0). -/
def multipart_shared_data.init : multipart_shared_data :=
  { threads_remaining_to_close := 0
    number_of_threads := 0
    done_initiate_multipart := false
    upload_id := ""
    etags := []
    last_error_code := 0
    cache_file_download_progress := cache_file_download_status.NOT_STARTED
    ref_count := 0
    existing_object_size := -1
    circular_buffer_read_timeout := false
    file_open_counter := 0
    cache_file_flushed := false
    know_number_of_threads := true
    first_open_has_trunc_flag := false }

/-- A fresh session with the given thread count and countdown. -/
def demo_session (number_of_threads threads_remaining_to_close : Int) : multipart_shared_data :=
  { multipart_shared_data.init with
    number_of_threads := number_of_threads
    threads_remaining_to_close := threads_remaining_to_close }

/-- The method `multipart_shared_data::can_delete`. -/
def multipart_shared_data.can_delete (d : multipart_shared_data) : Bool :=
  if d.know_number_of_threads then
    decide (d.threads_remaining_to_close = 0)
  else
    decide (d.file_open_counter = 0)

end shared_data

/-! ## Glacier states and restoration (`s3_transport.cpp`) -/

namespace s3_transport

/-- The constant `S3_RESTORATION_TIER_STANDARD`. -/
def S3_RESTORATION_TIER_STANDARD : String := "Standard"

/-- The constant `S3_DEFAULT_RESTORATION_DAYS`. -/
def S3_DEFAULT_RESTORATION_DAYS : Nat := 7

/-- The constant `S3_STORAGE_CLASS_STANDARD`. -/
def S3_STORAGE_CLASS_STANDARD : String := "STANDARD"

/-- The constant `S3_STORAGE_CLASS_GLACIER`. -/
def S3_STORAGE_CLASS_GLACIER : String := "GLACIER"

/-- The constant `S3_STORAGE_CLASS_DEEP_ARCHIVE`. -/
def S3_STORAGE_CLASS_DEEP_ARCHIVE : String := "DEEP_ARCHIVE"

/-- The constant `S3_STORAGE_CLASS_GLACIER_IR`. -/
def S3_STORAGE_CLASS_GLACIER_IR : String := "GLACIER_IR"

/-- Modelled from the spec: the enumeration `object_s3_status`, declared in a header
outside the sources; the spec lists its four states and the `switch` of
`handle_glacier_status` names them. -/
inductive object_s3_status
  | IN_S3
  | DOES_NOT_EXIST
  | IN_GLACIER
  | IN_GLACIER_RESTORE_IN_PROGRESS
  deriving DecidableEq, Repr

/-- The response properties that libs3 hands to `on_response_properties`; a header
that the store did not send is a null pointer there, `none` here. -/
structure response_properties where
  contentLength : Int
  xAmzStorageClass : Option String
  xAmzRestore : Option String
  deriving DecidableEq, Repr

/-- Outcome of one `S3_head_object` request: the properties, when response headers
arrived, and the status given to the completion callback. -/
structure head_response where
  properties : Option response_properties
  status : S3Status
  deriving DecidableEq, Repr

/-- The callback record `data_for_head_callback`: the fields that `get_object_s3_status`
and the callbacks use. -/
structure data_for_head_callback where
  status : S3Status
  content_length : Int
  x_amz_storage_class : String
  x_amz_restore : String
  deriving DecidableEq, Repr

/-- The callback `s3_head_object_callback::on_response_properties`. -/
def on_response_properties (properties : response_properties) (data : data_for_head_callback) :
    data_for_head_callback :=
  let data := { data with content_length := properties.contentLength }
  let data :=
    match properties.xAmzStorageClass with
    | some c => { data with x_amz_storage_class := c }
    | none => data
  match properties.xAmzRestore with
  | some r => { data with x_amz_restore := r }
  | none => data

/-- The callback `s3_head_object_callback::on_response_complete`: `store_and_log_status`
stores the status in the record. -/
def on_response_complete (status : S3Status) (data : data_for_head_callback) :
    data_for_head_callback :=
  { data with status := status }

/-- The request `S3_head_object` as seen through the two callbacks, starting from a
freshly constructed record. -/
def S3_head_object (response : head_response) : data_for_head_callback :=
  let data : data_for_head_callback :=
    { status := response.status, content_length := 0, x_amz_storage_class := "", x_amz_restore := "" }
  let data :=
    match response.properties with
    | some p => on_response_properties p data
    | none => data
  on_response_complete response.status data

/-- The comparison `boost::iequals`: equal length and equal characters after upper-casing. -/
def iequals (a b : String) : Bool :=
  a.toList.map Char.toUpper == b.toList.map Char.toUpper

/-- Position of the first occurrence of `needle` in `hay` at or after the front of
`hay`, counted from `pos`; `none` stands for `std::string::npos`. -/
def find_from (needle : List Char) : List Char → Nat → Option Nat
  | [], pos => if needle.isPrefixOf [] then some pos else none
  | c :: rest, pos =>
    if needle.isPrefixOf (c :: rest) then some pos else find_from needle rest (pos + 1)

/-- The method `std::string::find`. -/
def find (hay needle : String) : Option Nat := find_from needle.toList hay.toList 0

/-- The text `hay` contains the text `needle` as a contiguous part. -/
def contains (hay needle : String) : Prop := needle.toList <:+: hay.toList

/-- The storage class header of a response, when the store sent one. -/
def head_response.x_amz_storage_class (response : head_response) : Option String :=
  response.properties.bind (fun p => p.xAmzStorageClass)

/-- The restore header of a response, when the store sent one. -/
def head_response.x_amz_restore (response : head_response) : Option String :=
  response.properties.bind (fun p => p.xAmzRestore)

/-- The storage class equals GLACIER or DEEP_ARCHIVE, compared case-insensitively. -/
def is_cold_class (storage_class : String) : Prop :=
  iequals storage_class S3_STORAGE_CLASS_GLACIER = true ∨
    iequals storage_class S3_STORAGE_CLASS_DEEP_ARCHIVE = true

/-- A HEAD response with status OK, a content length of 5 and the given storage class and
restore headers. -/
def demo_head_response (storage_class restore : Option String) : head_response :=
  { properties := some { contentLength := 5, xAmzStorageClass := storage_class, xAmzRestore := restore }
    status := S3Status.S3StatusOK }

/-- Result of `get_object_s3_status`: the returned error and the three reference
parameters after the call. -/
structure object_status_result where
  error : irods_error
  object_size : Int
  object_status : object_s3_status
  storage_class : String
  deriving DecidableEq, Repr

/-- The function `get_object_s3_status`; `object_size` and `storage_class` are the
values of the reference parameters on entry. -/
def get_object_s3_status (response : head_response) (object_size : Int) (storage_class : String) :
    object_status_result :=
  let data := S3_head_object response
  if data.status ≠ S3Status.S3StatusOK then
    { error := SUCCESS, object_size := object_size,
      object_status := object_s3_status.DOES_NOT_EXIST, storage_class := storage_class }
  else
    let object_size := data.content_length
    if iequals data.x_amz_storage_class S3_STORAGE_CLASS_GLACIER ||
        iequals data.x_amz_storage_class S3_STORAGE_CLASS_DEEP_ARCHIVE then
      let storage_class := data.x_amz_storage_class
      if (find data.x_amz_restore "ongoing-request=\"false\"").isSome then
        { error := SUCCESS, object_size := object_size,
          object_status := object_s3_status.IN_S3, storage_class := storage_class }
      else if (find data.x_amz_restore "ongoing-request=\"true\"").isSome then
        { error := SUCCESS, object_size := object_size,
          object_status := object_s3_status.IN_GLACIER_RESTORE_IN_PROGRESS,
          storage_class := storage_class }
      else
        { error := SUCCESS, object_size := object_size,
          object_status := object_s3_status.IN_GLACIER, storage_class := storage_class }
    else
      { error := SUCCESS, object_size := object_size,
        object_status := object_s3_status.IN_S3, storage_class := storage_class }

/-- A restore request as it is sent by `S3_restore_object`. -/
structure restore_request where
  object_key : String
  xml : String
  deriving DecidableEq, Repr

/-- The request body that `restore_s3_object` formats. -/
def restore_request_xml (restoration_days : Nat) (restoration_tier storage_class : String) : String :=
  if storage_class = S3_STORAGE_CLASS_DEEP_ARCHIVE then
    "<RestoreRequest>\n " ++
    "  <Days>" ++ toString restoration_days ++ "</Days>\n" ++
    "</RestoreRequest>\n"
  else
    "<RestoreRequest>\n " ++
    "  <Days>" ++ toString restoration_days ++ "</Days>\n" ++
    "  <GlacierJobParameters>\n" ++
    "    <Tier>" ++ restoration_tier ++ "</Tier>\n" ++
    "  </GlacierJobParameters>\n" ++
    "</RestoreRequest>\n"

/-- The function `restore_s3_object`. The store is the function `S3_restore_object`,
from the request to the status left in `upload_manager.status`; the result is the
returned error together with the requests that were sent. -/
def restore_s3_object (S3_restore_object : restore_request → S3Status) (object_key : String)
    (restoration_days : Nat) (restoration_tier storage_class : String) :
    irods_error × List restore_request :=
  let xml := restore_request_xml restoration_days restoration_tier storage_class
  let request : restore_request := { object_key := object_key, xml := xml }
  let status := S3_restore_object request
  if status ≠ S3Status.S3StatusOK then
    (ERROR irods_code.REPLICA_STAGING_FAILED
      ("Object is in " ++ storage_class ++ ", but scheduling restoration failed."), [request])
  else
    (ERROR irods_code.REPLICA_IS_BEING_STAGED
      ("Object is in " ++ storage_class ++ " and has been queued for restoration.  " ++
        "Try again later."), [request])

/-- The function `handle_glacier_status`: the returned error and the restore requests
that were sent on the way. The `default` branch of the `switch` is left out: the
enumeration has no fifth value. -/
def handle_glacier_status (S3_restore_object : restore_request → S3Status) (object_key : String)
    (restoration_days : Nat) (restoration_tier : String) (object_status : object_s3_status)
    (storage_class : String) : irods_error × List restore_request :=
  match object_status with
  | object_s3_status.IN_S3 => (SUCCESS, [])
  | object_s3_status.DOES_NOT_EXIST =>
    (ERROR irods_code.S3_FILE_OPEN_ERR "Object does not exist and open mode requires it to exist.", [])
  | object_s3_status.IN_GLACIER =>
    restore_s3_object S3_restore_object object_key restoration_days restoration_tier storage_class
  | object_s3_status.IN_GLACIER_RESTORE_IN_PROGRESS =>
    (ERROR irods_code.REPLICA_IS_BEING_STAGED
      ("Object is in " ++ storage_class ++ " and is currently being restored.  " ++
        "Try again later."), [])

/-- The function `S3_status_is_retryable` of the transport; `libs3_is_retryable` is the
libs3 function `::S3_status_is_retryable`. -/
def S3_status_is_retryable (libs3_is_retryable : S3Status → Bool) (status : S3Status) : Bool :=
  libs3_is_retryable status || decide (S3Status.S3StatusErrorUnknown = status)

/-- The whole seconds that `s3_sleep(_s)` sleeps when the generator draws `random`:
`(int)((((double)random / (double)RAND_MAX) + 1) * .5 * _s)`. The function
`round_double` stands for the rounding of a real result to a `double`, applied after each
of the four operations; the conversions of `random`, `RAND_MAX` and `_s` to `double` are
exact, and the cast to `int` truncates towards zero. -/
def s3_sleep (round_double : ℚ → ℚ) (RAND_MAX : Nat) (random : Nat) (_s : Int) : Int :=
  let quotient := round_double ((random : ℚ) / (RAND_MAX : ℚ))
  let sum := round_double (quotient + 1)
  let half := round_double (sum * (1 / 2))
  let x := round_double (half * (_s : ℚ))
  to_int32 (if 0 ≤ x then ⌊x⌋ else ⌈x⌉)

/-- A rounding to `double` as far as the sleep computation needs it: it keeps the order,
and it is exact on the halves of the integers up to `2 ^ 32`, which are all `double`
values. -/
def rounds_like_double (round_double : ℚ → ℚ) : Prop :=
  (∀ x y : ℚ, x ≤ y → round_double x ≤ round_double y) ∧
    (∀ n : Int, -(2 ^ 32) ≤ n → n ≤ 2 ^ 32 → round_double ((n : ℚ) / 2) = (n : ℚ) / 2)

end s3_transport

namespace irods_s3

open shared_data s3_transport

/-! ## Constants and tables of the iRODS server -/

/-- The `oprType` value `PUT_OPR` of the iRODS header `dataObjInpOut.h`. -/
def PUT_OPR : Int := 1

/-- The `oprType` value `GET_OPR` of the iRODS header `dataObjInpOut.h`. -/
def GET_OPR : Int := 2

/-- The `oprType` value `REPLICATE_DEST` of the iRODS header `dataObjInpOut.h`. -/
def REPLICATE_DEST : Int := 7

/-- The `oprType` value `REPLICATE_SRC` of the iRODS header `dataObjInpOut.h`. -/
def REPLICATE_SRC : Int := 8

/-- The `oprType` value `COPY_DEST` of the iRODS header `dataObjInpOut.h`. -/
def COPY_DEST : Int := 9

/-- The `oprType` value `COPY_SRC` of the iRODS header `dataObjInpOut.h`. -/
def COPY_SRC : Int := 10

/-- Modelled from the spec: the constant `s3_transport_config::UNKNOWN_OBJECT_SIZE`,
declared in `s3_transport.hpp` outside the sources; the spec gives -1 for an unknown
size. -/
def UNKNOWN_OBJECT_SIZE : Int := -1

/-- The fields of `dataObjInp_t` that the plugin reads. -/
structure dataObjInp_t where
  objPath : String
  numThreads : Int
  oprType : Int
  deriving DecidableEq, Repr

/-- The fields of `dataObjInfo_t` that the plugin reads. -/
structure dataObjInfo_t where
  filePath : String
  dataSize : Int
  deriving DecidableEq, Repr

/-- One row of the table `L1desc`; a null `dataObjInp` or `dataObjInfo` is `none`. -/
structure l1desc_t where
  inuseFlag : Bool
  dataObjInp : Option dataObjInp_t
  dataObjInfo : Option dataObjInfo_t
  dataSize : Int
  deriving DecidableEq, Repr

/-- The `irods::file_object` of the call: paths, descriptor, open flags and the two
keywords of `cond_input()` that the plugin looks up with `getValByKey`. -/
structure file_object where
  logical_path : String
  physical_path : String
  file_descriptor : Int
  flags : Int
  DATA_SIZE_KW : Option String
  NUM_THREADS_KW : Option String
  deriving DecidableEq, Repr

/-- A `std::ios_base::openmode`, one flag per bit. -/
structure openmode where
  app : Bool
  ate : Bool
  binary : Bool
  in_ : Bool
  out : Bool
  trunc : Bool
  deriving DecidableEq, Repr

/-- What the plugin can observe of an `s3_transport` object: `get_offset()`,
`get_error()`, `is_last_file_to_close()` and the value given to
`set_bytes_this_thread`. -/
structure s3_transport_obj where
  offset : Int
  error : irods_error
  last_file_to_close : Bool
  bytes_this_thread : Int
  deriving DecidableEq, Repr

/-- What the plugin can observe of a `dstream` object: `is_open()`. -/
structure dstream_obj where
  is_open : Bool
  deriving DecidableEq, Repr

/-- The struct `per_thread_data`; a null `shared_ptr` is `none`. -/
structure per_thread_data where
  open_mode : openmode
  dstream_ptr : Option dstream_obj
  s3_transport_ptr : Option s3_transport_obj
  deriving DecidableEq, Repr

/-- The class `fd_to_data_map`: the map from descriptors to entries and the counter. -/
structure fd_to_data_map where
  data_map : List (Int × per_thread_data)
  fd_counter : Int
  deriving DecidableEq, Repr

/-- The constructor of `fd_to_data_map`. -/
def fd_to_data_map.init : fd_to_data_map := { data_map := [], fd_counter := 3 }

/-- The method `fd_to_data_map::exists`. -/
def fd_to_data_map.fd_exists (m : fd_to_data_map) (fd : Int) : Bool :=
  m.data_map.any (fun e => decide (e.1 = fd))

/-- The method `fd_to_data_map::get`: the entry of the descriptor; `none` when the
assertion `data_map.find(fd) != data_map.end()` of the method fails. -/
def fd_to_data_map.get (m : fd_to_data_map) (fd : Int) : Option per_thread_data :=
  match m.data_map.find? (fun e => decide (e.1 = fd)) with
  | some e => some e.2
  | none => none

/-- The method `fd_to_data_map::remove`. -/
def fd_to_data_map.remove (m : fd_to_data_map) (fd : Int) : fd_to_data_map :=
  { m with data_map := m.data_map.filter (fun e => decide (e.1 ≠ fd)) }

/-- The method `fd_to_data_map::set`. -/
def fd_to_data_map.set (m : fd_to_data_map) (fd : Int) (data : per_thread_data) : fd_to_data_map :=
  { m with data_map := (fd, data) :: (m.remove fd).data_map }

/-- The state of one server process: the globals `irods_s3::data_size` and
`irods_s3::oprType` and the registry `fd_data`. -/
structure process_state where
  data_size : Int
  oprType : Int
  fd_data : fd_to_data_map
  deriving DecidableEq, Repr

/-- The process state at start-up. -/
def process_state.init : process_state :=
  { data_size := UNKNOWN_OBJECT_SIZE, oprType := -1, fd_data := fd_to_data_map.init }

/-- The fields of `s3_transport_config` that `make_dstream` derives from the resolver. -/
structure s3_transport_config where
  object_size : Int
  number_of_client_transfer_threads : Int
  bytes_this_thread : Int
  put_repl_flag : Bool
  deriving DecidableEq, Repr

/-- Answer of the store to one `S3_head_object` request of the stat operation: the
status and the properties left in `savedProperties`. -/
structure stat_head_response where
  status : S3Status
  lastModified : Int
  contentLength : Int
  deriving DecidableEq, Repr

/-- The plugin context of one call together with the collaborators outside the
modelled sources: configuration, the `L1desc` table, Boost, libs3, the iRODS server
and the transport classes. -/
structure plugin_context where
  /-- `is_cacheless_mode(_ctx.prop_map())` -/
  cacheless_mode : Bool
  file_obj : file_object
  L1desc : List l1desc_t
  /-- `boost::lexical_cast<std::uint64_t>`; `none` when it throws `bad_lexical_cast` -/
  lexical_cast_uint64 : String → Option Nat
  /-- `boost::lexical_cast<int>`; `none` when it throws `bad_lexical_cast` -/
  lexical_cast_int : String → Option Int
  /-- the `int` computed from `KW_CFG_MAX_SIZE_FOR_SINGLE_BUFFER` -/
  single_buff_sz : Int
  /-- `getNumThreads` as a function of the data size and the requested thread count -/
  getNumThreads : Int → Int → Int
  /-- the physical path and the table left by `update_physical_path_for_decoupled_naming` -/
  update_physical_path_for_decoupled_naming : file_object → List l1desc_t → String × List l1desc_t
  s3CheckParams : irods_error
  parseS3Path : irods_error
  s3InitPerOperation : irods_error
  s3GetAuthCredentials : irods_error
  /-- the transport built by `std::make_shared<s3_transport>(s3_config)` -/
  make_transport : s3_transport_config → s3_transport_obj
  /-- the transport and the stream after the constructor of `dstream` -/
  make_dstream_obj : s3_transport_obj → openmode → s3_transport_obj × dstream_obj
  /-- the transport after `dstream::write` of the given length -/
  dstream_write : s3_transport_obj → Int → s3_transport_obj
  /-- the transport after `dstream::close` -/
  dstream_close : s3_transport_obj → s3_transport_obj
  /-- `get_retry_count`, `get_retry_wait_time_sec`, `get_max_retry_wait_time_sec` -/
  retry_count : Nat
  retry_wait_time_sec : Nat
  max_retry_wait_time_sec : Nat
  /-- the answer of the store to the HEAD request number `n` (from 0) of a stat call -/
  stat_head : Nat → stat_head_response
  /-- the libs3 function `::S3_status_is_retryable` -/
  libs3_is_retryable : S3Status → Bool
  /-- the libs3 function `S3_get_status_name` -/
  S3_get_status_name : S3Status → String
  resource_name : String
  uid : Nat
  gid : Nat
  /-- the six flags of the member `open_mode` of a `per_thread_data` that is declared
  without initialiser (`per_thread_data data;`): the member is not initialised and holds
  whatever the memory held -/
  indeterminate_open_mode : openmode

/-! ## The resolver `get_number_of_threads_data_size_and_opr_type` -/

/-- Variables of the first loop over `L1desc`. -/
structure l1desc_scan where
  found : Bool
  requested_number_of_threads : Int
  oprType : Int
  data_size : Int
  deriving DecidableEq, Repr

/-- The first loop over `L1desc`: the last entry of the first run of in-use entries
that match the logical and the physical path decides. -/
def scan_L1desc (file_obj : file_object) : List l1desc_t → l1desc_scan → l1desc_scan
  | [], s => s
  | e :: rest, s =>
    if e.inuseFlag then
      match e.dataObjInp, e.dataObjInfo with
      | some inp, some info =>
        if inp.objPath = file_obj.logical_path ∧ info.filePath = file_obj.physical_path then
          scan_L1desc file_obj rest
            { found := true
              requested_number_of_threads := inp.numThreads
              oprType := inp.oprType
              data_size := if s.data_size = UNKNOWN_OBJECT_SIZE then e.dataSize else s.data_size }
        else
          scan_L1desc file_obj rest s
      | _, _ => scan_L1desc file_obj rest s
    else if s.found then
      s
    else
      scan_L1desc file_obj rest s

/-- Variables of the loop over `L1desc` for a replication destination. -/
structure replication_scan where
  found_data_size : Bool
  found_number_of_threads : Bool
  data_size : Int
  number_of_threads : Int
  deriving DecidableEq, Repr

/-- The two assignments of the replication loop for an in-use entry `l1d` of the same
logical path, whose `dataObjInp` is `dobj_input`: the data size from a source entry, the
thread count from a destination entry. -/
def replication_entry (l1d : l1desc_t) (dobj_input : dataObjInp_t) (s : replication_scan) :
    replication_scan :=
  let s :=
    match l1d.dataObjInfo with
    | some dobj_info =>
      if s.found_data_size = false ∧ dobj_input.oprType = REPLICATE_SRC then
        { s with data_size := dobj_info.dataSize, found_data_size := true }
      else s
    | none => s
  if s.found_number_of_threads = false ∧ dobj_input.oprType = REPLICATE_DEST then
    { s with number_of_threads := dobj_input.numThreads, found_number_of_threads := true }
  else s

/-- The loop over `L1desc` that is run when `oprType == REPLICATE_DEST`. -/
def scan_replication (file_obj : file_object) : List l1desc_t → replication_scan → replication_scan
  | [], s => s
  | l1d :: rest, s =>
    match l1d.inuseFlag, l1d.dataObjInp with
    | true, some dobj_input =>
      if dobj_input.objPath ≠ file_obj.logical_path then
        scan_replication file_obj rest s
      else
        let s := replication_entry l1d dobj_input s
        if s.found_data_size = true ∧ s.found_number_of_threads = true then
          s
        else
          scan_replication file_obj rest s
    | _, _ => scan_replication file_obj rest s

/-- The block `if (number_of_threads <= 0)` of the resolver. -/
def resolve_number_of_threads (ctx : plugin_context) (number_of_threads data_size oprType
    requested_number_of_threads : Int) : Int :=
  if number_of_threads ≤ 0 then
    let number_of_threads :=
      match ctx.file_obj.NUM_THREADS_KW with
      | some num_threads_str =>
        match ctx.lexical_cast_int num_threads_str with
        | some n => n
        | none => 0
      | none => number_of_threads
    let number_of_threads :=
      if number_of_threads = 0 then
        if data_size > ctx.single_buff_sz ∧ oprType ≠ REPLICATE_DEST then
          ctx.getNumThreads data_size requested_number_of_threads
        else number_of_threads
      else number_of_threads
    if number_of_threads ≤ 0 ∧ oprType ≠ -1 then 1 else number_of_threads
  else
    number_of_threads

/-- Result of the resolver: the returned error, the three reference parameters, and
the process globals and the shared session after the call. -/
structure resolver_result where
  error : irods_error
  number_of_threads : Int
  data_size : Int
  oprType : Int
  proc : process_state
  shm : multipart_shared_data

/-- The function `get_number_of_threads_data_size_and_opr_type`; `data` is the shared
session that `atomic_exec` hands to the lambda. -/
def get_number_of_threads_data_size_and_opr_type (ctx : plugin_context) (proc : process_state)
    (data : multipart_shared_data) : resolver_result :=
  let file_obj := ctx.file_obj
  let number_of_threads : Int := if data.number_of_threads > 0 then data.number_of_threads else 0
  -- the values stored earlier in the process
  let data_size := proc.data_size
  let oprType := proc.oprType
  let data_size :=
    if data_size = UNKNOWN_OBJECT_SIZE then
      match file_obj.DATA_SIZE_KW with
      | some data_size_str =>
        match ctx.lexical_cast_uint64 data_size_str with
        | some v => to_int64 v
        | none => UNKNOWN_OBJECT_SIZE
      | none => data_size
    else data_size
  let scan := scan_L1desc file_obj ctx.L1desc
    { found := false, requested_number_of_threads := 0, oprType := oprType, data_size := data_size }
  let requested_number_of_threads := scan.requested_number_of_threads
  let oprType := scan.oprType
  let data_size := scan.data_size
  let repl : replication_scan :=
    if oprType = REPLICATE_DEST then
      scan_replication file_obj ctx.L1desc
        { found_data_size := false
          found_number_of_threads := decide (number_of_threads > 0)
          data_size := data_size
          number_of_threads := number_of_threads }
    else
      { found_data_size := false, found_number_of_threads := true
        data_size := data_size, number_of_threads := number_of_threads }
  if oprType = REPLICATE_DEST ∧ repl.found_number_of_threads = false then
    { error := ERROR irods_code.SYS_INTERNAL_ERR
        ("Replicating from source to destination but was not able to find the replication " ++
          "destination in L1desc table.")
      number_of_threads := repl.number_of_threads
      data_size := repl.data_size
      oprType := oprType
      proc := proc
      shm := data }
  else
    let data_size := repl.data_size
    let number_of_threads :=
      resolve_number_of_threads ctx repl.number_of_threads data_size oprType requested_number_of_threads
    let proc := { proc with data_size := data_size, oprType := oprType }
    let data := { data with number_of_threads := number_of_threads }
    let data :=
      if data.threads_remaining_to_close ≤ 0 then
        { data with threads_remaining_to_close := number_of_threads }
      else data
    let data :=
      if oprType = GET_OPR then { data with threads_remaining_to_close := 0 } else data
    { error := SUCCESS
      number_of_threads := number_of_threads
      data_size := data_size
      oprType := oprType
      proc := proc
      shm := data }

/-! ## The stat operation and its retry loop -/

/-- The file type bits that the stat operation stores in `st_mode`. -/
inductive file_mode
  | zero
  | S_IFREG
  | S_IFDIR
  deriving DecidableEq, Repr

/-- The fields of `struct stat` that the stat operation fills. -/
structure struct_stat where
  st_mode : file_mode
  st_nlink : Nat
  st_uid : Nat
  st_gid : Nat
  st_atime : Int
  st_mtime : Int
  st_ctime : Int
  st_size : Int
  deriving DecidableEq, Repr

/-- The buffer after `std::memset(_statbuf, 0, sizeof(struct stat))`. -/
def struct_stat.zero : struct_stat :=
  { st_mode := file_mode.zero, st_nlink := 0, st_uid := 0, st_gid := 0,
    st_atime := 0, st_mtime := 0, st_ctime := 0, st_size := 0 }

/-- State on leaving the `do ... while` loop of the stat operation: the last response,
the number of `S3_head_object` calls, the arguments of the `s3_sleep` calls in order,
and the final `retry_wait`. -/
structure stat_loop_result where
  response : stat_head_response
  attempts : Nat
  sleeps : List Int
  retry_wait : Nat
  deriving DecidableEq, Repr

/-- The `do ... while` loop of `s3_file_stat_operation_with_flag_for_retry_on_not_found`,
entered with the given `retry_cnt`, `retry_wait` and sleeps so far. The first argument
bounds the number of passes; `none` means that the bound was too small. -/
def stat_retry_loop (ctx : plugin_context) (retry_on_not_found : Bool)
    (retry_count_limit max_retry_wait : Nat) :
    Nat → Nat → Nat → List Int → Option stat_loop_result
  | 0, _, _, _ => none
  | fuel + 1, retry_cnt, retry_wait, sleeps =>
    let response := ctx.stat_head retry_cnt
    let status := response.status
    let slept : List Int × Nat :=
      if (retry_on_not_found = true ∧ status ≠ S3Status.S3StatusOK) ∨
          (status ≠ S3Status.S3StatusOK ∧ status ≠ S3Status.S3StatusHttpErrorNotFound) then
        let slept : List Int × Nat :=
          if status = S3Status.S3StatusHttpErrorNotFound then
            (sleeps ++ [1], retry_wait)
          else
            (sleeps ++ [to_int32 retry_wait], (retry_wait * 2) % 2 ^ 64)
        if slept.2 > max_retry_wait then (slept.1, max_retry_wait) else slept
      else
        (sleeps, retry_wait)
    if status ≠ S3Status.S3StatusOK ∧
        (S3_status_is_retryable ctx.libs3_is_retryable status = true ∨
          (retry_on_not_found = true ∧ status = S3Status.S3StatusHttpErrorNotFound)) ∧
        retry_cnt + 1 < retry_count_limit then
      stat_retry_loop ctx retry_on_not_found retry_count_limit max_retry_wait
        fuel (retry_cnt + 1) slept.2 slept.1
    else
      some { response := response, attempts := retry_cnt + 1, sleeps := slept.1, retry_wait := slept.2 }

/-- The first two conjuncts of the `while` condition of the stat loop: the status is
not OK, and it is retryable or it is a not-found while `retry_on_not_found` is set. -/
def stat_status_retried (ctx : plugin_context) (retry_on_not_found : Bool) (status : S3Status) :
    Prop :=
  status ≠ S3Status.S3StatusOK ∧
    (S3_status_is_retryable ctx.libs3_is_retryable status = true ∨
      (retry_on_not_found = true ∧ status = S3Status.S3StatusHttpErrorNotFound))

/-- The whole `while` condition after the attempt with index `i` (from 0), before which
`retry_cnt` is `i`. -/
def stat_goes_on (ctx : plugin_context) (retry_on_not_found : Bool) (retry_count_limit i : Nat) :
    Prop :=
  stat_status_retried ctx retry_on_not_found (ctx.stat_head i).status ∧ i + 1 < retry_count_limit

/-- The message of the two `S3_FILE_STAT_ERR` results of the stat operation. -/
def stat_error_message (ctx : plugin_context) (status : S3Status) : String :=
  "[resource_name=" ++ ctx.resource_name ++ "]  - Error stat\x27ing the S3 object: \"" ++
    ctx.file_obj.physical_path ++ "\"" ++ " - \"" ++ ctx.S3_get_status_name status ++ "\""

/-- The function `s3_file_stat_operation_with_flag_for_retry_on_not_found`: the returned
error, the stat buffer, and the state in which the retry loop was left (when it was
entered). The loop is given `retry_count_limit + 1` passes. -/
def s3_file_stat_operation_with_flag_for_retry_on_not_found (ctx : plugin_context)
    (_statbuf : struct_stat) (retry_on_not_found : Bool) :
    Option (irods_error × struct_stat × Option stat_loop_result) :=
  let retry_count_limit := ctx.retry_count
  let retry_wait := ctx.retry_wait_time_sec
  let max_retry_wait := ctx.max_retry_wait_time_sec
  if ctx.s3CheckParams.ok = false then
    some (PASSMSG ("[resource_name=" ++ ctx.resource_name ++ "] Invalid parameters or physical path.")
      ctx.s3CheckParams, _statbuf, none)
  else
    let _statbuf := struct_stat.zero
    if ctx.parseS3Path.ok = false then
      some (PASSMSG ("[resource_name=" ++ ctx.resource_name ++
        "] Failed parsing the S3 bucket and key from the physical path: \"" ++
        ctx.file_obj.physical_path ++ "\".") ctx.parseS3Path, _statbuf, none)
    else if ctx.s3InitPerOperation.ok = false then
      some (PASSMSG ("[resource_name=" ++ ctx.resource_name ++ "] Failed to initialize the S3 system.")
        ctx.s3InitPerOperation, _statbuf, none)
    else if ctx.s3GetAuthCredentials.ok = false then
      some (PASSMSG ("[resource_name=" ++ ctx.resource_name ++
        "] Failed to get the S3 credentials properties.") ctx.s3GetAuthCredentials, _statbuf, none)
    else
      let ret := ctx.s3GetAuthCredentials
      match stat_retry_loop ctx retry_on_not_found retry_count_limit max_retry_wait
          (retry_count_limit + 1) 0 retry_wait [] with
      | none => none
      | some loop =>
        let status := loop.response.status
        if status = S3Status.S3StatusOK then
          some (SUCCESS,
            { _statbuf with
              st_mode := file_mode.S_IFREG
              st_nlink := 1
              st_uid := ctx.uid
              st_gid := ctx.gid
              st_atime := loop.response.lastModified
              st_mtime := loop.response.lastModified
              st_ctime := loop.response.lastModified
              st_size := loop.response.contentLength }, some loop)
        else if status = S3Status.S3StatusHttpErrorNotFound ∧ retry_on_not_found = true then
          some (ERROR irods_code.S3_FILE_STAT_ERR (stat_error_message ctx status), _statbuf, some loop)
        else if status = S3Status.S3StatusHttpErrorNotFound then
          some (ret, { _statbuf with st_mode := file_mode.S_IFDIR }, some loop)
        else
          some (ERROR irods_code.S3_FILE_STAT_ERR (stat_error_message ctx status), _statbuf, some loop)

/-! ## Streams: `make_dstream`, write and close -/

/-- Result of an operation of the plugin: the returned error, the context (whose file
object the operation may update), the process state and the shared session. -/
structure op_result where
  error : irods_error
  ctx : plugin_context
  proc : process_state
  shm : multipart_shared_data

/-- The function `make_dstream`; the two handles of the returned tuple are those of the
entry returned in `data`. -/
def make_dstream (ctx : plugin_context) (proc : process_state) (shm : multipart_shared_data) :
    op_result × per_thread_data :=
  let updated := ctx.update_physical_path_for_decoupled_naming ctx.file_obj ctx.L1desc
  let ctx := { ctx with file_obj := { ctx.file_obj with physical_path := updated.1 }, L1desc := updated.2 }
  let fd := ctx.file_obj.file_descriptor
  -- create entry for fd if it does not exist: `per_thread_data data;` leaves `open_mode`
  -- without a value and the two handles null
  let proc :=
    if proc.fd_data.fd_exists fd = false then
      { proc with
        fd_data := proc.fd_data.set fd
          { open_mode := ctx.indeterminate_open_mode, dstream_ptr := none, s3_transport_ptr := none } }
    else proc
  match proc.fd_data.get fd with
  | none =>
    -- not reached: the descriptor has an entry by now, so the assertion of `get` holds
    ({ error := ERROR irods_code.SYS_INTERNAL_ERR "fd_data.get: no entry for the descriptor"
       ctx := ctx, proc := proc, shm := shm },
      { open_mode := ctx.indeterminate_open_mode, dstream_ptr := none, s3_transport_ptr := none })
  | some data =>
    if data.dstream_ptr.isSome ∧ data.s3_transport_ptr.isSome then
      ({ error := SUCCESS, ctx := ctx, proc := proc, shm := shm }, data)
    else if ctx.parseS3Path.ok = false then
      ({ error := PASS ctx.parseS3Path, ctx := ctx, proc := proc, shm := shm }, data)
    else if ctx.s3GetAuthCredentials.ok = false then
      ({ error := PASS ctx.s3GetAuthCredentials, ctx := ctx, proc := proc, shm := shm }, data)
    else
      let r := get_number_of_threads_data_size_and_opr_type ctx proc shm
      if r.error.ok = false then
        ({ error := PASS r.error, ctx := ctx, proc := r.proc, shm := r.shm }, data)
      else
        let s3_config : s3_transport_config :=
          { object_size := r.data_size
            number_of_client_transfer_threads := r.number_of_threads
            bytes_this_thread :=
              if r.data_size = UNKNOWN_OBJECT_SIZE ∨ r.number_of_threads = 0 then 0
              else to_int64 (Int.tdiv r.data_size r.number_of_threads)
            put_repl_flag :=
              decide (r.oprType = PUT_OPR ∨ r.oprType = REPLICATE_DEST ∨ r.oprType = COPY_DEST) }
        let open_mode := data.open_mode
        -- a data size of 0 forces the read flag
        let open_mode := if r.data_size = 0 then { open_mode with in_ := true } else open_mode
        let data := if r.data_size = 0 then { data with open_mode := open_mode } else data
        let built := ctx.make_dstream_obj (ctx.make_transport s3_config) open_mode
        let data := { data with s3_transport_ptr := some built.1, dstream_ptr := some built.2 }
        let proc := { r.proc with fd_data := r.proc.fd_data.set fd data }
        ({ error := built.1.error, ctx := ctx, proc := proc, shm := r.shm }, data)

/-! ## Byte share of one writer (`s3_file_write_operation`) -/

/-- The share computed in `s3_file_write_operation` between reading the thread count
from shared memory and `set_bytes_this_thread`: `g_data_size` is the process-wide
`irods_s3::data_size` (an `int64_t`, copied into a `std::uint64_t`),
`shm_number_of_threads` the `int` read from the shared session, `offset` the
transport offset (`off_t`). -/
def bytes_this_thread (g_data_size : Int) (shm_number_of_threads : Int) (offset : Int) : Int :=
  let data_size : Nat := to_uint64 g_data_size
  let number_of_threads : Int := if shm_number_of_threads = 0 then 1 else shm_number_of_threads
  -- `data_size / number_of_threads` is computed in `std::uint64_t`
  let divisor : Nat := to_uint64 number_of_threads
  let bytes : Int := to_int64 (data_size / divisor : Nat)
  if offset ≥ to_int64 (bytes * to_int32 (number_of_threads - 1)) then
    to_int64 (bytes + (data_size % divisor : Nat))
  else
    bytes

/-- Shares of `n` writers that start at the offsets `i * (data_size div n)`, `i = 0 .. n-1`. -/
def thread_shares (data_size : Nat) (n : Nat) : List Int :=
  (List.range n).map (fun i => bytes_this_thread data_size n ((i * (data_size / n) : Nat) : Int))


/-- The function `s3_file_write_operation` for a buffer of length `_len`. -/
def s3_file_write_operation (ctx : plugin_context) (proc : process_state)
    (shm : multipart_shared_data) (_len : Int) : op_result :=
  if ctx.cacheless_mode = true then
    let made := make_dstream ctx proc shm
    let ctx := made.1.ctx
    let proc := made.1.proc
    let shm := made.1.shm
    if made.1.error.ok = false then
      { error := PASS made.1.error, ctx := ctx, proc := proc, shm := shm }
    else
      match made.2.s3_transport_ptr with
      | none =>
        -- not reached: a successful `make_dstream` returns both handles
        { error := made.1.error, ctx := ctx, proc := proc, shm := shm }
      | some transport =>
        let number_of_threads := shm.number_of_threads
        let data_size := proc.data_size
        let offset := transport.offset
        let transport :=
          { transport with bytes_this_thread := bytes_this_thread data_size number_of_threads offset }
        let transport := ctx.dstream_write transport _len
        let fd := ctx.file_obj.file_descriptor
        let proc :=
          { proc with fd_data := proc.fd_data.set fd { made.2 with s3_transport_ptr := some transport } }
        let result := transport.error
        let result := if result.ok = true then { result with code := irods_code.num _len } else result
        { error := result, ctx := ctx, proc := proc, shm := shm }
  else
    { error := ERROR irods_code.SYS_NOT_SUPPORTED
        ("[resource_name=" ++ ctx.resource_name ++ "] s3_file_write_operation")
      ctx := ctx, proc := proc, shm := shm }

/-- Result of `s3_file_close_operation`: the result of the operation and, when the block
that decrements the countdown was run, the pair `(open_count, ref_count)` that it logs. -/
structure close_result where
  result : op_result
  open_count : Option (Int × Int)

/-- The part of `s3_file_close_operation` from `fd_data.remove(fd)` to the end: `data` is
the entry of the descriptor, `result` the result so far, and `proc`, `shm` the state left
by the resolver and by the write of zero bytes, if there was one. -/
def close_descriptor (ctx : plugin_context) (proc : process_state) (shm : multipart_shared_data)
    (data : per_thread_data) (result : irods_error) : close_result :=
  let fd := ctx.file_obj.file_descriptor
  let proc := { proc with fd_data := proc.fd_data.remove fd }
  let s3_transport_ptr : Option s3_transport_obj :=
    match data.dstream_ptr, data.s3_transport_ptr with
    | some dstream, some transport =>
      if dstream.is_open = true then some (ctx.dstream_close transport) else some transport
    | _, t => t
  let result : irods_error :=
    match s3_transport_ptr with
    | some transport => transport.error
    | none => result
  -- decrement the countdown of the shared session
  let decremented : multipart_shared_data × Option (Int × Int) :=
    if proc.oprType ≠ GET_OPR then
      let threads_remaining_to_close := to_int32 (shm.threads_remaining_to_close - 1)
      ({ shm with threads_remaining_to_close := threads_remaining_to_close },
        some (threads_remaining_to_close, shm.ref_count))
    else
      (shm, none)
  let shm := decremented.1
  -- the last closer resets the cached values; the stat with retry that follows only
  -- delays the return and its result is dropped
  let last :=
    match s3_transport_ptr with
    | some transport => transport.last_file_to_close
    | none => false
  let proc :=
    if last = true ∧ result.ok = true then
      { proc with data_size := UNKNOWN_OBJECT_SIZE, oprType := -1 }
    else proc
  { result := { error := result, ctx := ctx, proc := proc, shm := shm }
    open_count := decremented.2 }

/-- The function `s3_file_close_operation`. -/
def s3_file_close_operation (ctx : plugin_context) (proc : process_state)
    (shm : multipart_shared_data) : close_result :=
  if ctx.cacheless_mode = true then
    let fd := ctx.file_obj.file_descriptor
    if fd = 0 then
      { result := { error := SUCCESS, ctx := ctx, proc := proc, shm := shm }, open_count := none }
    else if proc.fd_data.fd_exists fd = false then
      { result :=
          { error := ERROR irods_code.UNIX_FILE_CLOSE_ERR
              ("[resource_name=" ++ ctx.resource_name ++ "] s3_file_close_operation " ++
                "fd_data does not have an entry for fd=" ++ toString fd ++ ".  " ++
                "Was the object closed prior to opening or creating?")
            ctx := ctx, proc := proc, shm := shm }
        open_count := none }
    else
      match proc.fd_data.get fd with
      | none =>
        -- not reached: the descriptor has an entry, so the assertion of `get` holds
        { result :=
            { error := ERROR irods_code.SYS_INTERNAL_ERR "fd_data.get: no entry for the descriptor"
              ctx := ctx, proc := proc, shm := shm }
          open_count := none }
      | some data =>
        let r := get_number_of_threads_data_size_and_opr_type ctx proc shm
        if r.error.ok = false then
          { result := { error := r.error, ctx := ctx, proc := r.proc, shm := r.shm }, open_count := none }
        else
          let oprType := r.oprType
          -- a write-type operation that never wrote: write zero bytes first
          if data.dstream_ptr.isNone ∧ oprType ≠ REPLICATE_SRC ∧ oprType ≠ COPY_SRC ∧
              oprType ≠ GET_OPR then
            let written := s3_file_write_operation ctx r.proc r.shm 0
            if written.error.ok = false then
              { result := { written with error := PASS written.error }, open_count := none }
            else
              match written.proc.fd_data.get fd with
              | none =>
                -- not reached: the write stored the entry of the descriptor, so the
                -- assertion of `get` holds
                { result :=
                    { written with
                      error := ERROR irods_code.SYS_INTERNAL_ERR
                        "fd_data.get: no entry for the descriptor" }
                  open_count := none }
              | some data =>
                close_descriptor written.ctx written.proc written.shm data r.error
          else
            close_descriptor ctx r.proc r.shm data r.error
  else
    { result :=
        { error := ERROR irods_code.SYS_NOT_SUPPORTED
            ("[resource_name=" ++ ctx.resource_name ++ "] s3_file_close_operation")
          ctx := ctx, proc := proc, shm := shm }
      open_count := none }

/-- The condition of the stat loop under which a pass sleeps: the `if` that follows the
HEAD request. -/
def stat_sleeps_after (retry_on_not_found : Bool) (status : S3Status) : Bool :=
  decide ((retry_on_not_found = true ∧ status ≠ S3Status.S3StatusOK) ∨
    (status ≠ S3Status.S3StatusOK ∧ status ≠ S3Status.S3StatusHttpErrorNotFound))

/-- The part of one pass of the stat loop between the HEAD request and the `while`
condition, on the pair of the sleeps so far and `retry_wait`: the sleep, the doubling and
the clamp. -/
def stat_backoff (retry_on_not_found : Bool) (max_retry_wait : Nat) (status : S3Status)
    (slept : List Int × Nat) : List Int × Nat :=
  if (retry_on_not_found = true ∧ status ≠ S3Status.S3StatusOK) ∨
      (status ≠ S3Status.S3StatusOK ∧ status ≠ S3Status.S3StatusHttpErrorNotFound) then
    let next : List Int × Nat :=
      if status = S3Status.S3StatusHttpErrorNotFound then
        (slept.1 ++ [1], slept.2)
      else
        (slept.1 ++ [to_int32 slept.2], (slept.2 * 2) % 2 ^ 64)
    if next.2 > max_retry_wait then (next.1, max_retry_wait) else next
  else
    slept

/-- The passes `first, first + 1, ..., first + count - 1` of the stat loop, as far as the
sleeps and `retry_wait` go. -/
def stat_backoffs (ctx : plugin_context) (retry_on_not_found : Bool) (max_retry_wait : Nat) :
    Nat → Nat → List Int × Nat → List Int × Nat
  | _, 0, slept => slept
  | first, count + 1, slept =>
    stat_backoffs ctx retry_on_not_found max_retry_wait (first + 1) count
      (stat_backoff retry_on_not_found max_retry_wait (ctx.stat_head first).status slept)

/-- Number of the HEAD attempts before attempt `i` (from 0) of a stat call whose status is
not a not-found. -/
def other_failures_before (ctx : plugin_context) (i : Nat) : Nat :=
  ((List.range i).filter
    (fun n => decide ((ctx.stat_head n).status ≠ S3Status.S3StatusHttpErrorNotFound))).length

/-- Number of the HEAD attempts before attempt `n` (from 0) of a stat call after which
the loop sleeps. -/
def stat_sleeps_count (ctx : plugin_context) (retry_on_not_found : Bool) (n : Nat) : Nat :=
  ((List.range n).filter
    (fun i => stat_sleeps_after retry_on_not_found (ctx.stat_head i).status)).length

/-- The value of `retry_wait` after `k` passes that double it, each followed by the
clamp: `retry_wait *= 2` on a `std::size_t`, then `if (retry_wait > max_retry_wait)
retry_wait = max_retry_wait`. -/
def retry_wait_after (max_retry_wait retry_wait : Nat) : Nat → Nat
  | 0 => retry_wait
  | k + 1 =>
    if (retry_wait_after max_retry_wait retry_wait k * 2) % 2 ^ 64 > max_retry_wait then
      max_retry_wait
    else (retry_wait_after max_retry_wait retry_wait k * 2) % 2 ^ 64

/-! ## The retry loop of the readdir operation -/

/-- State on leaving the `do ... while` loop of `s3_readdir_operation`: the last status,
the number of `S3_list_bucket` calls, the arguments of the `s3_sleep` calls in order, and
the final `retry_wait`. -/
structure readdir_loop_result where
  status : S3Status
  attempts : Nat
  sleeps : List Int
  retry_wait : Nat
  deriving DecidableEq, Repr

/-- The `do ... while` loop of `s3_readdir_operation`; `list_status n` is the status that
the store leaves in `data.status` for the `S3_list_bucket` request number `n` (from 0).
The first argument bounds the number of passes; `none` means that the bound was too
small. -/
def readdir_retry_loop (ctx : plugin_context) (list_status : Nat → S3Status)
    (retry_count_limit max_retry_wait : Nat) :
    Nat → Nat → Nat → List Int → Option readdir_loop_result
  | 0, _, _, _ => none
  | fuel + 1, retry_cnt, retry_wait, sleeps =>
    let status := list_status retry_cnt
    let slept : List Int × Nat :=
      if status ≠ S3Status.S3StatusOK then
        let next : List Int × Nat := (sleeps ++ [to_int32 retry_wait], (retry_wait * 2) % 2 ^ 64)
        if next.2 > max_retry_wait then (next.1, max_retry_wait) else next
      else
        (sleeps, retry_wait)
    if status ≠ S3Status.S3StatusOK ∧
        S3_status_is_retryable ctx.libs3_is_retryable status = true ∧
        retry_cnt + 1 < retry_count_limit then
      readdir_retry_loop ctx list_status retry_count_limit max_retry_wait
        fuel (retry_cnt + 1) slept.2 slept.1
    else
      some { status := status, attempts := retry_cnt + 1, sleeps := slept.1, retry_wait := slept.2 }

/-- The block of `s3_readdir_operation` that fetches more entries when the lists are
empty and the last answer was truncated: the two set-up calls, the retry loop and the
error for a status that is not OK. The result is the error (`SUCCESS` when the operation
goes on) and the state in which the loop was left, when it was entered. The loop is given
`retry_count_limit + 1` passes. -/
def readdir_fetch (ctx : plugin_context) (list_status : Nat → S3Status) (search_key : String) :
    Option (irods_error × Option readdir_loop_result) :=
  let retry_count_limit := ctx.retry_count
  let retry_wait := ctx.retry_wait_time_sec
  let max_retry_wait := ctx.max_retry_wait_time_sec
  if ctx.s3InitPerOperation.ok = false then
    some (PASS ctx.s3InitPerOperation, none)
  else if ctx.s3GetAuthCredentials.ok = false then
    some (PASS ctx.s3GetAuthCredentials, none)
  else
    match readdir_retry_loop ctx list_status retry_count_limit max_retry_wait
        (retry_count_limit + 1) 0 retry_wait [] with
    | none => none
    | some loop =>
      if loop.status ≠ S3Status.S3StatusOK then
        some (ERROR irods_code.S3_FILE_STAT_ERR
          ("[resource_name=" ++ ctx.resource_name ++ "] - Error in S3 listing:  \"" ++
            search_key ++ "\"" ++ " - \"" ++ ctx.S3_get_status_name loop.status ++ "\""), some loop)
      else
        some (SUCCESS, some loop)

/-- The part of one pass of the readdir loop between the request and the `while`
condition, on the pair of the sleeps so far and `retry_wait`. -/
def readdir_backoff (max_retry_wait : Nat) (status : S3Status) (slept : List Int × Nat) :
    List Int × Nat :=
  if status ≠ S3Status.S3StatusOK then
    let next : List Int × Nat := (slept.1 ++ [to_int32 slept.2], (slept.2 * 2) % 2 ^ 64)
    if next.2 > max_retry_wait then (next.1, max_retry_wait) else next
  else
    slept

/-- The passes `first, ..., first + count - 1` of the readdir loop, as far as the sleeps
and `retry_wait` go. -/
def readdir_backoffs (list_status : Nat → S3Status) (max_retry_wait : Nat) :
    Nat → Nat → List Int × Nat → List Int × Nat
  | _, 0, slept => slept
  | first, count + 1, slept =>
    readdir_backoffs list_status max_retry_wait (first + 1) count
      (readdir_backoff max_retry_wait (list_status first) slept)

/-! ## Parts of the resolver and of `make_dstream` -/

/-- The test of the first loop over `L1desc` on one entry: it is in use, its `dataObjInp`
and `dataObjInfo` are not null, and its logical and physical path are those of the
object. -/
def l1desc_matches (file_obj : file_object) (e : l1desc_t) : Bool :=
  e.inuseFlag &&
    (match e.dataObjInp, e.dataObjInfo with
      | some inp, some info =>
        decide (inp.objPath = file_obj.logical_path ∧ info.filePath = file_obj.physical_path)
      | _, _ => false)

/-- The test of the replication loop for the entry that gives the data size: it is in
use, its `dataObjInp` is not null and names the logical path of the object, its
`dataObjInfo` is not null, and its operation type is `REPLICATE_SRC`. -/
def is_replication_source (file_obj : file_object) (l1d : l1desc_t) : Bool :=
  l1d.inuseFlag &&
    (match l1d.dataObjInp, l1d.dataObjInfo with
      | some dobj_input, some _ =>
        decide (dobj_input.objPath = file_obj.logical_path ∧ dobj_input.oprType = REPLICATE_SRC)
      | _, _ => false)

/-- The data size of the resolver before its first loop over `L1desc`: the value saved in
the process, or else the value of `DATA_SIZE_KW`. -/
def data_size_before_scan (ctx : plugin_context) (proc : process_state) : Int :=
  if proc.data_size = UNKNOWN_OBJECT_SIZE then
    match ctx.file_obj.DATA_SIZE_KW with
    | some data_size_str =>
      match ctx.lexical_cast_uint64 data_size_str with
      | some v => to_int64 v
      | none => UNKNOWN_OBJECT_SIZE
    | none => proc.data_size
  else proc.data_size

/-- The first loop of the resolver over `L1desc`, from the values with which the resolver
enters it. -/
def first_scan (ctx : plugin_context) (proc : process_state) : l1desc_scan :=
  scan_L1desc ctx.file_obj ctx.L1desc
    { found := false, requested_number_of_threads := 0, oprType := proc.oprType,
      data_size := data_size_before_scan ctx proc }

/-- The statement `open_mode |= std::ios_base::in`. -/
def openmode.or_in (open_mode : openmode) : openmode :=
  { open_mode with in_ := true }

/-! ## Further parts of the resolver and of the close -/

/-- The loop of the resolver for a replication destination, from the values with which
the resolver enters it; for another operation type the loop is not run and the values
stay as they are. -/
def second_scan (ctx : plugin_context) (proc : process_state) (data : multipart_shared_data) :
    replication_scan :=
  if (first_scan ctx proc).oprType = REPLICATE_DEST then
    scan_replication ctx.file_obj ctx.L1desc
      { found_data_size := false
        found_number_of_threads :=
          decide ((if data.number_of_threads > 0 then data.number_of_threads else 0) > 0)
        data_size := (first_scan ctx proc).data_size
        number_of_threads := if data.number_of_threads > 0 then data.number_of_threads else 0 }
  else
    { found_data_size := false, found_number_of_threads := true
      data_size := (first_scan ctx proc).data_size
      number_of_threads := if data.number_of_threads > 0 then data.number_of_threads else 0 }

/-- The context of a request that does not carry the keyword `DATA_SIZE_KW`. -/
def without_data_size_hint (ctx : plugin_context) : plugin_context :=
  { ctx with file_obj := { ctx.file_obj with DATA_SIZE_KW := none } }

/-- The context of a request that does not carry the keyword `NUM_THREADS_KW`. -/
def without_num_threads_hint (ctx : plugin_context) : plugin_context :=
  { ctx with file_obj := { ctx.file_obj with NUM_THREADS_KW := none } }

/-! ## Open modes and `s3_file_open_operation` -/

/-- The operator `&` on two `int` values, through their 32-bit patterns. -/
def int_and (a b : Int) : Int :=
  to_int32 (((a % 2 ^ 32).toNat &&& (b % 2 ^ 32).toNat : Nat) : Int)

/-- The operator `|` on two `int` values, through their 32-bit patterns. -/
def int_or (a b : Int) : Int :=
  to_int32 (((a % 2 ^ 32).toNat ||| (b % 2 ^ 32).toNat : Nat) : Int)

/-- The flags of `<fcntl.h>` that the plugin names. The header is outside the sources and
the values belong to the platform, so they are parameters of the model. -/
structure fcntl_flags where
  O_RDONLY : Int
  O_WRONLY : Int
  O_RDWR : Int
  O_ACCMODE : Int
  O_CREAT : Int
  O_TRUNC : Int
  O_APPEND : Int
  deriving DecidableEq, Repr

/-- What the open operation needs of the flag values of the platform: under the mask
`O_ACCMODE` the word `O_WRONLY | O_CREAT | O_TRUNC` is `O_WRONLY`, which differs from
`O_RDONLY` and from `O_RDWR`, and the word holds the bit `O_TRUNC` and not the bit
`O_APPEND`. -/
def fcntl_flags.posix_layout (fl : fcntl_flags) : Prop :=
  int_and (int_or (int_or fl.O_WRONLY fl.O_CREAT) fl.O_TRUNC) fl.O_ACCMODE = fl.O_WRONLY ∧
    fl.O_WRONLY ≠ fl.O_RDONLY ∧ fl.O_WRONLY ≠ fl.O_RDWR ∧
    int_and (int_or (int_or fl.O_WRONLY fl.O_CREAT) fl.O_TRUNC) fl.O_TRUNC ≠ 0 ∧
    int_and (int_or (int_or fl.O_WRONLY fl.O_CREAT) fl.O_TRUNC) fl.O_APPEND = 0

/-- The function `operation_requires_that_object_exists`. -/
def operation_requires_that_object_exists (open_mode : openmode) (oprType : Int) : Bool :=
  let put_repl_flag : Bool :=
    decide (oprType = PUT_OPR ∨ oprType = REPLICATE_DEST ∨ oprType = COPY_DEST)
  -- open_mode & ~(ios_base::ate | ios_base::binary)
  let m : openmode := { open_mode with ate := false, binary := false }
  -- read only, object must exist
  if m = { app := false, ate := false, binary := false, in_ := true, out := false, trunc := false } then
    true
  -- full file upload, object need not exist
  else if put_repl_flag = true then
    false
  -- both input and output, object must exist
  else if m = { app := false, ate := false, binary := false, in_ := true, out := true, trunc := false } then
    true
  else
    false

/-- The function `translate_open_mode_posix_to_stream`. -/
def translate_open_mode_posix_to_stream (fl : fcntl_flags) (oflag : Int) : openmode :=
  let mode : openmode :=
    { app := false, ate := false, binary := false, in_ := false, out := false, trunc := false }
  let mode :=
    if int_and oflag fl.O_ACCMODE = fl.O_WRONLY ∨ int_and oflag fl.O_ACCMODE = fl.O_RDWR then
      { mode with out := true }
    else mode
  let mode :=
    if int_and oflag fl.O_ACCMODE = fl.O_RDONLY ∨ int_and oflag fl.O_ACCMODE = fl.O_RDWR then
      { mode with in_ := true }
    else mode
  let mode := if int_and oflag fl.O_TRUNC ≠ 0 then { mode with trunc := true } else mode
  if int_and oflag fl.O_APPEND ≠ 0 then { mode with app := true, trunc := false } else mode

/-- Variables of the loop over `L1desc` in `s3_file_open_operation`. -/
structure open_scan where
  found : Bool
  oprType : Int
  deriving DecidableEq, Repr

/-- The loop over `L1desc` in `s3_file_open_operation`. -/
def scan_open (file_obj : file_object) : List l1desc_t → open_scan → open_scan
  | [], s => s
  | e :: rest, s =>
    if e.inuseFlag then
      match e.dataObjInp, e.dataObjInfo with
      | some inp, some info =>
        if inp.objPath = file_obj.logical_path ∧ info.filePath = file_obj.physical_path then
          scan_open file_obj rest { found := true, oprType := inp.oprType }
        else
          scan_open file_obj rest s
      | _, _ => scan_open file_obj rest s
    else if s.found then
      s
    else
      scan_open file_obj rest s

/-- The method `fd_to_data_map::get_and_increment_fd_counter`: the value returned and the
map afterwards. -/
def fd_to_data_map.get_and_increment_fd_counter (m : fd_to_data_map) : Int × fd_to_data_map :=
  (m.fd_counter, { m with fd_counter := to_int32 (m.fd_counter + 1) })

/-- Result of `s3_file_open_operation`: the returned error, the context (whose file object
holds the new descriptor), the process, whether `get_object_s3_status` and
`handle_glacier_status` were called, and the restore requests that were sent. -/
structure open_result where
  error : irods_error
  ctx : plugin_context
  proc : process_state
  existence_checked : Bool
  glacier_handled : Bool
  restore_requests : List restore_request

/-- The function `s3_file_open_operation`. The flags of `<fcntl.h>` are `fl`; the key that
`parseS3Path` finds is `object_key`, the store answers the HEAD request with `response`
and restore requests through `S3_restore_object`, and the configured restoration days and
tier are the last two arguments. -/
def s3_file_open_operation (fl : fcntl_flags) (ctx : plugin_context) (proc : process_state)
    (object_key : String) (response : head_response)
    (S3_restore_object : restore_request → S3Status) (restoration_days : Nat)
    (restoration_tier : String) : open_result :=
  if ctx.cacheless_mode = true then
    let file_obj := ctx.file_obj
    -- get oprType
    let scan := scan_open file_obj ctx.L1desc { found := false, oprType := -1 }
    let oprType := scan.oprType
    let open_mode :=
      if oprType = PUT_OPR ∧
          (int_and file_obj.flags fl.O_WRONLY ≠ 0 ∨ int_and file_obj.flags fl.O_RDWR ≠ 0) then
        translate_open_mode_posix_to_stream fl (int_or (int_or fl.O_WRONLY fl.O_CREAT) fl.O_TRUNC)
      else
        translate_open_mode_posix_to_stream fl file_obj.flags
    let counter := proc.fd_data.get_and_increment_fd_counter
    let fd := counter.1
    -- `per_thread_data data; data.open_mode = open_mode;`
    let data : per_thread_data :=
      { open_mode := open_mode, dstream_ptr := none, s3_transport_ptr := none }
    let proc := { proc with fd_data := counter.2.set fd data }
    let ctx := { ctx with file_obj := { file_obj with file_descriptor := fd } }
    if operation_requires_that_object_exists open_mode oprType = true then
      if ctx.s3GetAuthCredentials.ok = false then
        { error := PASS ctx.s3GetAuthCredentials, ctx := ctx, proc := proc
          existence_checked := false, glacier_handled := false, restore_requests := [] }
      else if ctx.parseS3Path.ok = false then
        { error := PASS ctx.parseS3Path, ctx := ctx, proc := proc
          existence_checked := false, glacier_handled := false, restore_requests := [] }
      else
        -- determine if the object exists
        let status := get_object_s3_status response 0 ""
        if status.error.ok = false then
          { error := PASS status.error, ctx := ctx, proc := proc
            existence_checked := true, glacier_handled := false, restore_requests := [] }
        else
          let handled := handle_glacier_status S3_restore_object object_key restoration_days
            restoration_tier status.object_status status.storage_class
          { error := if handled.1.ok = false then PASS handled.1 else handled.1
            ctx := ctx, proc := proc
            existence_checked := true, glacier_handled := true, restore_requests := handled.2 }
    else
      { error := SUCCESS, ctx := ctx, proc := proc
        existence_checked := false, glacier_handled := false, restore_requests := [] }
  else
    { error := ERROR irods_code.SYS_NOT_SUPPORTED
        ("[resource_name=" ++ ctx.resource_name ++ "] s3_file_open_operation")
      ctx := ctx, proc := proc
      existence_checked := false, glacier_handled := false, restore_requests := [] }

/-! ## Contexts for worked examples -/

/-- The statuses that the libs3 function `::S3_status_is_retryable` lists. -/
def libs3_S3_status_is_retryable (status : S3Status) : Bool :=
  match status with
  | S3Status.S3StatusNameLookupError => true
  | S3Status.S3StatusFailedToConnect => true
  | S3Status.S3StatusConnectionFailed => true
  | S3Status.S3StatusErrorInternalError => true
  | S3Status.S3StatusErrorOperationAborted => true
  | S3Status.S3StatusErrorRequestTimeout => true
  | _ => false

/-- A context in cacheless mode for the object `/zone/obj` stored at `/bucket/obj` and
opened as descriptor `fd`: the `L1desc` table is `table`, the store answers the HEAD
requests of a stat call with `statuses` in turn (and with OK afterwards), the retry
limit is `retry_count`, and the transport classes report no error. -/
def demo_context (fd : Int) (table : List l1desc_t) (statuses : List S3Status)
    (retry_count : Nat) : plugin_context :=
  { cacheless_mode := true
    file_obj :=
      { logical_path := "/zone/obj", physical_path := "/bucket/obj", file_descriptor := fd,
        flags := 1, DATA_SIZE_KW := none, NUM_THREADS_KW := none }
    L1desc := table
    lexical_cast_uint64 := fun _ => none
    lexical_cast_int := fun _ => none
    single_buff_sz := 33554432
    getNumThreads := fun _ _ => 4
    update_physical_path_for_decoupled_naming := fun file_obj table => (file_obj.physical_path, table)
    s3CheckParams := SUCCESS
    parseS3Path := SUCCESS
    s3InitPerOperation := SUCCESS
    s3GetAuthCredentials := SUCCESS
    make_transport := fun config =>
      { offset := 0, error := SUCCESS, last_file_to_close := false,
        bytes_this_thread := config.bytes_this_thread }
    make_dstream_obj := fun transport _ => (transport, { is_open := true })
    dstream_write := fun transport len => { transport with offset := transport.offset + len }
    dstream_close := fun transport => transport
    retry_count := retry_count
    retry_wait_time_sec := 2
    max_retry_wait_time_sec := 30
    stat_head := fun n =>
      { status := statuses.getD n S3Status.S3StatusOK, lastModified := 0, contentLength := 10 }
    libs3_is_retryable := libs3_S3_status_is_retryable
    S3_get_status_name := fun _ => "status"
    resource_name := "s3resc"
    uid := 0
    gid := 0
    indeterminate_open_mode :=
      { app := true, ate := true, binary := false, in_ := true, out := true, trunc := true } }

/-- An `L1desc` table with one in-use entry for `/zone/obj` at `/bucket/obj`, of the given
operation type, thread count and size. -/
def demo_table (oprType numThreads dataSize : Int) : List l1desc_t :=
  [{ inuseFlag := true
     dataObjInp := some { objPath := "/zone/obj", numThreads := numThreads, oprType := oprType }
     dataObjInfo := some { filePath := "/bucket/obj", dataSize := dataSize }
     dataSize := dataSize }]

/-- A process in which the descriptor `fd` was opened; with `written` set its stream and
transport exist, otherwise nothing was written through the descriptor yet. -/
def demo_process (fd : Int) (written : Bool) : process_state :=
  { data_size := UNKNOWN_OBJECT_SIZE
    oprType := -1
    fd_data :=
      { data_map :=
          [(fd,
            { open_mode :=
                { app := false, ate := false, binary := false, in_ := false, out := true, trunc := true }
              dstream_ptr := if written then some { is_open := true } else none
              s3_transport_ptr :=
                if written then
                  some { offset := 5, error := SUCCESS, last_file_to_close := false, bytes_this_thread := 5 }
                else none })]
        fd_counter := fd + 1 } }

/-- The context `demo_context 3 [] statuses retry_count` with the given configured
`retry_wait` and `max_retry_wait`. -/
def demo_context_with_wait (statuses : List S3Status) (retry_count retry_wait max_retry_wait : Nat) :
    plugin_context :=
  { demo_context 3 [] statuses retry_count with
    retry_wait_time_sec := retry_wait
    max_retry_wait_time_sec := max_retry_wait }

/-- The context `demo_context 3 table [] 3` of a request that carries the keyword
`DATA_SIZE_KW` with the text `hint`, which `boost::lexical_cast<std::uint64_t>` turns into
`parsed`. -/
def demo_context_with_size_hint (table : List l1desc_t) (hint : String) (parsed : Option Nat) :
    plugin_context :=
  { demo_context 3 table [] 3 with
    file_obj :=
      { logical_path := "/zone/obj", physical_path := "/bucket/obj", file_descriptor := 3,
        flags := 1, DATA_SIZE_KW := some hint, NUM_THREADS_KW := none }
    lexical_cast_uint64 := fun _ => parsed }

/-- An `L1desc` table of a replication of `/zone/obj` to `/bucket/obj`: the entry of the
source replica at `/vault/obj`, whose `dataObjInfo` holds `source_size`, and the entry of
the destination, with the given thread count and no size. -/
def demo_replication_table (source_size numThreads : Int) : List l1desc_t :=
  [{ inuseFlag := true
     dataObjInp := some { objPath := "/zone/obj", numThreads := 0, oprType := REPLICATE_SRC }
     dataObjInfo := some { filePath := "/vault/obj", dataSize := source_size }
     dataSize := source_size },
   { inuseFlag := true
     dataObjInp := some { objPath := "/zone/obj", numThreads := numThreads, oprType := REPLICATE_DEST }
     dataObjInfo := some { filePath := "/bucket/obj", dataSize := 0 }
     dataSize := UNKNOWN_OBJECT_SIZE }]

/-- The context `demo_context 3 table [] 3` of a request that carries the keyword
`NUM_THREADS_KW` with the text `hint`, which `boost::lexical_cast<int>` turns into
`parsed`. -/
def demo_context_with_thread_hint (table : List l1desc_t) (hint : String) (parsed : Option Int) :
    plugin_context :=
  { demo_context 3 table [] 3 with
    file_obj :=
      { logical_path := "/zone/obj", physical_path := "/bucket/obj", file_descriptor := 3,
        flags := 1, DATA_SIZE_KW := none, NUM_THREADS_KW := some hint }
    lexical_cast_int := fun _ => parsed }

/-- The values of the flags of `<fcntl.h>` on Linux. -/
def linux_fcntl : fcntl_flags :=
  { O_RDONLY := 0, O_WRONLY := 1, O_RDWR := 2, O_ACCMODE := 3, O_CREAT := 64, O_TRUNC := 512,
    O_APPEND := 1024 }

/-- The context `demo_context 0 table [] 3` of an open request with the given `flags`. -/
def demo_open_context (table : List l1desc_t) (flags : Int) : plugin_context :=
  { demo_context 0 table [] 3 with
    file_obj :=
      { logical_path := "/zone/obj", physical_path := "/bucket/obj", file_descriptor := 0,
        flags := flags, DATA_SIZE_KW := none, NUM_THREADS_KW := none } }

/-- The open of `/zone/obj` for a `PUT_OPR` of an empty object with the flag `O_WRONLY`,
in a fresh process. -/
def demo_opened : open_result :=
  s3_file_open_operation linux_fcntl (demo_open_context (demo_table PUT_OPR 1 0) 1)
    process_state.init "obj" (demo_head_response none none) (fun _ => S3Status.S3StatusOK) 7
    "Standard"

/-- The close that follows `demo_opened`, on a fresh session. -/
def demo_first_close : close_result :=
  s3_file_close_operation demo_opened.ctx demo_opened.proc (demo_session 0 0)

/-- The close of the same descriptor that follows `demo_first_close`. -/
def demo_second_close : close_result :=
  s3_file_close_operation demo_first_close.result.ctx demo_first_close.result.proc
    demo_first_close.result.shm

end irods_s3

/-! ## Lemmas on machine integers -/

theorem to_uint64_of_lt (x : Nat) (h : x < 2 ^ 64) : to_uint64 (x : Int) = x := by
  unfold to_uint64
  have h1 : ((x : Int) % 2 ^ 64) = (x : Int) := Int.emod_eq_of_lt (by omega) (by exact_mod_cast h)
  rw [h1]
  simp

theorem to_int64_of_bounds (x : Int) (h0 : -(2 ^ 63) ≤ x) (h1 : x < 2 ^ 63) : to_int64 x = x := by
  unfold to_int64
  omega

theorem to_int32_of_bounds (x : Int) (h0 : -(2 ^ 31) ≤ x) (h1 : x < 2 ^ 31) : to_int32 x = x := by
  unfold to_int32
  omega

namespace irods_s3

open shared_data s3_transport

/-! ## Byte shares -/

/-- The share computation on a quotient `q` and a remainder `r` that stay in range. -/
theorem bytes_this_thread_eq (data_size n q r : Nat) (offset : Int) (hn : 1 ≤ n) (hn32 : n < 2 ^ 31)
    (hd : data_size < 2 ^ 63) (hq : data_size / n = q) (hr : data_size % n = r) :
    bytes_this_thread data_size n offset =
      if offset ≥ ((q * (n - 1) : Nat) : Int) then ((q + r : Nat) : Int) else (q : Int) := by
  have hsum : q * n + r = data_size := by rw [← hq, ← hr]; exact Nat.div_add_mod' data_size n
  have hn0 : (n : Int) ≠ 0 := by omega
  have hqn : q ≤ q * n := Nat.le_mul_of_pos_right q (by omega)
  have hmul : q * (n - 1) ≤ q * n := Nat.mul_le_mul_left _ (by omega)
  unfold bytes_this_thread
  simp only [hn0, if_false]
  rw [to_uint64_of_lt data_size (by omega), to_uint64_of_lt n (by omega), hq, hr]
  rw [to_int64_of_bounds (q : Int) (by omega) (by omega)]
  rw [to_int32_of_bounds ((n : Int) - 1) (by omega) (by omega)]
  have hcast : (q : Int) * ((n : Int) - 1) = ((q * (n - 1) : Nat) : Int) := by
    rw [Nat.cast_mul, Nat.cast_sub hn]; simp
  rw [hcast, to_int64_of_bounds _ (by omega) (by omega)]
  have hcast2 : (q : Int) + (r : Int) = ((q + r : Nat) : Int) := by push_cast; rfl
  rw [hcast2, to_int64_of_bounds _ (by omega) (by omega)]

/-- Share of writer `i` among `n ≥ 1` writers of an object that has no byte or at least
one byte per writer: the quotient, and the remainder on top for the last writer. -/
theorem bytes_this_thread_of_index (data_size n i : Nat) (hn : 1 ≤ n) (hn32 : n < 2 ^ 31)
    (hd : data_size < 2 ^ 63) (h : n ≤ data_size ∨ data_size = 0) (hi : i < n) :
    bytes_this_thread data_size n ((i * (data_size / n) : Nat) : Int) =
      if i = n - 1 then ((data_size / n + data_size % n : Nat) : Int) else ((data_size / n : Nat) : Int) := by
  rw [bytes_this_thread_eq data_size n (data_size / n) (data_size % n) _ hn hn32 hd rfl rfl]
  by_cases hlast : i = n - 1
  · subst hlast
    have hge : (((n - 1) * (data_size / n) : Nat) : Int) ≥ ((data_size / n * (n - 1) : Nat) : Int) := by
      rw [Nat.mul_comm]
    simp only [hge, if_true]
  · simp only [hlast, if_false]
    rcases h with h | h
    · have hqpos : 1 ≤ data_size / n := (Nat.one_le_div_iff (by omega)).2 h
      have hlt : i * (data_size / n) < data_size / n * (n - 1) := by
        have hi1 : i + 1 ≤ n - 1 := by omega
        calc i * (data_size / n) < (i + 1) * (data_size / n) := by
              rw [Nat.add_mul]; omega
          _ ≤ (n - 1) * (data_size / n) := Nat.mul_le_mul_right _ hi1
          _ = data_size / n * (n - 1) := Nat.mul_comm _ _
      have hnot : ¬ ((i * (data_size / n) : Nat) : Int) ≥ ((data_size / n * (n - 1) : Nat) : Int) := by
        intro hc
        have := Int.ofNat_le.1 hc
        omega
      simp only [hnot, if_false]
    · subst h
      simp

/-- The shares of `n` writers as a list of quotients with the remainder added last. -/
theorem thread_shares_eq (data_size m : Nat) (hn32 : m + 1 < 2 ^ 31)
    (hd : data_size < 2 ^ 63) (h : m + 1 ≤ data_size ∨ data_size = 0) :
    thread_shares data_size (m + 1) =
      List.replicate m ((data_size / (m + 1) : Nat) : Int) ++
        [((data_size / (m + 1) + data_size % (m + 1) : Nat) : Int)] := by
  have hfront : (List.range m).map
      (fun i => bytes_this_thread data_size ((m + 1 : Nat) : Int)
        ((i * (data_size / (m + 1)) : Nat) : Int)) =
      List.replicate m ((data_size / (m + 1) : Nat) : Int) := by
    rw [List.eq_replicate_iff]
    refine ⟨by simp, ?_⟩
    intro b hb
    rw [List.mem_map] at hb
    obtain ⟨i, hi, rfl⟩ := hb
    rw [List.mem_range] at hi
    rw [bytes_this_thread_of_index data_size (m + 1) i (by omega) hn32 hd h (by omega)]
    rw [if_neg (by omega)]
  have hlast : bytes_this_thread data_size ((m + 1 : Nat) : Int)
      ((m * (data_size / (m + 1)) : Nat) : Int) =
      ((data_size / (m + 1) + data_size % (m + 1) : Nat) : Int) := by
    rw [bytes_this_thread_of_index data_size (m + 1) m (by omega) hn32 hd h (by omega)]
    rw [if_pos (by omega)]
  unfold thread_shares
  rw [List.range_succ, List.map_append, List.map_singleton, hfront, hlast]

/-- C1 (as amended): for every thread count `n ≥ 1` and every `data_size` that is 0 or at
least `n`, the shares of `n` writers that start at the offsets `i * (data_size div n)` sum
to exactly `data_size`, and writer `i` gets `data_size div n`, with `data_size mod n` on
top for the last writer `i = n - 1` only. -/
theorem thread_shares_cover (data_size n : Nat) (hn : 1 ≤ n) (hn32 : n < 2 ^ 31)
    (hd : data_size < 2 ^ 63) (h : n ≤ data_size ∨ data_size = 0) :
    (thread_shares data_size n).sum = (data_size : Int) ∧
    ∀ i, i < n → (thread_shares data_size n)[i]? =
      some (if i = n - 1 then ((data_size / n + data_size % n : Nat) : Int)
        else ((data_size / n : Nat) : Int)) := by
  obtain ⟨m, rfl⟩ : ∃ m, n = m + 1 := ⟨n - 1, by omega⟩
  rw [thread_shares_eq data_size m hn32 hd h]
  constructor
  · rw [List.sum_append, List.sum_replicate, List.sum_singleton]
    have hq : data_size / (m + 1) * (m + 1) + data_size % (m + 1) = data_size :=
      Nat.div_add_mod' data_size (m + 1)
    have hq2 : ((data_size / (m + 1) * (m + 1) + data_size % (m + 1) : Nat) : Int) = data_size := by
      rw [hq]
    push_cast at hq2
    push_cast
    rw [nsmul_eq_mul]
    linarith
  · intro i hi
    by_cases hlast : i = m
    · subst hlast
      rw [List.getElem?_append_right (by simp)]
      simp
    · rw [List.getElem?_append_left (by simp; omega)]
      rw [List.getElem?_replicate]
      have h1 : i < m := by omega
      simp [h1, hlast]

/-- A worked instance: ten bytes over three writers. -/
theorem thread_shares_cover_witness :
    (1 ≤ 3 ∧ 3 < 2 ^ 31 ∧ 10 < 2 ^ 63 ∧ (3 ≤ 10 ∨ 10 = 0)) ∧
      (thread_shares 10 3).sum = ((10 : Nat) : Int) :=
  ⟨by decide, (thread_shares_cover 10 3 (by decide) (by decide) (by decide) (Or.inl (by decide))).1⟩

/-- C1 (counterexample): one byte and two writers. Both writers start at offset 0, both
pass the test on the offset and both get the remainder, so the shares are 1 and 1 and
their sum is 2. -/
theorem thread_shares_small_object :
    thread_shares 1 2 = [1, 1] ∧ (thread_shares 1 2).sum ≠ ((1 : Nat) : Int) := by
  decide

end irods_s3

namespace shared_data

/-! ## The deletion predicate -/

/-- C3: `can_delete()` is true exactly when `threads_remaining_to_close == 0` if
`know_number_of_threads` is set and exactly when `file_open_counter == 0` otherwise; with
the thread count known it is false whenever `threads_remaining_to_close > 0`; and two
sessions that agree on these three fields give the same answer. -/
theorem can_delete_iff (d : multipart_shared_data) :
    (d.can_delete = true ↔
      (if d.know_number_of_threads = true then d.threads_remaining_to_close = 0
        else d.file_open_counter = 0)) ∧
    (d.know_number_of_threads = true → d.threads_remaining_to_close > 0 → d.can_delete = false) ∧
    (∀ e : multipart_shared_data,
      e.know_number_of_threads = d.know_number_of_threads →
      e.threads_remaining_to_close = d.threads_remaining_to_close →
      e.file_open_counter = d.file_open_counter → e.can_delete = d.can_delete) := by
  refine ⟨?_, ?_, ?_⟩
  · unfold multipart_shared_data.can_delete
    cases hk : d.know_number_of_threads <;> simp
  · intro hk hpos
    unfold multipart_shared_data.can_delete
    simp only [hk, if_true, decide_eq_false_iff_not]
    omega
  · intro e h1 h2 h3
    unfold multipart_shared_data.can_delete
    rw [h1, h2, h3]

/-- A worked instance: a fresh session with two closes to come cannot be deleted. -/
theorem can_delete_iff_witness : (demo_session 2 2).can_delete = false :=
  (can_delete_iff (demo_session 2 2)).2.1 rfl (by decide)

end shared_data

namespace s3_transport

/-! ## Glacier classification -/

theorem find_from_isSome (needle : List Char) :
    ∀ (hay : List Char) (pos : Nat), (find_from needle hay pos).isSome = true ↔ needle <:+: hay := by
  intro hay
  induction hay with
  | nil =>
    intro pos
    unfold find_from
    cases needle with
    | nil => simp
    | cons c cs => simp [List.isPrefixOf]
  | cons c rest ih =>
    intro pos
    unfold find_from
    by_cases hp : needle.isPrefixOf (c :: rest) = true
    · simp only [hp, if_true, Option.isSome_some, true_iff]
      exact (List.isPrefixOf_iff_prefix.1 hp).isInfix
    · have hp2 : needle.isPrefixOf (c :: rest) = false := Bool.eq_false_iff.2 hp
      rw [hp2]
      simp only [Bool.false_eq_true, if_false]
      rw [ih (pos + 1), List.infix_cons_iff]
      constructor
      · intro h; exact Or.inr h
      · intro h
        rcases h with h | h
        · exact absurd (List.isPrefixOf_iff_prefix.2 h) hp
        · exact h

/-- The method `find` returns a position exactly when the text contains the needle. -/
theorem find_isSome_iff (hay needle : String) :
    (find hay needle).isSome = true ↔ contains hay needle :=
  find_from_isSome needle.toList hay.toList 0

theorem not_contains_empty (needle : String) (h : needle.toList ≠ []) : ¬ contains "" needle := by
  intro hc
  unfold contains at hc
  have : needle.toList = [] := List.eq_nil_of_infix_nil hc
  exact h this

/-- The record filled by the callbacks holds the status of the response and the two
headers, an absent header being the empty text. -/
theorem S3_head_object_fields (response : head_response) :
    (S3_head_object response).status = response.status ∧
    (S3_head_object response).x_amz_storage_class =
      (response.properties.bind (fun p => p.xAmzStorageClass)).getD "" ∧
    (S3_head_object response).x_amz_restore =
      (response.properties.bind (fun p => p.xAmzRestore)).getD "" := by
  rcases response with ⟨_ | ⟨len, _ | c, _ | r⟩, st⟩ <;>
    simp [S3_head_object, on_response_properties, on_response_complete]

/-- The state that `get_object_s3_status` assigns to a response with status OK, as a
function of the two headers. -/
theorem get_object_s3_status_of_ok (response : head_response) (object_size : Int)
    (storage_class : String) (hok : response.status = S3Status.S3StatusOK) :
    (get_object_s3_status response object_size storage_class).object_status =
      if iequals ((response.properties.bind (fun p => p.xAmzStorageClass)).getD "")
            S3_STORAGE_CLASS_GLACIER = true ∨
          iequals ((response.properties.bind (fun p => p.xAmzStorageClass)).getD "")
            S3_STORAGE_CLASS_DEEP_ARCHIVE = true then
        if (find ((response.properties.bind (fun p => p.xAmzRestore)).getD "")
            "ongoing-request=\"false\"").isSome = true then
          object_s3_status.IN_S3
        else if (find ((response.properties.bind (fun p => p.xAmzRestore)).getD "")
            "ongoing-request=\"true\"").isSome = true then
          object_s3_status.IN_GLACIER_RESTORE_IN_PROGRESS
        else object_s3_status.IN_GLACIER
      else object_s3_status.IN_S3 := by
  obtain ⟨h1, h2, h3⟩ := S3_head_object_fields response
  unfold get_object_s3_status
  simp only [h1, h2, h3, hok, ne_eq, not_true_eq_false, if_false, Bool.or_eq_true]
  split_ifs <;> rfl

/-- C4: for a HEAD response with status OK, when the storage class equals GLACIER or
DEEP_ARCHIVE up to case, the object is IN_S3 if the restore header contains
ongoing-request="false", otherwise IN_GLACIER_RESTORE_IN_PROGRESS if it contains
ongoing-request="true", and IN_GLACIER if the header is absent (or contains neither
text); for every other storage class, GLACIER_IR and an absent class included, the
object is IN_S3 whatever the restore header holds. -/
theorem get_object_s3_status_classification (response : head_response) (object_size : Int)
    (storage_class : String) (hok : response.status = S3Status.S3StatusOK) :
    (is_cold_class (response.x_amz_storage_class.getD "") →
      contains (response.x_amz_restore.getD "") "ongoing-request=\"false\"" →
      (get_object_s3_status response object_size storage_class).object_status =
        object_s3_status.IN_S3) ∧
    (is_cold_class (response.x_amz_storage_class.getD "") →
      ¬ contains (response.x_amz_restore.getD "") "ongoing-request=\"false\"" →
      contains (response.x_amz_restore.getD "") "ongoing-request=\"true\"" →
      (get_object_s3_status response object_size storage_class).object_status =
        object_s3_status.IN_GLACIER_RESTORE_IN_PROGRESS) ∧
    (is_cold_class (response.x_amz_storage_class.getD "") →
      response.x_amz_restore = none →
      (get_object_s3_status response object_size storage_class).object_status =
        object_s3_status.IN_GLACIER) ∧
    (is_cold_class (response.x_amz_storage_class.getD "") →
      ¬ contains (response.x_amz_restore.getD "") "ongoing-request=\"false\"" →
      ¬ contains (response.x_amz_restore.getD "") "ongoing-request=\"true\"" →
      (get_object_s3_status response object_size storage_class).object_status =
        object_s3_status.IN_GLACIER) ∧
    (¬ is_cold_class (response.x_amz_storage_class.getD "") →
      (get_object_s3_status response object_size storage_class).object_status =
        object_s3_status.IN_S3) ∧
    (response.x_amz_storage_class = none →
      (get_object_s3_status response object_size storage_class).object_status =
        object_s3_status.IN_S3) ∧
    (∀ c, response.x_amz_storage_class = some c →
      iequals c S3_STORAGE_CLASS_GLACIER_IR = true →
      (get_object_s3_status response object_size storage_class).object_status =
        object_s3_status.IN_S3) := by
  have hst := get_object_s3_status_of_ok response object_size storage_class hok
  unfold is_cold_class head_response.x_amz_storage_class head_response.x_amz_restore
  have hneither :
      (iequals ((response.properties.bind (fun p => p.xAmzStorageClass)).getD "")
          S3_STORAGE_CLASS_GLACIER = true ∨
        iequals ((response.properties.bind (fun p => p.xAmzStorageClass)).getD "")
          S3_STORAGE_CLASS_DEEP_ARCHIVE = true) →
      ¬ contains ((response.properties.bind (fun p => p.xAmzRestore)).getD "")
        "ongoing-request=\"false\"" →
      ¬ contains ((response.properties.bind (fun p => p.xAmzRestore)).getD "")
        "ongoing-request=\"true\"" →
      (get_object_s3_status response object_size storage_class).object_status =
        object_s3_status.IN_GLACIER := by
    intro hc hf ht
    rw [← find_isSome_iff] at hf ht
    rw [hst, if_pos hc, if_neg hf, if_neg ht]
  have hwarm :
      ¬ (iequals ((response.properties.bind (fun p => p.xAmzStorageClass)).getD "")
          S3_STORAGE_CLASS_GLACIER = true ∨
        iequals ((response.properties.bind (fun p => p.xAmzStorageClass)).getD "")
          S3_STORAGE_CLASS_DEEP_ARCHIVE = true) →
      (get_object_s3_status response object_size storage_class).object_status =
        object_s3_status.IN_S3 := by
    intro hc
    rw [hst, if_neg hc]
  refine ⟨?_, ?_, ?_, hneither, hwarm, ?_, ?_⟩
  · intro hc hf
    rw [← find_isSome_iff] at hf
    rw [hst, if_pos hc, if_pos hf]
  · intro hc hf ht
    rw [← find_isSome_iff] at hf ht
    rw [hst, if_pos hc, if_neg hf, if_pos ht]
  · intro hc hnone
    apply hneither hc
    · rw [hnone]; exact not_contains_empty _ (by decide)
    · rw [hnone]; exact not_contains_empty _ (by decide)
  · intro hnone
    apply hwarm
    rw [hnone]
    decide
  · intro c hc hir
    apply hwarm
    rw [hc]
    show ¬ (iequals c S3_STORAGE_CLASS_GLACIER = true ∨
      iequals c S3_STORAGE_CLASS_DEEP_ARCHIVE = true)
    unfold iequals at hir ⊢
    have hup : c.toList.map Char.toUpper = S3_STORAGE_CLASS_GLACIER_IR.toList.map Char.toUpper := by
      simpa using hir
    rw [hup]
    decide

/-- A worked instance: a GLACIER object whose restore is under way. -/
theorem get_object_s3_status_classification_witness :
    (get_object_s3_status (demo_head_response (some "glacier") (some "ongoing-request=\"true\""))
      0 "").object_status = object_s3_status.IN_GLACIER_RESTORE_IN_PROGRESS :=
  (get_object_s3_status_classification
    (demo_head_response (some "glacier") (some "ongoing-request=\"true\"")) 0 "" rfl).2.1
    (Or.inl (by decide))
    (fun h => absurd ((find_isSome_iff _ _).2 h) (by decide))
    ((find_isSome_iff _ _).1 (by decide))

/-! ## Handling of the glacier state -/

/-- C5: `handle_glacier_status` returns success if and only if the state is IN_S3; it
returns S3_FILE_OPEN_ERR for DOES_NOT_EXIST, REPLICA_IS_BEING_STAGED for
IN_GLACIER_RESTORE_IN_PROGRESS, and for IN_GLACIER it returns REPLICA_IS_BEING_STAGED
when the status of the restore submission is OK and REPLICA_STAGING_FAILED when it is
not. -/
theorem handle_glacier_status_result (S3_restore_object : restore_request → S3Status)
    (object_key : String) (restoration_days : Nat) (restoration_tier : String)
    (object_status : object_s3_status) (storage_class : String) :
    ((handle_glacier_status S3_restore_object object_key restoration_days restoration_tier
        object_status storage_class).1.ok = true ↔ object_status = object_s3_status.IN_S3) ∧
    ((handle_glacier_status S3_restore_object object_key restoration_days restoration_tier
        object_status storage_class).1 = SUCCESS ↔ object_status = object_s3_status.IN_S3) ∧
    (object_status = object_s3_status.DOES_NOT_EXIST →
      (handle_glacier_status S3_restore_object object_key restoration_days restoration_tier
        object_status storage_class).1.ok = false ∧
      (handle_glacier_status S3_restore_object object_key restoration_days restoration_tier
        object_status storage_class).1.code = irods_code.S3_FILE_OPEN_ERR) ∧
    (object_status = object_s3_status.IN_GLACIER_RESTORE_IN_PROGRESS →
      (handle_glacier_status S3_restore_object object_key restoration_days restoration_tier
        object_status storage_class).1.ok = false ∧
      (handle_glacier_status S3_restore_object object_key restoration_days restoration_tier
        object_status storage_class).1.code = irods_code.REPLICA_IS_BEING_STAGED) ∧
    (object_status = object_s3_status.IN_GLACIER →
      S3_restore_object (restore_request.mk object_key
        (restore_request_xml restoration_days restoration_tier storage_class)) =
          S3Status.S3StatusOK →
      (handle_glacier_status S3_restore_object object_key restoration_days restoration_tier
        object_status storage_class).1.ok = false ∧
      (handle_glacier_status S3_restore_object object_key restoration_days restoration_tier
        object_status storage_class).1.code = irods_code.REPLICA_IS_BEING_STAGED) ∧
    (object_status = object_s3_status.IN_GLACIER →
      S3_restore_object (restore_request.mk object_key
        (restore_request_xml restoration_days restoration_tier storage_class)) ≠
          S3Status.S3StatusOK →
      (handle_glacier_status S3_restore_object object_key restoration_days restoration_tier
        object_status storage_class).1.ok = false ∧
      (handle_glacier_status S3_restore_object object_key restoration_days restoration_tier
        object_status storage_class).1.code = irods_code.REPLICA_STAGING_FAILED) := by
  cases object_status
  · simp [handle_glacier_status, SUCCESS, irods_error.ok]
  · simp [handle_glacier_status, SUCCESS, ERROR, irods_error.ok]
  · simp only [handle_glacier_status, restore_s3_object]
    by_cases hs : S3_restore_object (restore_request.mk object_key
        (restore_request_xml restoration_days restoration_tier storage_class)) = S3Status.S3StatusOK
    · simp [hs, SUCCESS, ERROR, irods_error.ok]
    · simp [hs, SUCCESS, ERROR, irods_error.ok]
  · simp [handle_glacier_status, SUCCESS, ERROR, irods_error.ok]

/-- A worked instance: a failed submission for an object in
GLACIER is reported as REPLICA_STAGING_FAILED. -/
theorem handle_glacier_status_result_witness :
    (handle_glacier_status (fun _ => S3Status.S3StatusErrorUnknown) "key" 7 "Standard"
      object_s3_status.IN_GLACIER "GLACIER").1.code = irods_code.REPLICA_STAGING_FAILED :=
  ((handle_glacier_status_result (fun _ => S3Status.S3StatusErrorUnknown) "key" 7 "Standard"
    object_s3_status.IN_GLACIER "GLACIER").2.2.2.2.2 rfl (by decide)).2

/-- C6: `handle_glacier_status` sends a restore request, exactly one and for the object
of the call, if and only if the state is IN_GLACIER; for IN_S3, DOES_NOT_EXIST and
IN_GLACIER_RESTORE_IN_PROGRESS it sends none. -/
theorem handle_glacier_status_requests (S3_restore_object : restore_request → S3Status)
    (object_key : String) (restoration_days : Nat) (restoration_tier : String)
    (object_status : object_s3_status) (storage_class : String) :
    (handle_glacier_status S3_restore_object object_key restoration_days restoration_tier
      object_status storage_class).2 =
      if object_status = object_s3_status.IN_GLACIER then
        [restore_request.mk object_key
          (restore_request_xml restoration_days restoration_tier storage_class)]
      else [] := by
  cases object_status
  · simp [handle_glacier_status]
  · simp [handle_glacier_status]
  · simp only [handle_glacier_status, restore_s3_object, if_true]
    split_ifs <;> rfl
  · simp [handle_glacier_status]

/-! ## The restore request body -/

/-- A storage class that is exactly `DEEP_ARCHIVE` gets a body with the day count and
without a tier. -/
theorem restore_request_xml_deep_archive (restoration_days : Nat) (restoration_tier : String) :
    restore_request_xml restoration_days restoration_tier S3_STORAGE_CLASS_DEEP_ARCHIVE =
      "<RestoreRequest>\n " ++ "  <Days>" ++ toString restoration_days ++ "</Days>\n" ++
        "</RestoreRequest>\n" := by
  simp [restore_request_xml]

/-- C7 (the code at the failing input): a HEAD response whose storage class header is
`deep_archive` is taken for a deep archive object by `get_object_s3_status`, which hands
the header on unchanged; `restore_s3_object` compares it with `DEEP_ARCHIVE` exactly, so
the one request that is sent carries the `Tier` element. -/
theorem restore_request_of_lower_case_deep_archive :
    iequals "deep_archive" S3_STORAGE_CLASS_DEEP_ARCHIVE = true ∧
    (get_object_s3_status (demo_head_response (some "deep_archive") none) 0 "").object_status =
      object_s3_status.IN_GLACIER ∧
    (get_object_s3_status (demo_head_response (some "deep_archive") none) 0 "").storage_class =
      "deep_archive" ∧
    (handle_glacier_status (fun _ => S3Status.S3StatusOK) "key" 7 "Standard"
      (get_object_s3_status (demo_head_response (some "deep_archive") none) 0 "").object_status
      (get_object_s3_status (demo_head_response (some "deep_archive") none) 0 "").storage_class).2 =
      [restore_request.mk "key"
        ("<RestoreRequest>\n   <Days>7</Days>\n  <GlacierJobParameters>\n" ++
          "    <Tier>Standard</Tier>\n  </GlacierJobParameters>\n</RestoreRequest>\n")] ∧
    (find (restore_request_xml 7 "Standard"
      (get_object_s3_status (demo_head_response (some "deep_archive") none) 0 "").storage_class)
      "<Tier>").isSome = true := by
  decide

/-! ## The back-off sleep -/

/-- The value that `s3_sleep` truncates lies between half the base and the base, for every
rounding that keeps the order and is exact on halves of integers. -/
theorem s3_sleep_value_bounds (round_double : ℚ → ℚ) (RAND_MAX random : Nat) (_s : Int)
    (hround : rounds_like_double round_double) (hmax : 0 < RAND_MAX)
    (hr : random ≤ RAND_MAX) (hs : 0 ≤ _s) (hs32 : _s < 2 ^ 31) :
    (_s : ℚ) / 2 ≤
      round_double (round_double (round_double (round_double
        ((random : ℚ) / (RAND_MAX : ℚ)) + 1) * (1 / 2)) * (_s : ℚ)) ∧
    round_double (round_double (round_double (round_double
        ((random : ℚ) / (RAND_MAX : ℚ)) + 1) * (1 / 2)) * (_s : ℚ)) ≤ (_s : ℚ) := by
  obtain ⟨hmono, hexact⟩ := hround
  have e0 : round_double 0 = 0 := by
    have := hexact 0 (by norm_num) (by norm_num)
    simpa using this
  have e1 : round_double 1 = 1 := by
    have := hexact 2 (by norm_num) (by norm_num)
    norm_num at this
    exact this
  have e2 : round_double 2 = 2 := by
    have := hexact 4 (by norm_num) (by norm_num)
    norm_num at this
    exact this
  have ehalf : round_double (1 / 2) = 1 / 2 := by
    have := hexact 1 (by norm_num) (by norm_num)
    simpa using this
  have es2 : round_double ((_s : ℚ) / 2) = (_s : ℚ) / 2 := hexact _s (by omega) (by omega)
  have es : round_double (_s : ℚ) = (_s : ℚ) := by
    have := hexact (2 * _s) (by omega) (by omega)
    have h2 : (((2 * _s : Int) : ℚ)) / 2 = (_s : ℚ) := by push_cast; ring
    rwa [h2] at this
  have hM : (0 : ℚ) < (RAND_MAX : ℚ) := by exact_mod_cast hmax
  have hq0 : (0 : ℚ) ≤ (random : ℚ) / (RAND_MAX : ℚ) := by positivity
  have hq1 : (random : ℚ) / (RAND_MAX : ℚ) ≤ 1 := by
    rw [div_le_one hM]
    exact_mod_cast hr
  have hs' : (0 : ℚ) ≤ (_s : ℚ) := by exact_mod_cast hs
  -- the quotient
  have a0 : 0 ≤ round_double ((random : ℚ) / (RAND_MAX : ℚ)) := by
    have := hmono _ _ hq0; rwa [e0] at this
  have a1 : round_double ((random : ℚ) / (RAND_MAX : ℚ)) ≤ 1 := by
    have := hmono _ _ hq1; rwa [e1] at this
  -- the sum
  have b0 : 1 ≤ round_double (round_double ((random : ℚ) / (RAND_MAX : ℚ)) + 1) := by
    have := hmono 1 (round_double ((random : ℚ) / (RAND_MAX : ℚ)) + 1) (by linarith)
    rwa [e1] at this
  have b1 : round_double (round_double ((random : ℚ) / (RAND_MAX : ℚ)) + 1) ≤ 2 := by
    have := hmono (round_double ((random : ℚ) / (RAND_MAX : ℚ)) + 1) 2 (by linarith)
    rwa [e2] at this
  -- the half
  have c0 : 1 / 2 ≤
      round_double (round_double (round_double ((random : ℚ) / (RAND_MAX : ℚ)) + 1) * (1 / 2)) := by
    have := hmono (1 / 2)
      (round_double (round_double ((random : ℚ) / (RAND_MAX : ℚ)) + 1) * (1 / 2)) (by linarith)
    rwa [ehalf] at this
  have c1 :
      round_double (round_double (round_double ((random : ℚ) / (RAND_MAX : ℚ)) + 1) * (1 / 2)) ≤ 1 := by
    have := hmono
      (round_double (round_double ((random : ℚ) / (RAND_MAX : ℚ)) + 1) * (1 / 2)) 1 (by linarith)
    rwa [e1] at this
  -- the product with the base
  constructor
  · have := hmono ((_s : ℚ) / 2)
      (round_double (round_double (round_double ((random : ℚ) / (RAND_MAX : ℚ)) + 1) * (1 / 2)) *
        (_s : ℚ)) (by nlinarith)
    rwa [es2] at this
  · have := hmono
      (round_double (round_double (round_double ((random : ℚ) / (RAND_MAX : ℚ)) + 1) * (1 / 2)) *
        (_s : ℚ)) (_s : ℚ) (by nlinarith)
    rwa [es] at this

/-- C8 (as amended): for every base `_s ≥ 0` and every random draw `r` in `[0, RAND_MAX]`,
the whole number of seconds that `s3_sleep(_s)` sleeps, the truncation of
`((r / RAND_MAX) + 1) * 0.5 * _s`, lies in the closed interval from the integer quotient
of `_s` by 2 to `_s`. -/
theorem s3_sleep_bounds (round_double : ℚ → ℚ) (RAND_MAX random : Nat) (_s : Int)
    (hround : rounds_like_double round_double) (hmax : 0 < RAND_MAX)
    (hr : random ≤ RAND_MAX) (hs : 0 ≤ _s) (hs32 : _s < 2 ^ 31) :
    _s / 2 ≤ s3_sleep round_double RAND_MAX random _s ∧
      s3_sleep round_double RAND_MAX random _s ≤ _s := by
  obtain ⟨hlo, hhi⟩ := s3_sleep_value_bounds round_double RAND_MAX random _s hround hmax hr hs hs32
  have hs' : (0 : ℚ) ≤ (_s : ℚ) := by exact_mod_cast hs
  have hx0 : (0 : ℚ) ≤ round_double (round_double (round_double (round_double
      ((random : ℚ) / (RAND_MAX : ℚ)) + 1) * (1 / 2)) * (_s : ℚ)) := by linarith
  have hfloor_hi : ⌊round_double (round_double (round_double (round_double
      ((random : ℚ) / (RAND_MAX : ℚ)) + 1) * (1 / 2)) * (_s : ℚ))⌋ ≤ _s := by
    have := Int.floor_le_floor hhi
    rwa [Int.floor_intCast] at this
  have hhalf : ((_s / 2 : Int) : ℚ) ≤ (_s : ℚ) / 2 := by
    have h2 : (_s / 2) * 2 ≤ _s := Int.ediv_mul_le _s (by decide)
    have h3 : ((_s / 2 : Int) : ℚ) * 2 ≤ (_s : ℚ) := by exact_mod_cast h2
    linarith
  have hfloor_lo : _s / 2 ≤ ⌊round_double (round_double (round_double (round_double
      ((random : ℚ) / (RAND_MAX : ℚ)) + 1) * (1 / 2)) * (_s : ℚ))⌋ := by
    rw [Int.le_floor]
    linarith
  have hfloor_0 : 0 ≤ ⌊round_double (round_double (round_double (round_double
      ((random : ℚ) / (RAND_MAX : ℚ)) + 1) * (1 / 2)) * (_s : ℚ))⌋ :=
    Int.floor_nonneg.2 hx0
  unfold s3_sleep
  simp only [hx0, if_true]
  rw [to_int32_of_bounds _ (by omega) (by omega)]
  exact ⟨hfloor_lo, hfloor_hi⟩

/-- Exact arithmetic is a rounding in the sense of `rounds_like_double`. -/
theorem rounds_like_double_id : rounds_like_double (fun x => x) :=
  ⟨fun _ _ h => h, fun _ _ _ => rfl⟩

/-- A worked instance: a base of 3 seconds and the draw 5 give between 1 and 3 seconds. -/
theorem s3_sleep_bounds_witness :
    (3 : Int) / 2 ≤ s3_sleep (fun x => x) 2147483647 5 3 ∧
      s3_sleep (fun x => x) 2147483647 5 3 ≤ 3 :=
  s3_sleep_bounds (fun x => x) 2147483647 5 3 rounds_like_double_id (by decide) (by decide)
    (by decide) (by decide)

/-- C8 (counterexample): with the base `_s = 1` and the draw `r = 0` every intermediate
value of `((0 / RAND_MAX) + 1) * 0.5 * 1`, that is 0, 1 and one half, is a `double`, so no
rounding takes place; the truncation of one half is 0, and `s3_sleep` sleeps 0 seconds,
which is below `_s / 2`. -/
theorem s3_sleep_below_half_base :
    (((0 : ℚ) / (2147483647 : ℚ)) + 1) * (1 / 2) * (1 : ℚ) = 1 / 2 ∧
    s3_sleep (fun x => x) 2147483647 0 1 = 0 ∧
    ((s3_sleep (fun x => x) 2147483647 0 1 : Int) : ℚ) < ((1 : Int) : ℚ) / 2 := by
  have hfloor : ⌊(((0 : ℚ) / ((2147483647 : Nat) : ℚ)) + 1) * (1 / 2) * ((1 : Int) : ℚ)⌋ = 0 := by
    rw [Int.floor_eq_iff]
    norm_num
  have h : s3_sleep (fun x => x) 2147483647 0 1 = 0 := by
    unfold s3_sleep
    have hx0 : (0 : ℚ) ≤ (((0 : ℚ) / ((2147483647 : Nat) : ℚ)) + 1) * (1 / 2) * ((1 : Int) : ℚ) := by
      norm_num
    simp only [Nat.cast_zero, hx0, if_true, hfloor]
    decide
  refine ⟨by norm_num, h, ?_⟩
  rw [h]
  norm_num

end s3_transport

namespace irods_s3

open shared_data s3_transport

/-! ## The retry loop of the stat operation -/

/-- The loop stops at the first attempt after which the `while` condition fails: when
the condition holds after the attempts `c .. j - 1` and fails after attempt `j`, the loop
entered at `retry_cnt = c` makes the attempts up to `j` and leaves with the response of
attempt `j`, provided the bound on the passes exceeds `j - c`. -/
theorem stat_retry_loop_stops (ctx : plugin_context) (retry_on_not_found : Bool)
    (retry_count_limit max_retry_wait j : Nat)
    (hstop : ¬ stat_goes_on ctx retry_on_not_found retry_count_limit j) :
    ∀ (d fuel c retry_wait : Nat) (sleeps : List Int), c + d = j → d < fuel →
      (∀ i, c ≤ i → i < j → stat_goes_on ctx retry_on_not_found retry_count_limit i) →
      ∃ r, stat_retry_loop ctx retry_on_not_found retry_count_limit max_retry_wait
          fuel c retry_wait sleeps = some r ∧
        r.attempts = j + 1 ∧ r.response = ctx.stat_head j := by
  intro d
  induction d with
  | zero =>
    intro fuel c retry_wait sleeps hc hfuel _
    obtain ⟨f, rfl⟩ : ∃ f, fuel = f + 1 := ⟨fuel - 1, by omega⟩
    have hcj : c = j := by omega
    subst hcj
    have hcond : ¬ ((ctx.stat_head c).status ≠ S3Status.S3StatusOK ∧
        (S3_status_is_retryable ctx.libs3_is_retryable (ctx.stat_head c).status = true ∨
          (retry_on_not_found = true ∧
            (ctx.stat_head c).status = S3Status.S3StatusHttpErrorNotFound)) ∧
        c + 1 < retry_count_limit) := by
      intro h
      exact hstop ⟨⟨h.1, h.2.1⟩, h.2.2⟩
    simp only [stat_retry_loop, if_neg hcond]
    exact ⟨_, rfl, rfl, rfl⟩
  | succ d ih =>
    intro fuel c retry_wait sleeps hc hfuel hgo
    obtain ⟨f, rfl⟩ : ∃ f, fuel = f + 1 := ⟨fuel - 1, by omega⟩
    have hgc := hgo c (Nat.le_refl c) (by omega)
    have hcond : (ctx.stat_head c).status ≠ S3Status.S3StatusOK ∧
        (S3_status_is_retryable ctx.libs3_is_retryable (ctx.stat_head c).status = true ∨
          (retry_on_not_found = true ∧
            (ctx.stat_head c).status = S3Status.S3StatusHttpErrorNotFound)) ∧
        c + 1 < retry_count_limit := ⟨hgc.1.1, hgc.1.2, hgc.2⟩
    simp only [stat_retry_loop, if_pos hcond]
    exact ih f (c + 1) _ _ (by omega) (by omega) (fun i hi hij => hgo i (by omega) hij)

/-- The stat operation once the loop has stopped after attempt `j`: the result is decided
by the status of that attempt. -/
theorem stat_operation_stops (ctx : plugin_context) (_statbuf : struct_stat)
    (retry_on_not_found : Bool) (j : Nat)
    (h1 : ctx.s3CheckParams.ok = true) (h2 : ctx.parseS3Path.ok = true)
    (h3 : ctx.s3InitPerOperation.ok = true) (h4 : ctx.s3GetAuthCredentials.ok = true)
    (hj : j ≤ ctx.retry_count)
    (hgo : ∀ i, i < j → stat_goes_on ctx retry_on_not_found ctx.retry_count i)
    (hstop : ¬ stat_goes_on ctx retry_on_not_found ctx.retry_count j) :
    ∃ e st loop,
      s3_file_stat_operation_with_flag_for_retry_on_not_found ctx _statbuf retry_on_not_found =
        some (e, st, some loop) ∧
      loop.attempts = j + 1 ∧ loop.response = ctx.stat_head j ∧
      ((ctx.stat_head j).status = S3Status.S3StatusOK →
        e = SUCCESS ∧ st.st_mode = file_mode.S_IFREG ∧ st.st_nlink = 1 ∧
          st.st_size = (ctx.stat_head j).contentLength) ∧
      ((ctx.stat_head j).status ≠ S3Status.S3StatusOK →
        ((ctx.stat_head j).status = S3Status.S3StatusHttpErrorNotFound → retry_on_not_found = true) →
        e.ok = false ∧ e.code = irods_code.S3_FILE_STAT_ERR) := by
  obtain ⟨loop, hloop, hatt, hresp⟩ :=
    stat_retry_loop_stops ctx retry_on_not_found ctx.retry_count ctx.max_retry_wait_time_sec j hstop
      j (ctx.retry_count + 1) 0 ctx.retry_wait_time_sec [] (by omega) (by omega)
      (fun i _ hij => hgo i hij)
  unfold s3_file_stat_operation_with_flag_for_retry_on_not_found
  simp only [h1, h2, h3, h4, Bool.true_eq_false, if_false, hloop]
  by_cases hok : loop.response.status = S3Status.S3StatusOK
  · simp only [hok, if_true]
    refine ⟨_, _, _, rfl, hatt, hresp, ?_, ?_⟩
    · intro _
      rw [← hresp]
      exact ⟨rfl, rfl, rfl, rfl⟩
    · intro hne
      rw [← hresp] at hne
      exact absurd hok hne
  · simp only [hok, if_false]
    by_cases hnf : loop.response.status = S3Status.S3StatusHttpErrorNotFound
    · by_cases hr : retry_on_not_found = true
      · simp only [hnf, hr, and_self, if_true]
        refine ⟨_, _, _, rfl, hatt, hresp, ?_, ?_⟩
        · intro hc; rw [← hresp, hnf] at hc; cases hc
        · intro _ _; exact ⟨rfl, rfl⟩
      · simp only [hnf, hr, and_false, if_false, if_true]
        refine ⟨_, _, _, rfl, hatt, hresp, ?_, ?_⟩
        · intro hc; rw [← hresp, hnf] at hc; cases hc
        · intro _ hflag
          rw [← hresp] at hflag
          exact absurd (hflag hnf) (by simp)
    · simp only [hnf, false_and, if_false]
      refine ⟨_, _, _, rfl, hatt, hresp, ?_, ?_⟩
      · intro hc; rw [← hresp] at hc; exact absurd hc hok
      · intro _ _; exact ⟨rfl, rfl⟩

/-- C9: in the retry loop of the stat operation, for every `k ≥ 1` and every retry limit
`L ≥ k`, a HEAD status sequence of `k - 1` retryable statuses followed by OK gives exactly
`k` HEAD attempts and a success result that describes a regular file. -/
theorem stat_succeeds_on_attempt (ctx : plugin_context) (_statbuf : struct_stat)
    (retry_on_not_found : Bool) (k : Nat) (hk : 1 ≤ k) (hL : k ≤ ctx.retry_count)
    (h1 : ctx.s3CheckParams.ok = true) (h2 : ctx.parseS3Path.ok = true)
    (h3 : ctx.s3InitPerOperation.ok = true) (h4 : ctx.s3GetAuthCredentials.ok = true)
    (hretry : ∀ i, i < k - 1 → (ctx.stat_head i).status ≠ S3Status.S3StatusOK ∧
      S3_status_is_retryable ctx.libs3_is_retryable (ctx.stat_head i).status = true)
    (hok : (ctx.stat_head (k - 1)).status = S3Status.S3StatusOK) :
    ∃ st loop,
      s3_file_stat_operation_with_flag_for_retry_on_not_found ctx _statbuf retry_on_not_found =
        some (SUCCESS, st, some loop) ∧
      loop.attempts = k ∧ st.st_mode = file_mode.S_IFREG ∧ st.st_nlink = 1 ∧
      st.st_size = (ctx.stat_head (k - 1)).contentLength := by
  obtain ⟨e, st, loop, hop, hatt, _, hsucc, _⟩ :=
    stat_operation_stops ctx _statbuf retry_on_not_found (k - 1) h1 h2 h3 h4 (by omega)
      (fun i hi => ⟨⟨(hretry i hi).1, Or.inl (hretry i hi).2⟩, by omega⟩)
      (fun hgo => hgo.1.1 hok)
  obtain ⟨he, hmode, hlink, hsize⟩ := hsucc hok
  subst he
  exact ⟨st, loop, hop, by omega, hmode, hlink, hsize⟩

/-- A worked instance: the statuses retryable, retryable, OK with a
retry limit of 3 succeed on the third attempt. -/
theorem stat_succeeds_on_attempt_witness :
    (s3_file_stat_operation_with_flag_for_retry_on_not_found
      (demo_context 3 []
        [S3Status.S3StatusErrorInternalError, S3Status.S3StatusErrorUnknown, S3Status.S3StatusOK] 3)
      struct_stat.zero false).map
        (fun r => (r.1, r.2.1.st_mode, r.2.2.map (fun loop => loop.attempts))) =
      some (SUCCESS, file_mode.S_IFREG, some 3) := by
  obtain ⟨st, loop, hop, hatt, hmode, _, _⟩ :=
    stat_succeeds_on_attempt
      (demo_context 3 []
        [S3Status.S3StatusErrorInternalError, S3Status.S3StatusErrorUnknown, S3Status.S3StatusOK] 3)
      struct_stat.zero false 3 (by decide) (by decide) rfl rfl rfl rfl (by decide) rfl
  rw [hop]
  simp [hatt, hmode]

/-- C10 (as amended): in the retry loop of the stat operation, for every retry limit
`L ≥ 1` and every HEAD status sequence whose statuses are all retryable and not OK, the
loop ends after exactly `L` attempts and the operation returns the error
S3_FILE_STAT_ERR; and for every sequence the loop stops at the first attempt whose status
is OK or is neither retryable nor a not-found met while `retry_on_not_found` is set. The
libs3 function does not list the not-found status as retryable. -/
theorem stat_retry_exhausted_or_stopped (ctx : plugin_context) (_statbuf : struct_stat)
    (retry_on_not_found : Bool)
    (h1 : ctx.s3CheckParams.ok = true) (h2 : ctx.parseS3Path.ok = true)
    (h3 : ctx.s3InitPerOperation.ok = true) (h4 : ctx.s3GetAuthCredentials.ok = true)
    (hnf : ctx.libs3_is_retryable S3Status.S3StatusHttpErrorNotFound = false) :
    (1 ≤ ctx.retry_count →
      (∀ i, i < ctx.retry_count → (ctx.stat_head i).status ≠ S3Status.S3StatusOK ∧
        S3_status_is_retryable ctx.libs3_is_retryable (ctx.stat_head i).status = true) →
      ∃ e st loop,
        s3_file_stat_operation_with_flag_for_retry_on_not_found ctx _statbuf retry_on_not_found =
          some (e, st, some loop) ∧
        loop.attempts = ctx.retry_count ∧ e.ok = false ∧ e.code = irods_code.S3_FILE_STAT_ERR) ∧
    (∀ j, j < max ctx.retry_count 1 →
      (∀ i, i < j → stat_status_retried ctx retry_on_not_found (ctx.stat_head i).status) →
      ¬ stat_status_retried ctx retry_on_not_found (ctx.stat_head j).status →
      ∃ e st loop,
        s3_file_stat_operation_with_flag_for_retry_on_not_found ctx _statbuf retry_on_not_found =
          some (e, st, some loop) ∧
        loop.attempts = j + 1) := by
  constructor
  · intro hL hall
    obtain ⟨e, st, loop, hop, hatt, _, _, hfail⟩ :=
      stat_operation_stops ctx _statbuf retry_on_not_found (ctx.retry_count - 1) h1 h2 h3 h4
        (by omega)
        (fun i hi => ⟨⟨(hall i (by omega)).1, Or.inl (hall i (by omega)).2⟩, by omega⟩)
        (fun hgo => by have := hgo.2; omega)
    have hlast := hall (ctx.retry_count - 1) (by omega)
    obtain ⟨hok, hcode⟩ := hfail hlast.1 (by
      intro hstatus
      have hr := hlast.2
      rw [hstatus] at hr
      simp [S3_status_is_retryable, hnf] at hr)
    exact ⟨e, st, loop, hop, by omega, hok, hcode⟩
  · intro j hj hgo hstop
    obtain ⟨e, st, loop, hop, hatt, _⟩ :=
      stat_operation_stops ctx _statbuf retry_on_not_found j h1 h2 h3 h4
        (by rcases Nat.lt_or_ge 0 ctx.retry_count with h | h
            · rw [Nat.max_eq_left (by omega)] at hj; omega
            · rw [Nat.max_eq_right (by omega)] at hj; omega)
        (fun i hi => ⟨hgo i hi, by
          rcases Nat.lt_or_ge 0 ctx.retry_count with h | h
          · rw [Nat.max_eq_left (by omega)] at hj; omega
          · rw [Nat.max_eq_right (by omega)] at hj; omega⟩)
        (fun h => hstop h.1)
    exact ⟨e, st, loop, hop, hatt⟩

/-- A worked instance: three retryable statuses and a retry
limit of 3 end in S3_FILE_STAT_ERR after three attempts. -/
theorem stat_retry_exhausted_or_stopped_witness :
    (s3_file_stat_operation_with_flag_for_retry_on_not_found
      (demo_context 3 []
        [S3Status.S3StatusErrorUnknown, S3Status.S3StatusConnectionFailed,
          S3Status.S3StatusErrorRequestTimeout] 3)
      struct_stat.zero true).map
        (fun r => (r.1.ok, r.1.code, r.2.2.map (fun loop => loop.attempts))) =
      some (false, irods_code.S3_FILE_STAT_ERR, some 3) := by
  obtain ⟨e, st, loop, hop, hatt, hok, hcode⟩ :=
    (stat_retry_exhausted_or_stopped
      (demo_context 3 []
        [S3Status.S3StatusErrorUnknown, S3Status.S3StatusConnectionFailed,
          S3Status.S3StatusErrorRequestTimeout] 3)
      struct_stat.zero true rfl rfl rfl rfl rfl).1 (by decide) (by decide)
  rw [hop]
  simp only [Option.map_some', hok, hcode, hatt]
  rfl

/-- C10 (counterexample): with `retry_on_not_found` set, a retry limit of 2 and the
statuses not-found, OK, the first status is not OK and is not retryable, yet the loop
does not stop there: it makes two attempts and the operation succeeds. -/
theorem stat_retry_goes_on_after_not_found :
    S3_status_is_retryable libs3_S3_status_is_retryable S3Status.S3StatusHttpErrorNotFound = false ∧
    (s3_file_stat_operation_with_flag_for_retry_on_not_found
      (demo_context 3 [] [S3Status.S3StatusHttpErrorNotFound, S3Status.S3StatusOK] 2)
      struct_stat.zero true).map
        (fun r => (r.1, r.2.2.map (fun loop => (loop.attempts, loop.response.status)))) =
      some (SUCCESS, some (2, S3Status.S3StatusOK)) := by
  decide

end irods_s3

namespace irods_s3

open shared_data s3_transport

/-! ## The resolver when the shared session knows the thread count -/

theorem replication_entry_found (l1d : l1desc_t) (dobj_input : dataObjInp_t)
    (s : replication_scan) (hs : s.found_number_of_threads = true) :
    (replication_entry l1d dobj_input s).found_number_of_threads = true ∧
    (replication_entry l1d dobj_input s).number_of_threads = s.number_of_threads := by
  unfold replication_entry
  cases l1d.dataObjInfo with
  | none => simp [hs]
  | some dobj_info =>
    by_cases h : s.found_data_size = false ∧ dobj_input.oprType = REPLICATE_SRC
    · simp [h, hs]
    · simp [h, hs]

theorem scan_replication_found (file_obj : file_object) :
    ∀ (table : List l1desc_t) (s : replication_scan), s.found_number_of_threads = true →
      (scan_replication file_obj table s).found_number_of_threads = true ∧
      (scan_replication file_obj table s).number_of_threads = s.number_of_threads := by
  intro table
  induction table with
  | nil => intro s hs; exact ⟨hs, rfl⟩
  | cons l1d rest ih =>
    intro s hs
    unfold scan_replication
    split
    · rename_i dobj_input _ _
      have hstep := replication_entry_found l1d dobj_input s hs
      by_cases hpath : dobj_input.objPath ≠ file_obj.logical_path
      · rw [if_pos hpath]
        exact ih s hs
      · rw [if_neg hpath]
        simp only []
        by_cases hboth : (replication_entry l1d dobj_input s).found_data_size = true ∧
            (replication_entry l1d dobj_input s).found_number_of_threads = true
        · rw [if_pos hboth]
          exact hstep
        · rw [if_neg hboth]
          obtain ⟨h1, h2⟩ := ih _ hstep.1
          exact ⟨h1, h2.trans hstep.2⟩
    · exact ih s hs

theorem resolve_number_of_threads_of_pos (ctx : plugin_context)
    (number_of_threads data_size oprType requested_number_of_threads : Int)
    (h : 0 < number_of_threads) :
    resolve_number_of_threads ctx number_of_threads data_size oprType requested_number_of_threads =
      number_of_threads := by
  unfold resolve_number_of_threads
  rw [if_neg (by omega)]

/-- When the shared session already holds a thread count above 0, the resolver succeeds,
returns that count and leaves it in the session, saves the resolved operation type in the
process, leaves the descriptor registry alone, and sets the countdown to 0 for GET_OPR and
otherwise only replaces a countdown that is 0 or less. -/
theorem resolver_with_known_threads (ctx : plugin_context) (proc : process_state)
    (data : multipart_shared_data) (h : 0 < data.number_of_threads) :
    (get_number_of_threads_data_size_and_opr_type ctx proc data).error = SUCCESS ∧
    (get_number_of_threads_data_size_and_opr_type ctx proc data).number_of_threads =
      data.number_of_threads ∧
    (get_number_of_threads_data_size_and_opr_type ctx proc data).shm.number_of_threads =
      data.number_of_threads ∧
    (get_number_of_threads_data_size_and_opr_type ctx proc data).proc.oprType =
      (get_number_of_threads_data_size_and_opr_type ctx proc data).oprType ∧
    (get_number_of_threads_data_size_and_opr_type ctx proc data).proc.fd_data = proc.fd_data ∧
    (get_number_of_threads_data_size_and_opr_type ctx proc data).shm.threads_remaining_to_close =
      (if (get_number_of_threads_data_size_and_opr_type ctx proc data).oprType = GET_OPR then 0
        else if data.threads_remaining_to_close ≤ 0 then data.number_of_threads
        else data.threads_remaining_to_close) := by
  have hgt : data.number_of_threads > 0 := h
  unfold get_number_of_threads_data_size_and_opr_type
  simp only [hgt, if_true, decide_True]
  split_ifs with hA hB hC hD hE hF <;> simp_all [scan_replication_found, resolve_number_of_threads_of_pos]

/-! ## The registry `fd_data` -/

/-- The entry that `fd_data.set` stored is the one that `fd_data.get` returns. -/
theorem fd_data_get_set (m : fd_to_data_map) (fd : Int) (data : per_thread_data) :
    (m.set fd data).get fd = some data := by
  unfold fd_to_data_map.set fd_to_data_map.get
  simp

/-- The assertion of `fd_data.get` fails exactly for a descriptor without entry. -/
theorem fd_data_get_eq_none (m : fd_to_data_map) (fd : Int) :
    m.get fd = none ↔ m.fd_exists fd = false := by
  unfold fd_to_data_map.fd_exists fd_to_data_map.get
  constructor
  · intro h
    cases hfind : m.data_map.find? (fun e => decide (e.1 = fd)) with
    | some e => rw [hfind] at h; exact absurd h (by simp)
    | none =>
      rw [List.find?_eq_none] at hfind
      rw [List.any_eq_false]
      exact hfind
  · intro h
    have hnone : m.data_map.find? (fun e => decide (e.1 = fd)) = none := by
      rw [List.find?_eq_none]
      exact List.any_eq_false.mp h
    rw [hnone]

/-- For a descriptor with an entry `fd_data.get` returns an entry. -/
theorem fd_data_get_of_exists (m : fd_to_data_map) (fd : Int) (h : ¬ m.fd_exists fd = false) :
    ∃ data, m.get fd = some data := by
  cases hget : m.get fd with
  | none => exact absurd ((fd_data_get_eq_none m fd).mp hget) h
  | some data => exact ⟨data, rfl⟩

/-- The descriptor has an entry when `make_dstream` reads it: the entry that was there, or
the one that the function has just created. -/
theorem make_dstream_entry (m : fd_to_data_map) (fd : Int) (fresh : per_thread_data) :
    ∃ data, (if m.fd_exists fd = false then m.set fd fresh else m).get fd = some data ∧
      (∀ entry, m.get fd = some entry → data = entry) := by
  by_cases hex : m.fd_exists fd = false
  · rw [if_pos hex]
    refine ⟨fresh, fd_data_get_set m fd fresh, ?_⟩
    intro entry hentry
    rw [(fd_data_get_eq_none m fd).mpr hex] at hentry
    exact absurd hentry (by simp)
  · rw [if_neg hex]
    obtain ⟨data, hdata⟩ := fd_data_get_of_exists m fd hex
    refine ⟨data, hdata, ?_⟩
    intro entry hentry
    rw [hdata] at hentry
    exact Option.some.inj hentry

/-! ## The countdown under `make_dstream`, write and close -/

end irods_s3

namespace irods_s3

open shared_data s3_transport

/-! ## Sleeps of the stat retry loop -/

/-- A pass of the stat loop after which the `while` condition holds, in terms of
`stat_backoff`. -/
theorem stat_retry_loop_next (ctx : plugin_context) (retry_on_not_found : Bool)
    (retry_count_limit max_retry_wait fuel retry_cnt retry_wait : Nat) (sleeps : List Int)
    (h : stat_goes_on ctx retry_on_not_found retry_count_limit retry_cnt) :
    stat_retry_loop ctx retry_on_not_found retry_count_limit max_retry_wait
        (fuel + 1) retry_cnt retry_wait sleeps =
      stat_retry_loop ctx retry_on_not_found retry_count_limit max_retry_wait fuel (retry_cnt + 1)
        (stat_backoff retry_on_not_found max_retry_wait (ctx.stat_head retry_cnt).status
          (sleeps, retry_wait)).2
        (stat_backoff retry_on_not_found max_retry_wait (ctx.stat_head retry_cnt).status
          (sleeps, retry_wait)).1 := by
  have hcond : (ctx.stat_head retry_cnt).status ≠ S3Status.S3StatusOK ∧
      (S3_status_is_retryable ctx.libs3_is_retryable (ctx.stat_head retry_cnt).status = true ∨
        (retry_on_not_found = true ∧
          (ctx.stat_head retry_cnt).status = S3Status.S3StatusHttpErrorNotFound)) ∧
      retry_cnt + 1 < retry_count_limit := ⟨h.1.1, h.1.2, h.2⟩
  simp only [stat_retry_loop, if_pos hcond]
  rfl

/-- A pass of the stat loop after which the `while` condition fails, in terms of
`stat_backoff`. -/
theorem stat_retry_loop_last (ctx : plugin_context) (retry_on_not_found : Bool)
    (retry_count_limit max_retry_wait fuel retry_cnt retry_wait : Nat) (sleeps : List Int)
    (h : ¬ stat_goes_on ctx retry_on_not_found retry_count_limit retry_cnt) :
    stat_retry_loop ctx retry_on_not_found retry_count_limit max_retry_wait
        (fuel + 1) retry_cnt retry_wait sleeps =
      some (stat_loop_result.mk (ctx.stat_head retry_cnt) (retry_cnt + 1)
        (stat_backoff retry_on_not_found max_retry_wait (ctx.stat_head retry_cnt).status
          (sleeps, retry_wait)).1
        (stat_backoff retry_on_not_found max_retry_wait (ctx.stat_head retry_cnt).status
          (sleeps, retry_wait)).2) := by
  have hcond : ¬ ((ctx.stat_head retry_cnt).status ≠ S3Status.S3StatusOK ∧
      (S3_status_is_retryable ctx.libs3_is_retryable (ctx.stat_head retry_cnt).status = true ∨
        (retry_on_not_found = true ∧
          (ctx.stat_head retry_cnt).status = S3Status.S3StatusHttpErrorNotFound)) ∧
      retry_cnt + 1 < retry_count_limit) := fun hc => h ⟨⟨hc.1, hc.2.1⟩, hc.2.2⟩
  simp only [stat_retry_loop, if_neg hcond]
  rfl

/-- The stat loop always leaves with a result when the bound on the passes reaches the
retry limit: it makes the attempts up to the first one after which the `while` condition
fails, and its sleeps and `retry_wait` are those of the passes made. -/
theorem stat_retry_loop_run (ctx : plugin_context) (retry_on_not_found : Bool)
    (retry_count_limit max_retry_wait : Nat) :
    ∀ (fuel retry_cnt retry_wait : Nat) (sleeps : List Int), 0 < fuel →
      retry_count_limit ≤ retry_cnt + fuel →
      ∃ r, stat_retry_loop ctx retry_on_not_found retry_count_limit max_retry_wait
          fuel retry_cnt retry_wait sleeps = some r ∧
        retry_cnt < r.attempts ∧
        r.response = ctx.stat_head (r.attempts - 1) ∧
        (r.sleeps, r.retry_wait) = stat_backoffs ctx retry_on_not_found max_retry_wait retry_cnt
          (r.attempts - retry_cnt) (sleeps, retry_wait) ∧
        (∀ i, retry_cnt ≤ i → i + 1 < r.attempts →
          stat_goes_on ctx retry_on_not_found retry_count_limit i) ∧
        ¬ stat_goes_on ctx retry_on_not_found retry_count_limit (r.attempts - 1) := by
  intro fuel
  induction fuel with
  | zero => intro _ _ _ h; omega
  | succ fuel ih =>
    intro c w s _ hL
    by_cases hgo : stat_goes_on ctx retry_on_not_found retry_count_limit c
    · rw [stat_retry_loop_next _ _ _ _ _ _ _ _ hgo]
      have hlt := hgo.2
      obtain ⟨r, hr, hatt, hresp, hlog, hbefore, hlast⟩ := ih (c + 1)
        (stat_backoff retry_on_not_found max_retry_wait (ctx.stat_head c).status (s, w)).2
        (stat_backoff retry_on_not_found max_retry_wait (ctx.stat_head c).status (s, w)).1
        (by omega) (by omega)
      refine ⟨r, hr, by omega, hresp, ?_, ?_, hlast⟩
      · rw [hlog]
        have hcount : r.attempts - c = (r.attempts - (c + 1)) + 1 := by omega
        rw [hcount]
        simp only [stat_backoffs]
      · intro i hci hi
        by_cases hic : i = c
        · subst hic; exact hgo
        · exact hbefore i (by omega) hi
    · rw [stat_retry_loop_last _ _ _ _ _ _ _ _ hgo]
      refine ⟨_, rfl, ?_, ?_, ?_, ?_, ?_⟩
      · show c < c + 1
        omega
      · show ctx.stat_head c = ctx.stat_head (c + 1 - 1)
        simp
      · show _ = stat_backoffs ctx retry_on_not_found max_retry_wait c (c + 1 - c) (s, w)
        have : c + 1 - c = 1 := by omega
        rw [this]
        simp only [stat_backoffs]
      · intro i hci hi
        have : i + 1 < c + 1 := hi
        omega
      · show ¬ stat_goes_on ctx retry_on_not_found retry_count_limit (c + 1 - 1)
        simpa using hgo

/-- The stat operation, once its four set-up calls have succeeded, returns with the state
in which the loop was left: at least one attempt, every attempt but the last followed by a
true `while` condition, and the sleeps and `retry_wait` of the passes made. -/
theorem stat_operation_runs (ctx : plugin_context) (_statbuf : struct_stat)
    (retry_on_not_found : Bool)
    (h1 : ctx.s3CheckParams.ok = true) (h2 : ctx.parseS3Path.ok = true)
    (h3 : ctx.s3InitPerOperation.ok = true) (h4 : ctx.s3GetAuthCredentials.ok = true) :
    ∃ e st loop,
      s3_file_stat_operation_with_flag_for_retry_on_not_found ctx _statbuf retry_on_not_found =
        some (e, st, some loop) ∧
      1 ≤ loop.attempts ∧
      (loop.sleeps, loop.retry_wait) = stat_backoffs ctx retry_on_not_found
        ctx.max_retry_wait_time_sec 0 loop.attempts ([], ctx.retry_wait_time_sec) ∧
      (∀ i, i + 1 < loop.attempts → stat_goes_on ctx retry_on_not_found ctx.retry_count i) ∧
      ¬ stat_goes_on ctx retry_on_not_found ctx.retry_count (loop.attempts - 1) := by
  obtain ⟨loop, hloop, hatt, _, hlog, hbefore, hlast⟩ :=
    stat_retry_loop_run ctx retry_on_not_found ctx.retry_count ctx.max_retry_wait_time_sec
      (ctx.retry_count + 1) 0 ctx.retry_wait_time_sec [] (by omega) (by omega)
  unfold s3_file_stat_operation_with_flag_for_retry_on_not_found
  simp only [h1, h2, h3, h4, Bool.true_eq_false, if_false, hloop]
  have hfacts : 1 ≤ loop.attempts ∧
      (loop.sleeps, loop.retry_wait) = stat_backoffs ctx retry_on_not_found
        ctx.max_retry_wait_time_sec 0 loop.attempts ([], ctx.retry_wait_time_sec) ∧
      (∀ i, i + 1 < loop.attempts → stat_goes_on ctx retry_on_not_found ctx.retry_count i) ∧
      ¬ stat_goes_on ctx retry_on_not_found ctx.retry_count (loop.attempts - 1) :=
    ⟨by omega, by simpa using hlog, fun i hi => hbefore i (by omega) hi, hlast⟩
  split_ifs
  all_goals exact ⟨_, _, _, rfl, hfacts⟩

end irods_s3

namespace irods_s3

open shared_data s3_transport

/-! ## The back-off base of the retry loops -/

/-- Once `retry_wait` is at most the ceiling it stays so. -/
theorem retry_wait_after_le (max_retry_wait retry_wait : Nat) (h : retry_wait ≤ max_retry_wait)
    (k : Nat) : retry_wait_after max_retry_wait retry_wait k ≤ max_retry_wait := by
  cases k with
  | zero => exact h
  | succ k =>
    simp only [retry_wait_after]
    split_ifs with hc
    · exact le_refl _
    · omega

/-- Closed form of `retry_wait` after `k` doublings, when it starts at most at the ceiling
and the doubling does not wrap. -/
theorem retry_wait_after_eq_min (max_retry_wait retry_wait : Nat)
    (h : retry_wait ≤ max_retry_wait) (hmax : max_retry_wait < 2 ^ 63) (k : Nat) :
    retry_wait_after max_retry_wait retry_wait k = min (retry_wait * 2 ^ k) max_retry_wait := by
  induction k with
  | zero => simp [retry_wait_after, h]
  | succ k ih =>
    simp only [retry_wait_after, ih]
    have hpow : retry_wait * 2 ^ (k + 1) = retry_wait * 2 ^ k * 2 := by ring
    rw [hpow]
    generalize retry_wait * 2 ^ k = a
    have hlt : min a max_retry_wait * 2 < 2 ^ 64 := by omega
    rw [Nat.mod_eq_of_lt hlt]
    split_ifs with hc <;> omega

/-- The sleeps of one pass of the stat loop: the earlier ones, then the argument of the
`s3_sleep` call of the pass when it sleeps. -/
theorem stat_backoff_log (retry_on_not_found : Bool) (max_retry_wait : Nat) (status : S3Status)
    (slept : List Int × Nat) :
    (stat_backoff retry_on_not_found max_retry_wait status slept).1 =
      slept.1 ++ (if stat_sleeps_after retry_on_not_found status = true then
        [if status = S3Status.S3StatusHttpErrorNotFound then 1 else to_int32 slept.2] else []) := by
  unfold stat_backoff stat_sleeps_after
  by_cases hc : (retry_on_not_found = true ∧ status ≠ S3Status.S3StatusOK) ∨
      (status ≠ S3Status.S3StatusOK ∧ status ≠ S3Status.S3StatusHttpErrorNotFound)
  · rw [if_pos hc, if_pos (decide_eq_true hc)]
    by_cases hnf : status = S3Status.S3StatusHttpErrorNotFound
    · simp only [if_pos hnf]
      split_ifs <;> rfl
    · simp only [if_neg hnf]
      split_ifs <;> rfl
  · rw [if_neg hc, if_neg (by simpa using hc)]
    simp

/-- The `retry_wait` left by one pass of the stat loop that sleeps, when `retry_wait` was at
most the ceiling: unchanged after a not-found, doubled and clamped otherwise. -/
theorem stat_backoff_wait (retry_on_not_found : Bool) (max_retry_wait : Nat) (status : S3Status)
    (slept : List Int × Nat) (hs : stat_sleeps_after retry_on_not_found status = true)
    (hle : slept.2 ≤ max_retry_wait) :
    (stat_backoff retry_on_not_found max_retry_wait status slept).2 =
      if status = S3Status.S3StatusHttpErrorNotFound then slept.2
      else if (slept.2 * 2) % 2 ^ 64 > max_retry_wait then max_retry_wait
      else (slept.2 * 2) % 2 ^ 64 := by
  have hc : (retry_on_not_found = true ∧ status ≠ S3Status.S3StatusOK) ∨
      (status ≠ S3Status.S3StatusOK ∧ status ≠ S3Status.S3StatusHttpErrorNotFound) := by
    simpa [stat_sleeps_after] using hs
  unfold stat_backoff
  rw [if_pos hc]
  by_cases hnf : status = S3Status.S3StatusHttpErrorNotFound
  · simp only [if_pos hnf]
    rw [if_neg (by omega)]
  · simp only [if_neg hnf]
    split_ifs <;> rfl

/-- The first pass of a run of the stat loop. -/
theorem stat_backoffs_first (ctx : plugin_context) (retry_on_not_found : Bool)
    (max_retry_wait first count : Nat) (slept : List Int × Nat) :
    stat_backoffs ctx retry_on_not_found max_retry_wait first (count + 1) slept =
      stat_backoffs ctx retry_on_not_found max_retry_wait (first + 1) count
        (stat_backoff retry_on_not_found max_retry_wait (ctx.stat_head first).status slept) :=
  rfl

/-- The last pass of a run of the stat loop. -/
theorem stat_backoffs_succ (ctx : plugin_context) (retry_on_not_found : Bool)
    (max_retry_wait : Nat) :
    ∀ (count first : Nat) (slept : List Int × Nat),
      stat_backoffs ctx retry_on_not_found max_retry_wait first (count + 1) slept =
        stat_backoff retry_on_not_found max_retry_wait (ctx.stat_head (first + count)).status
          (stat_backoffs ctx retry_on_not_found max_retry_wait first count slept) := by
  intro count
  induction count with
  | zero => intro first slept; rfl
  | succ n ih =>
    intro first slept
    rw [stat_backoffs_first, ih, stat_backoffs_first]
    have hidx : first + 1 + n = first + (n + 1) := by omega
    rw [hidx]

/-- Counting the sleeping attempts one attempt further. -/
theorem stat_sleeps_count_succ (ctx : plugin_context) (retry_on_not_found : Bool) (n : Nat) :
    stat_sleeps_count ctx retry_on_not_found (n + 1) =
      stat_sleeps_count ctx retry_on_not_found n +
        (if stat_sleeps_after retry_on_not_found (ctx.stat_head n).status = true then 1 else 0) := by
  unfold stat_sleeps_count
  rw [List.range_succ, List.filter_append, List.length_append]
  by_cases h : stat_sleeps_after retry_on_not_found (ctx.stat_head n).status = true
  · simp [h]
  · simp [h]

/-- Counting the attempts that are not a not-found one attempt further. -/
theorem other_failures_before_succ (ctx : plugin_context) (n : Nat) :
    other_failures_before ctx (n + 1) =
      other_failures_before ctx n +
        (if (ctx.stat_head n).status = S3Status.S3StatusHttpErrorNotFound then 0 else 1) := by
  unfold other_failures_before
  rw [List.range_succ, List.filter_append, List.length_append]
  by_cases h : (ctx.stat_head n).status = S3Status.S3StatusHttpErrorNotFound
  · simp [h]
  · simp [h]

/-- The number of sleeps of the first `n` passes of the stat loop. -/
theorem stat_backoffs_length (ctx : plugin_context) (retry_on_not_found : Bool)
    (max_retry_wait retry_wait n : Nat) :
    (stat_backoffs ctx retry_on_not_found max_retry_wait 0 n ([], retry_wait)).1.length =
      stat_sleeps_count ctx retry_on_not_found n := by
  induction n with
  | zero => rfl
  | succ n ih =>
    rw [stat_backoffs_succ, stat_backoff_log, List.length_append, ih, stat_sleeps_count_succ,
      Nat.zero_add]
    split_ifs <;> rfl

/-- The sleeps of the first `n` passes of the stat loop open the sleeps of the first `m`
passes, for `n ≤ m`. -/
theorem stat_backoffs_extend (ctx : plugin_context) (retry_on_not_found : Bool)
    (max_retry_wait retry_wait n m : Nat) (h : n ≤ m) :
    (stat_backoffs ctx retry_on_not_found max_retry_wait 0 n ([], retry_wait)).1 <+:
      (stat_backoffs ctx retry_on_not_found max_retry_wait 0 m ([], retry_wait)).1 := by
  induction m with
  | zero =>
    have : n = 0 := by omega
    subst this
    exact List.prefix_refl _
  | succ m ih =>
    by_cases hnm : n = m + 1
    · subst hnm
      exact List.prefix_refl _
    · refine List.IsPrefix.trans (ih (by omega)) ?_
      rw [stat_backoffs_succ, stat_backoff_log]
      exact List.prefix_append _ _

/-- While every pass sleeps and `retry_wait` starts at most at the ceiling, the stat loop
has slept once per pass, and `retry_wait` has been doubled once per pass that was not a
not-found. -/
theorem stat_backoffs_state (ctx : plugin_context) (retry_on_not_found : Bool)
    (max_retry_wait retry_wait : Nat) (hle : retry_wait ≤ max_retry_wait) (n : Nat)
    (hs : ∀ i, i < n → stat_sleeps_after retry_on_not_found (ctx.stat_head i).status = true) :
    (stat_backoffs ctx retry_on_not_found max_retry_wait 0 n ([], retry_wait)).1.length = n ∧
      (stat_backoffs ctx retry_on_not_found max_retry_wait 0 n ([], retry_wait)).2 =
        retry_wait_after max_retry_wait retry_wait (other_failures_before ctx n) := by
  induction n with
  | zero => exact ⟨rfl, rfl⟩
  | succ n ih =>
    obtain ⟨hlen, hwait⟩ := ih (fun i hi => hs i (by omega))
    have hsn := hs n (by omega)
    rw [stat_backoffs_succ, Nat.zero_add]
    refine ⟨?_, ?_⟩
    · rw [stat_backoff_log, List.length_append, hlen, if_pos hsn]
      rfl
    · rw [stat_backoff_wait _ _ _ _ hsn
        (by rw [hwait]; exact retry_wait_after_le _ _ hle _), hwait, other_failures_before_succ]
      by_cases hnf : (ctx.stat_head n).status = S3Status.S3StatusHttpErrorNotFound
      · rw [if_pos hnf, if_pos hnf]
        rfl
      · rw [if_neg hnf, if_neg hnf]
        rfl

/-- The argument of the sleep after attempt `n` of the stat loop, while every pass up to
it sleeps and `retry_wait` starts at most at the ceiling. -/
theorem stat_backoffs_entry (ctx : plugin_context) (retry_on_not_found : Bool)
    (max_retry_wait retry_wait : Nat) (hle : retry_wait ≤ max_retry_wait) (n m : Nat)
    (hnm : n < m)
    (hs : ∀ i, i ≤ n → stat_sleeps_after retry_on_not_found (ctx.stat_head i).status = true) :
    (stat_backoffs ctx retry_on_not_found max_retry_wait 0 m ([], retry_wait)).1[n]? =
      some (if (ctx.stat_head n).status = S3Status.S3StatusHttpErrorNotFound then 1
        else to_int32 (retry_wait_after max_retry_wait retry_wait (other_failures_before ctx n))) := by
  obtain ⟨hlen, hwait⟩ := stat_backoffs_state ctx retry_on_not_found max_retry_wait retry_wait
    hle n (fun i hi => hs i (by omega))
  obtain ⟨t, ht⟩ := stat_backoffs_extend ctx retry_on_not_found max_retry_wait retry_wait
    (n + 1) m (by omega)
  rw [← ht, stat_backoffs_succ, stat_backoff_log, Nat.zero_add, if_pos (hs n (le_refl n)), hwait,
    List.append_assoc, List.getElem?_append_right (by omega), hlen]
  simp

end irods_s3

namespace irods_s3

open shared_data s3_transport

/-! ## Sleeps of the readdir retry loop -/

/-- One pass of the readdir loop in terms of `readdir_backoff`: the loop goes on when the
`while` condition holds and leaves with the state of the pass otherwise. -/
theorem readdir_retry_loop_pass (ctx : plugin_context) (list_status : Nat → S3Status)
    (retry_count_limit max_retry_wait fuel retry_cnt retry_wait : Nat) (sleeps : List Int) :
    readdir_retry_loop ctx list_status retry_count_limit max_retry_wait
        (fuel + 1) retry_cnt retry_wait sleeps =
      if list_status retry_cnt ≠ S3Status.S3StatusOK ∧
          S3_status_is_retryable ctx.libs3_is_retryable (list_status retry_cnt) = true ∧
          retry_cnt + 1 < retry_count_limit then
        readdir_retry_loop ctx list_status retry_count_limit max_retry_wait fuel (retry_cnt + 1)
          (readdir_backoff max_retry_wait (list_status retry_cnt) (sleeps, retry_wait)).2
          (readdir_backoff max_retry_wait (list_status retry_cnt) (sleeps, retry_wait)).1
      else
        some (readdir_loop_result.mk (list_status retry_cnt) (retry_cnt + 1)
          (readdir_backoff max_retry_wait (list_status retry_cnt) (sleeps, retry_wait)).1
          (readdir_backoff max_retry_wait (list_status retry_cnt) (sleeps, retry_wait)).2) := by
  by_cases hcond : list_status retry_cnt ≠ S3Status.S3StatusOK ∧
      S3_status_is_retryable ctx.libs3_is_retryable (list_status retry_cnt) = true ∧
      retry_cnt + 1 < retry_count_limit
  · simp only [readdir_retry_loop, if_pos hcond]
    rfl
  · simp only [readdir_retry_loop, if_neg hcond]
    rfl

/-- The readdir loop always leaves with a result when the bound on the passes reaches the
retry limit, and its sleeps and `retry_wait` are those of the passes made. -/
theorem readdir_retry_loop_run (ctx : plugin_context) (list_status : Nat → S3Status)
    (retry_count_limit max_retry_wait : Nat) :
    ∀ (fuel retry_cnt retry_wait : Nat) (sleeps : List Int), 0 < fuel →
      retry_count_limit ≤ retry_cnt + fuel →
      ∃ r, readdir_retry_loop ctx list_status retry_count_limit max_retry_wait
          fuel retry_cnt retry_wait sleeps = some r ∧
        retry_cnt < r.attempts ∧
        (r.sleeps, r.retry_wait) = readdir_backoffs list_status max_retry_wait retry_cnt
          (r.attempts - retry_cnt) (sleeps, retry_wait) := by
  intro fuel
  induction fuel with
  | zero => intro _ _ _ h; omega
  | succ fuel ih =>
    intro c w s _ hL
    rw [readdir_retry_loop_pass]
    by_cases hgo : list_status c ≠ S3Status.S3StatusOK ∧
        S3_status_is_retryable ctx.libs3_is_retryable (list_status c) = true ∧
        c + 1 < retry_count_limit
    · rw [if_pos hgo]
      have hlt := hgo.2.2
      obtain ⟨r, hr, hatt, hlog⟩ := ih (c + 1)
        (readdir_backoff max_retry_wait (list_status c) (s, w)).2
        (readdir_backoff max_retry_wait (list_status c) (s, w)).1
        (by omega) (by omega)
      refine ⟨r, hr, by omega, ?_⟩
      rw [hlog]
      have hcount : r.attempts - c = (r.attempts - (c + 1)) + 1 := by omega
      rw [hcount]
      simp only [readdir_backoffs]
    · rw [if_neg hgo]
      refine ⟨_, rfl, ?_, ?_⟩
      · show c < c + 1
        omega
      · show _ = readdir_backoffs list_status max_retry_wait c (c + 1 - c) (s, w)
        have : c + 1 - c = 1 := by omega
        rw [this]
        simp only [readdir_backoffs]

/-- The fetch of the readdir operation, once its two set-up calls have succeeded, returns
with the state in which the loop was left: at least one attempt, and the sleeps and
`retry_wait` of the passes made. -/
theorem readdir_fetch_runs (ctx : plugin_context) (list_status : Nat → S3Status)
    (search_key : String)
    (h3 : ctx.s3InitPerOperation.ok = true) (h4 : ctx.s3GetAuthCredentials.ok = true) :
    ∃ e loop,
      readdir_fetch ctx list_status search_key = some (e, some loop) ∧
      1 ≤ loop.attempts ∧
      (loop.sleeps, loop.retry_wait) = readdir_backoffs list_status
        ctx.max_retry_wait_time_sec 0 loop.attempts ([], ctx.retry_wait_time_sec) := by
  obtain ⟨loop, hloop, hatt, hlog⟩ :=
    readdir_retry_loop_run ctx list_status ctx.retry_count ctx.max_retry_wait_time_sec
      (ctx.retry_count + 1) 0 ctx.retry_wait_time_sec [] (by omega) (by omega)
  unfold readdir_fetch
  simp only [h3, h4, Bool.true_eq_false, if_false, hloop]
  have hfacts : 1 ≤ loop.attempts ∧
      (loop.sleeps, loop.retry_wait) = readdir_backoffs list_status
        ctx.max_retry_wait_time_sec 0 loop.attempts ([], ctx.retry_wait_time_sec) :=
    ⟨by omega, by simpa using hlog⟩
  split_ifs
  all_goals exact ⟨_, _, rfl, hfacts⟩

/-- The first pass of a run of the readdir loop. -/
theorem readdir_backoffs_first (list_status : Nat → S3Status)
    (max_retry_wait first count : Nat) (slept : List Int × Nat) :
    readdir_backoffs list_status max_retry_wait first (count + 1) slept =
      readdir_backoffs list_status max_retry_wait (first + 1) count
        (readdir_backoff max_retry_wait (list_status first) slept) :=
  rfl

/-- The last pass of a run of the readdir loop. -/
theorem readdir_backoffs_succ (list_status : Nat → S3Status) (max_retry_wait : Nat) :
    ∀ (count first : Nat) (slept : List Int × Nat),
      readdir_backoffs list_status max_retry_wait first (count + 1) slept =
        readdir_backoff max_retry_wait (list_status (first + count))
          (readdir_backoffs list_status max_retry_wait first count slept) := by
  intro count
  induction count with
  | zero => intro first slept; rfl
  | succ n ih =>
    intro first slept
    rw [readdir_backoffs_first, ih, readdir_backoffs_first]
    have hidx : first + 1 + n = first + (n + 1) := by omega
    rw [hidx]

/-- One pass of the readdir loop after a status that is not OK: the sleep with
`retry_wait`, the doubling and the clamp. -/
theorem readdir_backoff_failed (max_retry_wait : Nat) (status : S3Status)
    (slept : List Int × Nat) (hs : status ≠ S3Status.S3StatusOK) :
    readdir_backoff max_retry_wait status slept =
      (slept.1 ++ [to_int32 slept.2],
        if (slept.2 * 2) % 2 ^ 64 > max_retry_wait then max_retry_wait
        else (slept.2 * 2) % 2 ^ 64) := by
  unfold readdir_backoff
  rw [if_pos hs]
  by_cases hc : (slept.2 * 2) % 2 ^ 64 > max_retry_wait
  · simp only [if_pos hc]
  · simp only [if_neg hc]

/-- The sleeps of one pass of the readdir loop follow the earlier ones. -/
theorem readdir_backoff_extends (max_retry_wait : Nat) (status : S3Status)
    (slept : List Int × Nat) :
    slept.1 <+: (readdir_backoff max_retry_wait status slept).1 := by
  by_cases hs : status ≠ S3Status.S3StatusOK
  · rw [readdir_backoff_failed _ _ _ hs]
    exact List.prefix_append _ _
  · unfold readdir_backoff
    rw [if_neg hs]

/-- The sleeps of the first `n` passes of the readdir loop open the sleeps of the first
`m` passes, for `n ≤ m`. -/
theorem readdir_backoffs_extend (list_status : Nat → S3Status)
    (max_retry_wait retry_wait n m : Nat) (h : n ≤ m) :
    (readdir_backoffs list_status max_retry_wait 0 n ([], retry_wait)).1 <+:
      (readdir_backoffs list_status max_retry_wait 0 m ([], retry_wait)).1 := by
  induction m with
  | zero =>
    have : n = 0 := by omega
    subst this
    exact List.prefix_refl _
  | succ m ih =>
    by_cases hnm : n = m + 1
    · subst hnm
      exact List.prefix_refl _
    · refine List.IsPrefix.trans (ih (by omega)) ?_
      rw [readdir_backoffs_succ]
      exact readdir_backoff_extends _ _ _

/-- While every status is a failure, the readdir loop has slept once per pass, and
`retry_wait` has been doubled once per pass. -/
theorem readdir_backoffs_state (list_status : Nat → S3Status)
    (max_retry_wait retry_wait n : Nat)
    (hs : ∀ i, i < n → list_status i ≠ S3Status.S3StatusOK) :
    (readdir_backoffs list_status max_retry_wait 0 n ([], retry_wait)).1.length = n ∧
      (readdir_backoffs list_status max_retry_wait 0 n ([], retry_wait)).2 =
        retry_wait_after max_retry_wait retry_wait n := by
  induction n with
  | zero => exact ⟨rfl, rfl⟩
  | succ n ih =>
    obtain ⟨hlen, hwait⟩ := ih (fun i hi => hs i (by omega))
    rw [readdir_backoffs_succ, Nat.zero_add, readdir_backoff_failed _ _ _ (hs n (by omega))]
    refine ⟨?_, ?_⟩
    · simp only [List.length_append, hlen, List.length_singleton]
    · rw [hwait]
      rfl

/-- The argument of the sleep after attempt `n` of the readdir loop, while every status
up to it is a failure. -/
theorem readdir_backoffs_entry (list_status : Nat → S3Status)
    (max_retry_wait retry_wait n m : Nat) (hnm : n < m)
    (hs : ∀ i, i ≤ n → list_status i ≠ S3Status.S3StatusOK) :
    (readdir_backoffs list_status max_retry_wait 0 m ([], retry_wait)).1[n]? =
      some (to_int32 (retry_wait_after max_retry_wait retry_wait n)) := by
  obtain ⟨hlen, hwait⟩ := readdir_backoffs_state list_status max_retry_wait retry_wait n
    (fun i hi => hs i (by omega))
  obtain ⟨t, ht⟩ := readdir_backoffs_extend list_status max_retry_wait retry_wait
    (n + 1) m (by omega)
  have hsucc : (readdir_backoffs list_status max_retry_wait 0 (n + 1) ([], retry_wait)).1 =
      (readdir_backoffs list_status max_retry_wait 0 n ([], retry_wait)).1 ++
        [to_int32 (retry_wait_after max_retry_wait retry_wait n)] := by
    rw [readdir_backoffs_succ, Nat.zero_add, readdir_backoff_failed _ _ _ (hs n (le_refl n)),
      hwait]
  rw [← ht, hsucc, List.append_assoc, List.getElem?_append_right (by omega), hlen, Nat.sub_self]
  simp only [List.singleton_append, List.getElem?_cons_zero]

end irods_s3

namespace irods_s3

open shared_data s3_transport

/-! ## The back-off base in the stat and readdir operations -/

/-- When no attempt before `n` is a not-found, all `n` of them count. -/
theorem other_failures_before_all (ctx : plugin_context) (n : Nat)
    (h : ∀ i, i < n → (ctx.stat_head i).status ≠ S3Status.S3StatusHttpErrorNotFound) :
    other_failures_before ctx n = n := by
  induction n with
  | zero => rfl
  | succ n ih =>
    rw [other_failures_before_succ, ih (fun i hi => h i (by omega)), if_neg (h n (by omega))]

/-- The stat loop sleeps after a status that is neither OK nor a not-found. -/
theorem stat_sleeps_after_other (retry_on_not_found : Bool) (status : S3Status)
    (h : status ≠ S3Status.S3StatusOK ∧ status ≠ S3Status.S3StatusHttpErrorNotFound) :
    stat_sleeps_after retry_on_not_found status = true := by
  unfold stat_sleeps_after
  exact decide_eq_true (Or.inr h)

/-- With `retry_on_not_found` set the stat loop sleeps after every status that is not
OK. -/
theorem stat_sleeps_after_failed (status : S3Status) (h : status ≠ S3Status.S3StatusOK) :
    stat_sleeps_after true status = true := by
  unfold stat_sleeps_after
  exact decide_eq_true (Or.inl ⟨rfl, h⟩)

/-- The base `min (retry_wait * 2 ^ k) max_retry_wait` as the `int` argument of
`s3_sleep`. -/
theorem to_int32_retry_wait_after (max_retry_wait retry_wait : Nat)
    (hle : retry_wait ≤ max_retry_wait) (hmax : max_retry_wait < 2 ^ 31) (k : Nat) :
    to_int32 (retry_wait_after max_retry_wait retry_wait k) =
      ((min (retry_wait * 2 ^ k) max_retry_wait : Nat) : Int) := by
  rw [retry_wait_after_eq_min _ _ hle (by omega)]
  have hb : min (retry_wait * 2 ^ k) max_retry_wait ≤ max_retry_wait := Nat.min_le_right _ _
  exact to_int32_of_bounds _ (by omega) (by omega)

/-- C11 (amended): for a configured `retry_wait` that is at most the configured
`max_retry_wait`, itself below `2 ^ 31`, the argument of `s3_sleep` after the `j`-th of
`j` failures in a row from the first attempt on is
`min (retry_wait * 2 ^ (j - 1)) max_retry_wait`: in the stat loop when none of the `j`
statuses is a not-found, and in the readdir loop for every status that is not OK. Both
operations return with such a record of their sleeps. -/
theorem backoff_base_doubles_to_ceiling (ctx : plugin_context) (_statbuf : struct_stat)
    (retry_on_not_found : Bool) (list_status : Nat → S3Status) (search_key : String)
    (h1 : ctx.s3CheckParams.ok = true) (h2 : ctx.parseS3Path.ok = true)
    (h3 : ctx.s3InitPerOperation.ok = true) (h4 : ctx.s3GetAuthCredentials.ok = true)
    (hle : ctx.retry_wait_time_sec ≤ ctx.max_retry_wait_time_sec)
    (hmax : ctx.max_retry_wait_time_sec < 2 ^ 31) :
    (∃ e st loop,
      s3_file_stat_operation_with_flag_for_retry_on_not_found ctx _statbuf retry_on_not_found =
        some (e, st, some loop) ∧
      ∀ j, 1 ≤ j → j ≤ loop.attempts →
        (∀ i, i < j → (ctx.stat_head i).status ≠ S3Status.S3StatusOK ∧
          (ctx.stat_head i).status ≠ S3Status.S3StatusHttpErrorNotFound) →
        loop.sleeps[j - 1]? =
          some ((min (ctx.retry_wait_time_sec * 2 ^ (j - 1)) ctx.max_retry_wait_time_sec : Nat) :
            Int)) ∧
    (∃ e loop,
      readdir_fetch ctx list_status search_key = some (e, some loop) ∧
      ∀ j, 1 ≤ j → j ≤ loop.attempts →
        (∀ i, i < j → list_status i ≠ S3Status.S3StatusOK) →
        loop.sleeps[j - 1]? =
          some ((min (ctx.retry_wait_time_sec * 2 ^ (j - 1)) ctx.max_retry_wait_time_sec : Nat) :
            Int)) := by
  refine ⟨?_, ?_⟩
  · obtain ⟨e, st, loop, hop, _, hlog, _, _⟩ :=
      stat_operation_runs ctx _statbuf retry_on_not_found h1 h2 h3 h4
    refine ⟨e, st, loop, hop, ?_⟩
    intro j hj hatt hfail
    have hsleeps : loop.sleeps = (stat_backoffs ctx retry_on_not_found
        ctx.max_retry_wait_time_sec 0 loop.attempts ([], ctx.retry_wait_time_sec)).1 :=
      congrArg Prod.fst hlog
    rw [hsleeps, stat_backoffs_entry ctx retry_on_not_found _ _ hle (j - 1) loop.attempts
      (by omega)
      (fun i hi => stat_sleeps_after_other _ _ (hfail i (by omega))),
      if_neg (hfail (j - 1) (by omega)).2,
      other_failures_before_all ctx (j - 1) (fun i hi => (hfail i (by omega)).2),
      to_int32_retry_wait_after _ _ hle hmax]
  · obtain ⟨e, loop, hop, _, hlog⟩ := readdir_fetch_runs ctx list_status search_key h3 h4
    refine ⟨e, loop, hop, ?_⟩
    intro j hj hatt hfail
    have hsleeps : loop.sleeps = (readdir_backoffs list_status
        ctx.max_retry_wait_time_sec 0 loop.attempts ([], ctx.retry_wait_time_sec)).1 :=
      congrArg Prod.fst hlog
    rw [hsleeps, readdir_backoffs_entry list_status _ _ (j - 1) loop.attempts (by omega)
      (fun i hi => hfail i (by omega)),
      to_int32_retry_wait_after _ _ hle hmax]

end irods_s3

namespace irods_s3

open shared_data s3_transport

/-- A worked instance: with `retry_wait` 2 and `max_retry_wait` 30, after five failures in
a row the fifth sleep has the base `min (2 * 2 ^ 4) 30 = 30`, in the stat loop and in the
readdir loop. -/
theorem backoff_base_doubles_to_ceiling_witness :
    (∃ e st loop,
      s3_file_stat_operation_with_flag_for_retry_on_not_found
        (demo_context 3 [] (List.replicate 6 S3Status.S3StatusErrorUnknown) 6)
        struct_stat.zero false = some (e, st, some loop) ∧
      loop.sleeps[4]? = some 30) ∧
    (∃ e loop,
      readdir_fetch (demo_context 3 [] (List.replicate 6 S3Status.S3StatusErrorUnknown) 6)
        (fun _ => S3Status.S3StatusErrorUnknown) "dir/" = some (e, some loop) ∧
      loop.sleeps[4]? = some 30) := by
  obtain ⟨⟨e, st, loop, hop, hj⟩, ⟨e2, loop2, hop2, hj2⟩⟩ :=
    backoff_base_doubles_to_ceiling
      (demo_context 3 [] (List.replicate 6 S3Status.S3StatusErrorUnknown) 6)
      struct_stat.zero false (fun _ => S3Status.S3StatusErrorUnknown) "dir/"
      rfl rfl rfl rfl (by decide) (by decide)
  have hatt : (s3_file_stat_operation_with_flag_for_retry_on_not_found
      (demo_context 3 [] (List.replicate 6 S3Status.S3StatusErrorUnknown) 6)
      struct_stat.zero false).map (fun r => r.2.2.map (fun l => l.attempts)) =
      some (some 6) := by decide
  have hatt2 : (readdir_fetch
      (demo_context 3 [] (List.replicate 6 S3Status.S3StatusErrorUnknown) 6)
      (fun _ => S3Status.S3StatusErrorUnknown) "dir/").map
        (fun r => r.2.map (fun l => l.attempts)) = some (some 6) := by decide
  rw [hop] at hatt
  rw [hop2] at hatt2
  simp only [Option.map_some', Option.some.injEq] at hatt hatt2
  refine ⟨⟨e, st, loop, hop, ?_⟩, ⟨e2, loop2, hop2, ?_⟩⟩
  · have h := hj 5 (by omega) (by omega) (by
      intro i hi
      interval_cases i <;> decide)
    simpa using h
  · have h := hj2 5 (by omega) (by omega) (by intro i _; decide)
    simpa using h

/-- C11 (counterexample): with a configured `retry_wait` of 10 and a configured
`max_retry_wait` of 5, the first failure, which is not a not-found, is followed by a sleep
of base 10 in the stat loop and in the readdir loop, while
`min (10 * 2 ^ (1 - 1)) 5 = 5`. -/
theorem backoff_base_above_ceiling :
    (s3_file_stat_operation_with_flag_for_retry_on_not_found
      (demo_context_with_wait [S3Status.S3StatusErrorUnknown] 3 10 5)
      struct_stat.zero false).map (fun r => r.2.2.map (fun loop => loop.sleeps)) =
      some (some [10]) ∧
    (readdir_fetch (demo_context_with_wait [] 3 10 5)
      (fun n => [S3Status.S3StatusErrorUnknown].getD n S3Status.S3StatusOK) "dir/").map
        (fun r => r.2.map (fun loop => loop.sleeps)) = some (some [10]) ∧
    min (10 * 2 ^ (1 - 1)) 5 = 5 := by
  decide

end irods_s3

namespace irods_s3

open shared_data s3_transport

/-! ## Not-found passes and the number of sleeps of the stat loop -/

/-- C12 (amended): for a configured `retry_wait` that is at most the configured
`max_retry_wait`, the stat operation with `retry_on_not_found` set sleeps after every
attempt whose status is not OK: with the fixed base 1 after a not-found, and otherwise
with the `retry_wait` reached by one doubling (and clamp) per earlier attempt that was not
a not-found, so that the base does not depend on the not-found attempts before it. -/
theorem not_found_backoff_is_fixed (ctx : plugin_context) (_statbuf : struct_stat)
    (h1 : ctx.s3CheckParams.ok = true) (h2 : ctx.parseS3Path.ok = true)
    (h3 : ctx.s3InitPerOperation.ok = true) (h4 : ctx.s3GetAuthCredentials.ok = true)
    (hle : ctx.retry_wait_time_sec ≤ ctx.max_retry_wait_time_sec) :
    ∃ e st loop,
      s3_file_stat_operation_with_flag_for_retry_on_not_found ctx _statbuf true =
        some (e, st, some loop) ∧
      ∀ i, i < loop.attempts → (ctx.stat_head i).status ≠ S3Status.S3StatusOK →
        loop.sleeps[i]? =
          some (if (ctx.stat_head i).status = S3Status.S3StatusHttpErrorNotFound then 1
            else to_int32 (retry_wait_after ctx.max_retry_wait_time_sec ctx.retry_wait_time_sec
              (other_failures_before ctx i))) := by
  obtain ⟨e, st, loop, hop, _, hlog, hbefore, _⟩ :=
    stat_operation_runs ctx _statbuf true h1 h2 h3 h4
  refine ⟨e, st, loop, hop, ?_⟩
  intro i hi hfail
  have hsleeps : loop.sleeps = (stat_backoffs ctx true
      ctx.max_retry_wait_time_sec 0 loop.attempts ([], ctx.retry_wait_time_sec)).1 :=
    congrArg Prod.fst hlog
  rw [hsleeps]
  refine stat_backoffs_entry ctx true _ _ hle i loop.attempts hi ?_
  intro k hk
  by_cases hki : k = i
  · subst hki
    exact stat_sleeps_after_failed _ hfail
  · exact stat_sleeps_after_failed _ (hbefore k (by omega)).1.1

/-- A worked instance: with `retry_wait` 2 and `max_retry_wait` 30 the statuses
not-found, unknown error, not-found, unknown error, OK give the sleeps 1, 2, 1, 4. -/
theorem not_found_backoff_is_fixed_witness :
    ∃ e st loop,
      s3_file_stat_operation_with_flag_for_retry_on_not_found
        (demo_context 3 []
          [S3Status.S3StatusHttpErrorNotFound, S3Status.S3StatusErrorUnknown,
            S3Status.S3StatusHttpErrorNotFound, S3Status.S3StatusErrorUnknown] 6)
        struct_stat.zero true = some (e, st, some loop) ∧
      loop.sleeps[2]? = some 1 ∧ loop.sleeps[3]? = some 4 := by
  obtain ⟨e, st, loop, hop, hi⟩ :=
    not_found_backoff_is_fixed
      (demo_context 3 []
        [S3Status.S3StatusHttpErrorNotFound, S3Status.S3StatusErrorUnknown,
          S3Status.S3StatusHttpErrorNotFound, S3Status.S3StatusErrorUnknown] 6)
      struct_stat.zero rfl rfl rfl rfl (by decide)
  have hatt : (s3_file_stat_operation_with_flag_for_retry_on_not_found
      (demo_context 3 []
        [S3Status.S3StatusHttpErrorNotFound, S3Status.S3StatusErrorUnknown,
          S3Status.S3StatusHttpErrorNotFound, S3Status.S3StatusErrorUnknown] 6)
      struct_stat.zero true).map (fun r => r.2.2.map (fun l => l.attempts)) =
      some (some 5) := by decide
  rw [hop] at hatt
  simp only [Option.map_some', Option.some.injEq] at hatt
  refine ⟨e, st, loop, hop, ?_, ?_⟩
  · rw [hi 2 (by omega) (by decide)]
    decide
  · rw [hi 3 (by omega) (by decide)]
    decide

/-- C12 (counterexample): with a configured `retry_wait` of 10 and a configured
`max_retry_wait` of 5, the unknown error that follows a not-found is slept on with the base
5, while without the not-found attempt it is slept on with the base 10. -/
theorem not_found_pass_clamps_retry_wait :
    (s3_file_stat_operation_with_flag_for_retry_on_not_found
      (demo_context_with_wait
        [S3Status.S3StatusHttpErrorNotFound, S3Status.S3StatusErrorUnknown] 4 10 5)
      struct_stat.zero true).map (fun r => r.2.2.map (fun loop => loop.sleeps)) =
      some (some [1, 5]) ∧
    (s3_file_stat_operation_with_flag_for_retry_on_not_found
      (demo_context_with_wait [S3Status.S3StatusErrorUnknown] 4 10 5)
      struct_stat.zero true).map (fun r => r.2.2.map (fun loop => loop.sleeps)) =
      some (some [10]) := by
  decide

/-- C13 (amended): the stat operation sleeps after every attempt whose status is not OK
and is not a not-found (or is a not-found while `retry_on_not_found` is set), the last
attempt included, whether or not the status is retryable and whether or not a further
attempt follows: the number of its sleeps is the number of such attempts. -/
theorem stat_sleeps_after_each_failure (ctx : plugin_context) (_statbuf : struct_stat)
    (retry_on_not_found : Bool)
    (h1 : ctx.s3CheckParams.ok = true) (h2 : ctx.parseS3Path.ok = true)
    (h3 : ctx.s3InitPerOperation.ok = true) (h4 : ctx.s3GetAuthCredentials.ok = true) :
    ∃ e st loop,
      s3_file_stat_operation_with_flag_for_retry_on_not_found ctx _statbuf retry_on_not_found =
        some (e, st, some loop) ∧
      loop.sleeps.length = stat_sleeps_count ctx retry_on_not_found loop.attempts ∧
      (stat_sleeps_after retry_on_not_found loop.response.status = true →
        loop.sleeps.length =
          stat_sleeps_count ctx retry_on_not_found (loop.attempts - 1) + 1) := by
  obtain ⟨loop, hloop, hatt, hresp, hlog, _, _⟩ :=
    stat_retry_loop_run ctx retry_on_not_found ctx.retry_count ctx.max_retry_wait_time_sec
      (ctx.retry_count + 1) 0 ctx.retry_wait_time_sec [] (by omega) (by omega)
  have hsleeps : loop.sleeps = (stat_backoffs ctx retry_on_not_found
      ctx.max_retry_wait_time_sec 0 loop.attempts ([], ctx.retry_wait_time_sec)).1 := by
    have h := congrArg Prod.fst hlog
    simpa using h
  have hlen : loop.sleeps.length = stat_sleeps_count ctx retry_on_not_found loop.attempts := by
    rw [hsleeps, stat_backoffs_length]
  have hlast : stat_sleeps_after retry_on_not_found loop.response.status = true →
      loop.sleeps.length =
        stat_sleeps_count ctx retry_on_not_found (loop.attempts - 1) + 1 := by
    intro hs
    rw [hresp] at hs
    have hn : loop.attempts = (loop.attempts - 1) + 1 := by omega
    rw [hlen]
    conv_lhs => rw [hn]
    rw [stat_sleeps_count_succ, if_pos hs]
  unfold s3_file_stat_operation_with_flag_for_retry_on_not_found
  simp only [h1, h2, h3, h4, Bool.true_eq_false, if_false, hloop]
  split_ifs
  all_goals exact ⟨_, _, _, rfl, hlen, hlast⟩

/-- A worked instance: two retryable failures and then OK give three attempts and two
sleeps. -/
theorem stat_sleeps_after_each_failure_witness :
    ∃ e st loop,
      s3_file_stat_operation_with_flag_for_retry_on_not_found
        (demo_context 3 [] [S3Status.S3StatusErrorUnknown, S3Status.S3StatusConnectionFailed] 5)
        struct_stat.zero false = some (e, st, some loop) ∧
      loop.attempts = 3 ∧ loop.sleeps.length = 2 := by
  obtain ⟨e, st, loop, hop, hlen, _⟩ :=
    stat_sleeps_after_each_failure
      (demo_context 3 [] [S3Status.S3StatusErrorUnknown, S3Status.S3StatusConnectionFailed] 5)
      struct_stat.zero false rfl rfl rfl rfl
  have hatt : (s3_file_stat_operation_with_flag_for_retry_on_not_found
      (demo_context 3 [] [S3Status.S3StatusErrorUnknown, S3Status.S3StatusConnectionFailed] 5)
      struct_stat.zero false).map (fun r => r.2.2.map (fun l => l.attempts)) =
      some (some 3) := by decide
  rw [hop] at hatt
  simp only [Option.map_some', Option.some.injEq] at hatt
  refine ⟨e, st, loop, hop, hatt, ?_⟩
  rw [hlen, hatt]
  decide

/-- C13 (counterexample): the status `NoSuchKey` is not retryable, so the first attempt
ends the loop; the loop has nevertheless slept once, with the base 2. With a retry limit
of 1 the same holds for the retryable status of an unknown error: the attempt ceiling is
reached and the loop has slept. -/
theorem stat_sleeps_before_giving_up :
    S3_status_is_retryable libs3_S3_status_is_retryable S3Status.S3StatusErrorNoSuchKey = false ∧
    (s3_file_stat_operation_with_flag_for_retry_on_not_found
      (demo_context 3 [] [S3Status.S3StatusErrorNoSuchKey] 3)
      struct_stat.zero false).map
        (fun r => r.2.2.map (fun loop => (loop.attempts, loop.sleeps))) =
      some (some (1, [2])) ∧
    (s3_file_stat_operation_with_flag_for_retry_on_not_found
      (demo_context 3 [] [S3Status.S3StatusErrorUnknown] 1)
      struct_stat.zero false).map
        (fun r => r.2.2.map (fun loop => (loop.attempts, loop.sleeps))) =
      some (some (1, [2])) := by
  decide

end irods_s3

namespace irods_s3

open shared_data s3_transport

/-! ## The parts of the resolver -/

/-- The operation type that the resolver returns is the one left by its first loop over
`L1desc`. -/
theorem resolver_oprType (ctx : plugin_context) (proc : process_state)
    (data : multipart_shared_data) :
    (get_number_of_threads_data_size_and_opr_type ctx proc data).oprType =
      (first_scan ctx proc).oprType := by
  unfold get_number_of_threads_data_size_and_opr_type first_scan data_size_before_scan
  simp only []
  split_ifs <;> rfl

/-- The resolver for an operation type other than `REPLICATE_DEST`: it succeeds, the data
size is the one left by the first loop, the thread count comes from the block
`if (number_of_threads <= 0)`, and the countdown is set as the last two statements say. -/
theorem resolver_of_other_operation (ctx : plugin_context) (proc : process_state)
    (data : multipart_shared_data) (h : (first_scan ctx proc).oprType ≠ REPLICATE_DEST) :
    (get_number_of_threads_data_size_and_opr_type ctx proc data).error = SUCCESS ∧
    (get_number_of_threads_data_size_and_opr_type ctx proc data).data_size =
      (first_scan ctx proc).data_size ∧
    (get_number_of_threads_data_size_and_opr_type ctx proc data).number_of_threads =
      resolve_number_of_threads ctx (if data.number_of_threads > 0 then data.number_of_threads else 0)
        (first_scan ctx proc).data_size (first_scan ctx proc).oprType
        (first_scan ctx proc).requested_number_of_threads ∧
    (get_number_of_threads_data_size_and_opr_type ctx proc data).shm.threads_remaining_to_close =
      (if (first_scan ctx proc).oprType = GET_OPR then 0
        else if data.threads_remaining_to_close ≤ 0 then
          (get_number_of_threads_data_size_and_opr_type ctx proc data).number_of_threads
        else data.threads_remaining_to_close) ∧
    (get_number_of_threads_data_size_and_opr_type ctx proc data).shm.know_number_of_threads =
      data.know_number_of_threads := by
  have h1 : ¬ ((first_scan ctx proc).oprType = REPLICATE_DEST) := h
  unfold first_scan data_size_before_scan at h1
  unfold get_number_of_threads_data_size_and_opr_type first_scan data_size_before_scan
  simp only [h1, false_and, if_false]
  refine ⟨?_, ?_, ?_, ?_, ?_⟩
  all_goals first
    | trivial
    | rfl
    | (split_ifs <;> rfl)

end irods_s3

namespace irods_s3

open shared_data s3_transport

/-! ## The first loop over `L1desc` -/

/-- The first loop on an entry that matches the object. -/
theorem scan_L1desc_cons_match (file_obj : file_object) (e : l1desc_t) (rest : List l1desc_t)
    (s : l1desc_scan) (hm : l1desc_matches file_obj e = true) :
    ∃ inp, e.dataObjInp = some inp ∧
      scan_L1desc file_obj (e :: rest) s =
        scan_L1desc file_obj rest
          (l1desc_scan.mk true inp.numThreads inp.oprType
            (if s.data_size = UNKNOWN_OBJECT_SIZE then e.dataSize else s.data_size)) := by
  obtain ⟨inuse, dinp, dinfo, dsz⟩ := e
  cases dinp with
  | none => simp [l1desc_matches] at hm
  | some inp =>
    cases dinfo with
    | none => simp [l1desc_matches] at hm
    | some info =>
      simp only [l1desc_matches, Bool.and_eq_true, decide_eq_true_eq] at hm
      refine ⟨inp, rfl, ?_⟩
      rw [scan_L1desc]
      simp only [hm.1, if_true]
      rw [if_pos hm.2]

/-- The first loop on an entry that is in use and does not match the object. -/
theorem scan_L1desc_cons_other (file_obj : file_object) (e : l1desc_t) (rest : List l1desc_t)
    (s : l1desc_scan) (hin : e.inuseFlag = true) (hm : l1desc_matches file_obj e = false) :
    scan_L1desc file_obj (e :: rest) s = scan_L1desc file_obj rest s := by
  obtain ⟨inuse, dinp, dinfo, dsz⟩ := e
  simp only at hin
  subst hin
  rw [scan_L1desc]
  simp only [if_true]
  cases dinp with
  | none => rfl
  | some inp =>
    cases dinfo with
    | none => rfl
    | some info =>
      simp only [l1desc_matches, Bool.true_and, decide_eq_false_iff_not] at hm
      simp only []
      rw [if_neg hm]

/-- The first loop on an entry that is not in use: the `break` once an entry matched. -/
theorem scan_L1desc_cons_unused (file_obj : file_object) (e : l1desc_t) (rest : List l1desc_t)
    (s : l1desc_scan) (hin : e.inuseFlag = false) :
    scan_L1desc file_obj (e :: rest) s =
      if s.found = true then s else scan_L1desc file_obj rest s := by
  rw [scan_L1desc]
  simp only [hin, Bool.false_eq_true, if_false]

/-- An entry that is not in use does not match. -/
theorem l1desc_matches_of_unused (file_obj : file_object) (e : l1desc_t)
    (hin : e.inuseFlag = false) : l1desc_matches file_obj e = false := by
  unfold l1desc_matches
  rw [hin]
  rfl

/-- Before any entry matched, the first loop passes over the entries that do not
match. -/
theorem scan_L1desc_skip (file_obj : file_object) (rest : List l1desc_t) :
    ∀ (pre : List l1desc_t) (s : l1desc_scan), s.found = false →
      (∀ e, e ∈ pre → l1desc_matches file_obj e = false) →
      scan_L1desc file_obj (pre ++ rest) s = scan_L1desc file_obj rest s := by
  intro pre
  induction pre with
  | nil => intro s _ _; rfl
  | cons e pre ih =>
    intro s hs hpre
    have hrest := ih s hs (fun x hx => hpre x (List.mem_cons_of_mem _ hx))
    have he := hpre e (List.mem_cons_self _ _)
    rw [List.cons_append]
    by_cases hin : e.inuseFlag = true
    · rw [scan_L1desc_cons_other _ _ _ _ hin he, hrest]
    · rw [scan_L1desc_cons_unused _ _ _ _ (by simpa using hin), if_neg (by simp [hs]), hrest]

/-- Over entries that are all in use the first loop does not stop. -/
theorem scan_L1desc_in_use (file_obj : file_object) :
    ∀ (mid : List l1desc_t) (s : l1desc_scan), (∀ e, e ∈ mid → e.inuseFlag = true) →
      ∃ s2, ∀ rest, scan_L1desc file_obj (mid ++ rest) s = scan_L1desc file_obj rest s2 := by
  intro mid
  induction mid with
  | nil => intro s _; exact ⟨s, fun _ => rfl⟩
  | cons e mid ih =>
    intro s hmid
    have hin := hmid e (List.mem_cons_self _ _)
    have hmid2 : ∀ x, x ∈ mid → x.inuseFlag = true :=
      fun x hx => hmid x (List.mem_cons_of_mem _ hx)
    by_cases hm : l1desc_matches file_obj e = true
    · obtain ⟨inp, hinp, _⟩ := scan_L1desc_cons_match file_obj e [] s hm
      obtain ⟨s2, hs2⟩ := ih (l1desc_scan.mk true inp.numThreads inp.oprType
        (if s.data_size = UNKNOWN_OBJECT_SIZE then e.dataSize else s.data_size)) hmid2
      refine ⟨s2, fun rest => ?_⟩
      obtain ⟨inp2, hinp2, hstep2⟩ := scan_L1desc_cons_match file_obj e (mid ++ rest) s hm
      have hsame : inp2 = inp := by
        rw [hinp] at hinp2
        exact (Option.some.inj hinp2).symm
      rw [List.cons_append, hstep2, hsame, hs2]
    · obtain ⟨s2, hs2⟩ := ih s hmid2
      refine ⟨s2, fun rest => ?_⟩
      rw [List.cons_append, scan_L1desc_cons_other _ _ _ _ hin (by simpa using hm), hs2]

/-- Over entries that are in use and do not match, the first loop changes nothing. -/
theorem scan_L1desc_in_use_other (file_obj : file_object) (rest : List l1desc_t) :
    ∀ (post : List l1desc_t) (s : l1desc_scan),
      (∀ e, e ∈ post → e.inuseFlag = true ∧ l1desc_matches file_obj e = false) →
      scan_L1desc file_obj (post ++ rest) s = scan_L1desc file_obj rest s := by
  intro post
  induction post with
  | nil => intro s _; rfl
  | cons e post ih =>
    intro s hpost
    have he := hpost e (List.mem_cons_self _ _)
    rw [List.cons_append, scan_L1desc_cons_other _ _ _ _ he.1 he.2,
      ih s (fun x hx => hpost x (List.mem_cons_of_mem _ hx))]

/-- After a match the first loop ends at the end of the table or at an entry that is not
in use. -/
theorem scan_L1desc_stop (file_obj : file_object) (tail : List l1desc_t) (s : l1desc_scan)
    (hs : s.found = true)
    (htail : tail = [] ∨ ∃ u rest, tail = u :: rest ∧ u.inuseFlag = false) :
    scan_L1desc file_obj tail s = s := by
  rcases htail with h | ⟨u, rest, h, hu⟩
  · subst h
    rfl
  · subst h
    rw [scan_L1desc_cons_unused _ _ _ _ hu, if_pos hs]

end irods_s3

namespace irods_s3

open shared_data s3_transport

/-! ## The data size left by the first loop -/

/-- The first loop keeps a data size that is known. -/
theorem scan_L1desc_keeps_known_size (file_obj : file_object) :
    ∀ (table : List l1desc_t) (s : l1desc_scan), s.data_size ≠ UNKNOWN_OBJECT_SIZE →
      (scan_L1desc file_obj table s).data_size = s.data_size := by
  intro table
  induction table with
  | nil => intro s _; rfl
  | cons e table ih =>
    intro s hs
    by_cases hin : e.inuseFlag = true
    · by_cases hm : l1desc_matches file_obj e = true
      · obtain ⟨inp, _, hstep⟩ := scan_L1desc_cons_match file_obj e table s hm
        rw [hstep, ih _ (by simpa [if_neg hs] using hs)]
        exact if_neg hs
      · rw [scan_L1desc_cons_other _ _ _ _ hin (by simpa using hm)]
        exact ih s hs
    · rw [scan_L1desc_cons_unused _ _ _ _ (by simpa using hin)]
      by_cases hf : s.found = true
      · rw [if_pos hf]
      · rw [if_neg hf]
        exact ih s hs

/-- From an unknown data size the first loop leaves an unknown data size or the
`dataSize` of an entry that matches the object. -/
theorem scan_L1desc_size_of_entry (file_obj : file_object) :
    ∀ (table : List l1desc_t) (s : l1desc_scan), s.data_size = UNKNOWN_OBJECT_SIZE →
      (scan_L1desc file_obj table s).data_size = UNKNOWN_OBJECT_SIZE ∨
      ∃ e, e ∈ table ∧ l1desc_matches file_obj e = true ∧
        (scan_L1desc file_obj table s).data_size = e.dataSize := by
  intro table
  induction table with
  | nil => intro s hs; exact Or.inl hs
  | cons e table ih =>
    intro s hs
    have hlift : ∀ s2 : l1desc_scan,
        ((scan_L1desc file_obj table s2).data_size = UNKNOWN_OBJECT_SIZE ∨
          ∃ x, x ∈ table ∧ l1desc_matches file_obj x = true ∧
            (scan_L1desc file_obj table s2).data_size = x.dataSize) →
        ((scan_L1desc file_obj table s2).data_size = UNKNOWN_OBJECT_SIZE ∨
          ∃ x, x ∈ e :: table ∧ l1desc_matches file_obj x = true ∧
            (scan_L1desc file_obj table s2).data_size = x.dataSize) := by
      intro s2 h
      rcases h with h | ⟨x, hx, hxm, hxs⟩
      · exact Or.inl h
      · exact Or.inr ⟨x, List.mem_cons_of_mem _ hx, hxm, hxs⟩
    by_cases hin : e.inuseFlag = true
    · by_cases hm : l1desc_matches file_obj e = true
      · obtain ⟨inp, _, hstep⟩ := scan_L1desc_cons_match file_obj e table s hm
        rw [hstep, if_pos hs]
        by_cases hsz : e.dataSize = UNKNOWN_OBJECT_SIZE
        · exact hlift _ (ih _ hsz)
        · exact Or.inr ⟨e, List.mem_cons_self _ _, hm,
            scan_L1desc_keeps_known_size file_obj table _ hsz⟩
      · rw [scan_L1desc_cons_other _ _ _ _ hin (by simpa using hm)]
        exact hlift s (ih s hs)
    · rw [scan_L1desc_cons_unused _ _ _ _ (by simpa using hin)]
      by_cases hf : s.found = true
      · rw [if_pos hf]
        exact Or.inl hs
      · rw [if_neg hf]
        exact hlift s (ih s hs)

/-- From an unknown data size and before any match, the first loop leaves the `dataSize`
of an entry that matches the object, when there is one. -/
theorem scan_L1desc_size_of_match (file_obj : file_object) :
    ∀ (table : List l1desc_t) (s : l1desc_scan), s.found = false →
      s.data_size = UNKNOWN_OBJECT_SIZE →
      (∀ e, e ∈ table → l1desc_matches file_obj e = false) ∨
      ∃ e, e ∈ table ∧ l1desc_matches file_obj e = true ∧
        (scan_L1desc file_obj table s).data_size = e.dataSize := by
  intro table
  induction table with
  | nil => intro s _ _; exact Or.inl (fun e he => absurd he (List.not_mem_nil e))
  | cons e table ih =>
    intro s hf hs
    by_cases hm : l1desc_matches file_obj e = true
    · right
      obtain ⟨inp, _, hstep⟩ := scan_L1desc_cons_match file_obj e table s hm
      rw [hstep, if_pos hs]
      by_cases hsz : e.dataSize = UNKNOWN_OBJECT_SIZE
      · rcases scan_L1desc_size_of_entry file_obj table
          (l1desc_scan.mk true inp.numThreads inp.oprType e.dataSize) hsz with h | ⟨x, hx, hxm, hxs⟩
        · exact ⟨e, List.mem_cons_self _ _, hm, h.trans hsz.symm⟩
        · exact ⟨x, List.mem_cons_of_mem _ hx, hxm, hxs⟩
      · exact ⟨e, List.mem_cons_self _ _, hm,
          scan_L1desc_keeps_known_size file_obj table _ hsz⟩
    · have hm2 : l1desc_matches file_obj e = false := by simpa using hm
      have hstep : scan_L1desc file_obj (e :: table) s = scan_L1desc file_obj table s := by
        by_cases hin : e.inuseFlag = true
        · exact scan_L1desc_cons_other _ _ _ _ hin hm2
        · rw [scan_L1desc_cons_unused _ _ _ _ (by simpa using hin), if_neg (by simp [hf])]
      rw [hstep]
      rcases ih s hf hs with h | ⟨x, hx, hxm, hxs⟩
      · left
        intro x hx
        rcases List.mem_cons.mp hx with hxe | hxt
        · rw [hxe]; exact hm2
        · exact h x hxt
      · exact Or.inr ⟨x, List.mem_cons_of_mem _ hx, hxm, hxs⟩

/-- When no entry matches the object the first loop changes nothing. -/
theorem scan_L1desc_no_match (file_obj : file_object) (table : List l1desc_t) (s : l1desc_scan)
    (hs : s.found = false) (h : ∀ e, e ∈ table → l1desc_matches file_obj e = false) :
    scan_L1desc file_obj table s = s := by
  have hskip := scan_L1desc_skip file_obj [] table s hs h
  rw [List.append_nil] at hskip
  rw [hskip]
  rfl

end irods_s3

namespace irods_s3

open shared_data s3_transport

/-! ## Data size and operation type of the resolver -/

/-- A known data size saved in the process is the data size before the first loop. -/
theorem data_size_before_scan_of_known (ctx : plugin_context) (proc : process_state)
    (h : proc.data_size ≠ UNKNOWN_OBJECT_SIZE) :
    data_size_before_scan ctx proc = proc.data_size := by
  unfold data_size_before_scan
  rw [if_neg h]

/-- Without a saved data size, the value of a `DATA_SIZE_KW` that parses is the data size
before the first loop. -/
theorem data_size_before_scan_of_hint (ctx : plugin_context) (proc : process_state)
    (str : String) (v : Nat) (h : proc.data_size = UNKNOWN_OBJECT_SIZE)
    (hkw : ctx.file_obj.DATA_SIZE_KW = some str) (hcast : ctx.lexical_cast_uint64 str = some v) :
    data_size_before_scan ctx proc = to_int64 v := by
  unfold data_size_before_scan
  rw [if_pos h]
  simp only [hkw, hcast]

/-- Without a saved data size and without a keyword value other than
`UNKNOWN_OBJECT_SIZE`, the data size before the first loop is unknown. -/
theorem data_size_before_scan_unknown (ctx : plugin_context) (proc : process_state)
    (h : proc.data_size = UNKNOWN_OBJECT_SIZE)
    (hhint : ∀ str v, ctx.file_obj.DATA_SIZE_KW = some str →
      ctx.lexical_cast_uint64 str = some v → to_int64 v = UNKNOWN_OBJECT_SIZE) :
    data_size_before_scan ctx proc = UNKNOWN_OBJECT_SIZE := by
  unfold data_size_before_scan
  rw [if_pos h]
  cases hkw : ctx.file_obj.DATA_SIZE_KW with
  | none => exact h
  | some str =>
    cases hcast : ctx.lexical_cast_uint64 str with
    | none => simp only [hcast]
    | some v =>
      simp only [hcast]
      exact hhint str v hkw hcast

/-- C15 (amended): for every resolver call whose resolved operation type is not
`REPLICATE_DEST`, a known data size saved in the process is returned whatever the keyword
and the table say; otherwise the value of a `DATA_SIZE_KW` that parses is returned, as an
`int64_t`, whatever the table says, unless that `int64_t` is `UNKNOWN_OBJECT_SIZE`;
otherwise (no keyword, a keyword that does not parse, or one whose value as an `int64_t`
is `UNKNOWN_OBJECT_SIZE`) the `dataSize` of an entry that matches the object is returned,
and `UNKNOWN_OBJECT_SIZE` when no entry matches. -/
theorem resolver_data_size_priority (ctx : plugin_context) (proc : process_state)
    (data : multipart_shared_data)
    (hopr : (get_number_of_threads_data_size_and_opr_type ctx proc data).oprType ≠
      REPLICATE_DEST) :
    (proc.data_size ≠ UNKNOWN_OBJECT_SIZE →
      (get_number_of_threads_data_size_and_opr_type ctx proc data).data_size = proc.data_size) ∧
    (proc.data_size = UNKNOWN_OBJECT_SIZE →
      ∀ str v, ctx.file_obj.DATA_SIZE_KW = some str → ctx.lexical_cast_uint64 str = some v →
        to_int64 v ≠ UNKNOWN_OBJECT_SIZE →
        (get_number_of_threads_data_size_and_opr_type ctx proc data).data_size = to_int64 v) ∧
    (proc.data_size = UNKNOWN_OBJECT_SIZE →
      (∀ str v, ctx.file_obj.DATA_SIZE_KW = some str → ctx.lexical_cast_uint64 str = some v →
        to_int64 v = UNKNOWN_OBJECT_SIZE) →
      (∃ e, e ∈ ctx.L1desc ∧ l1desc_matches ctx.file_obj e = true ∧
        (get_number_of_threads_data_size_and_opr_type ctx proc data).data_size = e.dataSize) ∨
      ((∀ e, e ∈ ctx.L1desc → l1desc_matches ctx.file_obj e = false) ∧
        (get_number_of_threads_data_size_and_opr_type ctx proc data).data_size =
          UNKNOWN_OBJECT_SIZE)) := by
  rw [resolver_oprType] at hopr
  rw [(resolver_of_other_operation ctx proc data hopr).2.1]
  unfold first_scan
  refine ⟨?_, ?_, ?_⟩
  · intro hknown
    have hbefore : data_size_before_scan ctx proc = proc.data_size :=
      data_size_before_scan_of_known ctx proc hknown
    have hne : (l1desc_scan.mk false 0 proc.oprType (data_size_before_scan ctx proc)).data_size ≠
        UNKNOWN_OBJECT_SIZE := by
      show data_size_before_scan ctx proc ≠ UNKNOWN_OBJECT_SIZE
      rw [hbefore]
      exact hknown
    rw [scan_L1desc_keeps_known_size _ _ _ hne]
    exact hbefore
  · intro hunknown str v hkw hcast hv
    have hbefore : data_size_before_scan ctx proc = to_int64 v :=
      data_size_before_scan_of_hint ctx proc str v hunknown hkw hcast
    have hne : (l1desc_scan.mk false 0 proc.oprType (data_size_before_scan ctx proc)).data_size ≠
        UNKNOWN_OBJECT_SIZE := by
      show data_size_before_scan ctx proc ≠ UNKNOWN_OBJECT_SIZE
      rw [hbefore]
      exact hv
    rw [scan_L1desc_keeps_known_size _ _ _ hne]
    exact hbefore
  · intro hunknown hhint
    have hbefore : data_size_before_scan ctx proc = UNKNOWN_OBJECT_SIZE :=
      data_size_before_scan_unknown ctx proc hunknown hhint
    rcases scan_L1desc_size_of_match ctx.file_obj ctx.L1desc
        (l1desc_scan.mk false 0 proc.oprType (data_size_before_scan ctx proc)) rfl hbefore with
      h | h
    · right
      refine ⟨h, ?_⟩
      rw [scan_L1desc_no_match _ _ _ rfl h]
      exact hbefore
    · exact Or.inl h

/-- A worked instance: a process that saved the data size 7 gets 7, and a request with the
keyword value 9 in a process without a saved size gets 9, whatever the table says. -/
theorem resolver_data_size_priority_witness :
    (get_number_of_threads_data_size_and_opr_type (demo_context 3 (demo_table PUT_OPR 1 5) [] 3)
      (process_state.mk 7 (-1) fd_to_data_map.init) (demo_session 0 0)).data_size = 7 ∧
    (get_number_of_threads_data_size_and_opr_type
      (demo_context_with_size_hint (demo_table PUT_OPR 1 5) "9" (some 9))
      process_state.init (demo_session 0 0)).data_size = 9 :=
  ⟨(resolver_data_size_priority (demo_context 3 (demo_table PUT_OPR 1 5) [] 3)
      (process_state.mk 7 (-1) fd_to_data_map.init) (demo_session 0 0) (by decide)).1 (by decide),
    (resolver_data_size_priority
      (demo_context_with_size_hint (demo_table PUT_OPR 1 5) "9" (some 9))
      process_state.init (demo_session 0 0) (by decide)).2.1 rfl "9" 9 rfl rfl (by decide)⟩

/-- C15 (counterexample): the process has no saved data size and the request carries the
keyword value `18446744073709551615`, which parses as a `std::uint64_t`; the operation
type is `PUT_OPR`, and the resolver returns the `dataSize` 5 of the matching entry, not the
keyword value. -/
theorem resolver_data_size_hint_overridden :
    process_state.init.data_size = UNKNOWN_OBJECT_SIZE ∧
    (get_number_of_threads_data_size_and_opr_type
      (demo_context_with_size_hint (demo_table PUT_OPR 1 5) "18446744073709551615"
        (some 18446744073709551615))
      process_state.init (demo_session 0 0)).oprType = PUT_OPR ∧
    (get_number_of_threads_data_size_and_opr_type
      (demo_context_with_size_hint (demo_table PUT_OPR 1 5) "18446744073709551615"
        (some 18446744073709551615))
      process_state.init (demo_session 0 0)).data_size = 5 := by
  decide

end irods_s3

namespace irods_s3

open shared_data s3_transport

/-- C17 (amended): the operation type returned by the resolver is the `oprType` of the
last entry that matches the object (in use, same logical and physical path) among the
entries that the first loop reads, which end at the first entry not in use that follows a
matching entry: when the table is `pre ++ mid ++ l :: post ++ tail` with no match in
`pre`, all of `mid` in use, `l` a match, `post` in use without a match, and `tail` empty or
opened by an entry that is not in use, the result is the `oprType` of `l`. When no entry
matches, the result is the operation type saved in the process. -/
theorem resolver_oprType_of_last_match (ctx : plugin_context) (proc : process_state)
    (data : multipart_shared_data) :
    (∀ pre mid l post tail,
      ctx.L1desc = pre ++ (mid ++ (l :: (post ++ tail))) →
      (∀ e, e ∈ pre → l1desc_matches ctx.file_obj e = false) →
      (∀ e, e ∈ mid → e.inuseFlag = true) →
      l1desc_matches ctx.file_obj l = true →
      (∀ e, e ∈ post → e.inuseFlag = true ∧ l1desc_matches ctx.file_obj e = false) →
      (tail = [] ∨ ∃ u rest, tail = u :: rest ∧ u.inuseFlag = false) →
      l.dataObjInp.map dataObjInp_t.oprType =
        some (get_number_of_threads_data_size_and_opr_type ctx proc data).oprType) ∧
    ((∀ e, e ∈ ctx.L1desc → l1desc_matches ctx.file_obj e = false) →
      (get_number_of_threads_data_size_and_opr_type ctx proc data).oprType = proc.oprType) := by
  rw [resolver_oprType]
  unfold first_scan
  refine ⟨?_, ?_⟩
  · intro pre mid l post tail htable hpre hmid hl hpost htail
    rw [htable, scan_L1desc_skip _ _ pre _ rfl hpre]
    obtain ⟨s2, hs2⟩ := scan_L1desc_in_use ctx.file_obj mid
      (l1desc_scan.mk false 0 proc.oprType (data_size_before_scan ctx proc)) hmid
    rw [hs2]
    obtain ⟨inp, hinp, hstep⟩ := scan_L1desc_cons_match ctx.file_obj l (post ++ tail) s2 hl
    rw [hstep, scan_L1desc_in_use_other _ _ post _ hpost,
      scan_L1desc_stop _ tail _ rfl htail, hinp]
    rfl
  · intro hnone
    rw [scan_L1desc_no_match _ _ _ rfl hnone]

/-- A worked instance: of two matching entries in a row, a `PUT_OPR` entry and a
`COPY_DEST` entry, the second decides. -/
theorem resolver_oprType_of_last_match_witness :
    (get_number_of_threads_data_size_and_opr_type
      (demo_context 3 (demo_table PUT_OPR 1 5 ++ demo_table COPY_DEST 1 5) [] 3)
      process_state.init (demo_session 0 0)).oprType = COPY_DEST := by
  have h := (resolver_oprType_of_last_match
    (demo_context 3 (demo_table PUT_OPR 1 5 ++ demo_table COPY_DEST 1 5) [] 3)
    process_state.init (demo_session 0 0)).1 [] (demo_table PUT_OPR 1 5)
    (l1desc_t.mk true (some (dataObjInp_t.mk "/zone/obj" 1 COPY_DEST))
      (some (dataObjInfo_t.mk "/bucket/obj" 5)) 5) [] [] rfl
    (fun e he => absurd he (List.not_mem_nil e)) (by decide) (by decide)
    (fun e he => absurd he (List.not_mem_nil e)) (Or.inl rfl)
  exact (Option.some.inj h).symm

/-- C17 (counterexample): the table holds a matching `PUT_OPR` entry, an entry that is not
in use, and a matching `COPY_DEST` entry. The last in-use entry that matches the object is
the `COPY_DEST` entry, yet the resolver returns `PUT_OPR`. -/
theorem resolver_oprType_stops_at_unused_entry :
    (((demo_table PUT_OPR 1 5 ++
        (l1desc_t.mk false none none 0 :: demo_table COPY_DEST 1 5)).filter
      (l1desc_matches (demo_context 3 [] [] 3).file_obj)).getLast?.bind
        (fun e => e.dataObjInp.map dataObjInp_t.oprType)) = some COPY_DEST ∧
    (get_number_of_threads_data_size_and_opr_type
      (demo_context 3
        (demo_table PUT_OPR 1 5 ++ (l1desc_t.mk false none none 0 :: demo_table COPY_DEST 1 5))
        [] 3)
      process_state.init (demo_session 0 0)).oprType = PUT_OPR := by
  decide

end irods_s3

namespace irods_s3

open shared_data s3_transport

/-! ## The data size of a replication destination -/

/-- The resolver for the operation type `REPLICATE_DEST`: the data size is the one left by
the loop over `L1desc` for a replication destination. -/
theorem resolver_of_replication (ctx : plugin_context) (proc : process_state)
    (data : multipart_shared_data) (h : (first_scan ctx proc).oprType = REPLICATE_DEST) :
    (get_number_of_threads_data_size_and_opr_type ctx proc data).data_size =
      (scan_replication ctx.file_obj ctx.L1desc
        (replication_scan.mk false (decide (data.number_of_threads > 0))
          (first_scan ctx proc).data_size
          (if data.number_of_threads > 0 then data.number_of_threads else 0))).data_size := by
  have h1 : (first_scan ctx proc).oprType = REPLICATE_DEST := h
  unfold first_scan data_size_before_scan at h1
  unfold get_number_of_threads_data_size_and_opr_type first_scan data_size_before_scan
  simp only [h1, true_and, if_true]
  by_cases hnt : data.number_of_threads > 0
  · simp only [hnt, if_true, decide_True]
    split_ifs <;> rfl
  · simp only [hnt, if_false, decide_False]
    split_ifs <;> rfl

/-- Once the data size was found, an entry of the replication loop keeps it. -/
theorem replication_entry_keeps_size (l1d : l1desc_t) (dobj_input : dataObjInp_t)
    (s : replication_scan) (hs : s.found_data_size = true) :
    (replication_entry l1d dobj_input s).found_data_size = true ∧
    (replication_entry l1d dobj_input s).data_size = s.data_size := by
  unfold replication_entry
  cases l1d.dataObjInfo with
  | none =>
    simp only []
    split_ifs <;> exact ⟨hs, rfl⟩
  | some dobj_info =>
    have hc : ¬ (s.found_data_size = false ∧ dobj_input.oprType = REPLICATE_SRC) := by
      simp [hs]
    simp only [if_neg hc]
    split_ifs <;> exact ⟨hs, rfl⟩

/-- Once the data size was found, the replication loop keeps it. -/
theorem scan_replication_keeps_size (file_obj : file_object) :
    ∀ (table : List l1desc_t) (s : replication_scan), s.found_data_size = true →
      (scan_replication file_obj table s).data_size = s.data_size := by
  intro table
  induction table with
  | nil => intro s _; rfl
  | cons l1d rest ih =>
    intro s hs
    unfold scan_replication
    split
    · rename_i dobj_input _ _
      have hstep := replication_entry_keeps_size l1d dobj_input s hs
      by_cases hpath : dobj_input.objPath ≠ file_obj.logical_path
      · rw [if_pos hpath]
        exact ih s hs
      · rw [if_neg hpath]
        simp only []
        by_cases hboth : (replication_entry l1d dobj_input s).found_data_size = true ∧
            (replication_entry l1d dobj_input s).found_number_of_threads = true
        · rw [if_pos hboth]
          exact hstep.2
        · rw [if_neg hboth]
          exact (ih _ hstep.1).trans hstep.2
    · exact ih s hs

/-- The source entry gives the data size to the replication loop. -/
theorem replication_entry_of_source (file_obj : file_object) (l1d : l1desc_t)
    (dobj_input : dataObjInp_t) (dobj_info : dataObjInfo_t) (s : replication_scan)
    (hs : s.found_data_size = false) (hsrc : is_replication_source file_obj l1d = true)
    (hinp : l1d.dataObjInp = some dobj_input) (hinfo : l1d.dataObjInfo = some dobj_info) :
    (replication_entry l1d dobj_input s).found_data_size = true ∧
    (replication_entry l1d dobj_input s).data_size = dobj_info.dataSize := by
  unfold is_replication_source at hsrc
  simp only [hinp, hinfo, Bool.and_eq_true, decide_eq_true_eq] at hsrc
  unfold replication_entry
  have hc : s.found_data_size = false ∧ dobj_input.oprType = REPLICATE_SRC := ⟨hs, hsrc.2.2⟩
  simp only [hinfo, if_pos hc]
  split_ifs <;> exact ⟨rfl, rfl⟩

/-- An entry of the same logical path that is not a source entry leaves the data size of
the replication loop to be found. -/
theorem replication_entry_of_other (file_obj : file_object) (l1d : l1desc_t)
    (dobj_input : dataObjInp_t) (s : replication_scan)
    (hs : s.found_data_size = false) (hsrc : is_replication_source file_obj l1d = false)
    (hin : l1d.inuseFlag = true) (hinp : l1d.dataObjInp = some dobj_input)
    (hpath : dobj_input.objPath = file_obj.logical_path) :
    (replication_entry l1d dobj_input s).found_data_size = false := by
  unfold is_replication_source at hsrc
  unfold replication_entry
  cases hinfo : l1d.dataObjInfo with
  | none =>
    simp only []
    split_ifs <;> exact hs
  | some dobj_info =>
    simp only [hin, hinp, hinfo, Bool.true_and, decide_eq_false_iff_not, not_and] at hsrc
    have hc : ¬ (s.found_data_size = false ∧ dobj_input.oprType = REPLICATE_SRC) :=
      fun hc => hsrc hpath hc.2
    simp only [if_neg hc]
    split_ifs <;> exact hs

end irods_s3

namespace irods_s3

open shared_data s3_transport

/-- The replication loop on an in-use entry of the same logical path. -/
theorem scan_replication_cons_same_path (file_obj : file_object) (l1d : l1desc_t)
    (rest : List l1desc_t) (s : replication_scan) (dobj_input : dataObjInp_t)
    (hin : l1d.inuseFlag = true) (hinp : l1d.dataObjInp = some dobj_input)
    (hpath : dobj_input.objPath = file_obj.logical_path) :
    scan_replication file_obj (l1d :: rest) s =
      if (replication_entry l1d dobj_input s).found_data_size = true ∧
          (replication_entry l1d dobj_input s).found_number_of_threads = true then
        replication_entry l1d dobj_input s
      else scan_replication file_obj rest (replication_entry l1d dobj_input s) := by
  rw [scan_replication]
  simp only [hin, hinp]
  rw [if_neg (by simpa using hpath)]

/-- The replication loop on an entry that is not in use, has no `dataObjInp`, or names
another logical path: the `continue`. -/
theorem scan_replication_cons_skip (file_obj : file_object) (l1d : l1desc_t)
    (rest : List l1desc_t) (s : replication_scan)
    (h : l1d.inuseFlag = false ∨ l1d.dataObjInp = none ∨
      ∃ dobj_input, l1d.dataObjInp = some dobj_input ∧
        dobj_input.objPath ≠ file_obj.logical_path) :
    scan_replication file_obj (l1d :: rest) s = scan_replication file_obj rest s := by
  rw [scan_replication]
  rcases h with h | h | ⟨dobj_input, h, hpath⟩
  · simp only [h]
  · simp only [h]
    cases l1d.inuseFlag <;> rfl
  · simp only [h]
    cases l1d.inuseFlag
    · rfl
    · simp only []
      rw [if_pos hpath]

/-- The replication loop takes the data size from the first source entry of the table. -/
theorem scan_replication_of_source (file_obj : file_object) :
    ∀ (table : List l1desc_t) (s : replication_scan), s.found_data_size = false →
      ∀ e dobj_info, table.find? (is_replication_source file_obj) = some e →
        e.dataObjInfo = some dobj_info →
        (scan_replication file_obj table s).data_size = dobj_info.dataSize := by
  intro table
  induction table with
  | nil => intro s _ e dobj_info hfind _; simp at hfind
  | cons l1d rest ih =>
    intro s hs e dobj_info hfind hinfo
    by_cases hin : l1d.inuseFlag = true
    · cases hinp : l1d.dataObjInp with
      | none =>
        have hsrc : is_replication_source file_obj l1d = false := by
          simp [is_replication_source, hinp]
        rw [List.find?_cons_of_neg _ (by simp [hsrc])] at hfind
        rw [scan_replication_cons_skip _ _ _ _ (Or.inr (Or.inl hinp))]
        exact ih s hs e dobj_info hfind hinfo
      | some dobj_input =>
        by_cases hpath : dobj_input.objPath = file_obj.logical_path
        · rw [scan_replication_cons_same_path _ _ _ _ _ hin hinp hpath]
          by_cases hsrc : is_replication_source file_obj l1d = true
          · rw [List.find?_cons_of_pos _ hsrc] at hfind
            have he : l1d = e := Option.some.inj hfind
            rw [← he] at hinfo
            have hstep := replication_entry_of_source file_obj l1d dobj_input dobj_info s hs
              hsrc hinp hinfo
            split_ifs
            · exact hstep.2
            · exact (scan_replication_keeps_size file_obj rest _ hstep.1).trans hstep.2
          · have hsrc2 : is_replication_source file_obj l1d = false := by simpa using hsrc
            rw [List.find?_cons_of_neg _ (by simp [hsrc2])] at hfind
            have hstep := replication_entry_of_other file_obj l1d dobj_input s hs hsrc2 hin
              hinp hpath
            rw [if_neg (by simp [hstep])]
            exact ih _ hstep e dobj_info hfind hinfo
        · have hsrc : is_replication_source file_obj l1d = false := by
            unfold is_replication_source
            rw [hinp]
            cases l1d.dataObjInfo <;> simp [hpath]
          rw [List.find?_cons_of_neg _ (by simp [hsrc])] at hfind
          rw [scan_replication_cons_skip _ _ _ _ (Or.inr (Or.inr ⟨dobj_input, hinp, hpath⟩))]
          exact ih s hs e dobj_info hfind hinfo
    · have hin2 : l1d.inuseFlag = false := by simpa using hin
      have hsrc : is_replication_source file_obj l1d = false := by
        simp [is_replication_source, hin2]
      rw [List.find?_cons_of_neg _ (by simp [hsrc])] at hfind
      rw [scan_replication_cons_skip _ _ _ _ (Or.inl hin2)]
      exact ih s hs e dobj_info hfind hinfo

/-- C16 (amended): for every resolver call whose resolved operation type is
`REPLICATE_DEST` and whose table holds a source entry (in use, `dataObjInp` for the same
logical path with the operation type `REPLICATE_SRC`, `dataObjInfo` not null), the
returned data size is the `dataObjInfo` size of the first such entry, whatever the
destination entry, the process and the keyword say. -/
theorem resolver_size_of_replication_source (ctx : plugin_context) (proc : process_state)
    (data : multipart_shared_data) (e : l1desc_t) (dobj_info : dataObjInfo_t)
    (hopr : (get_number_of_threads_data_size_and_opr_type ctx proc data).oprType =
      REPLICATE_DEST)
    (hfind : ctx.L1desc.find? (is_replication_source ctx.file_obj) = some e)
    (hinfo : e.dataObjInfo = some dobj_info) :
    (get_number_of_threads_data_size_and_opr_type ctx proc data).data_size =
      dobj_info.dataSize := by
  rw [resolver_oprType] at hopr
  rw [resolver_of_replication ctx proc data hopr]
  exact scan_replication_of_source ctx.file_obj ctx.L1desc _ rfl e dobj_info hfind hinfo

/-- A worked instance: a replication whose source entry holds the size 9 and whose
destination entry asks for 2 threads resolves to the size 9, with success. -/
theorem resolver_size_of_replication_source_witness :
    (get_number_of_threads_data_size_and_opr_type (demo_context 3 (demo_replication_table 9 2) [] 3)
      process_state.init (demo_session 0 0)).data_size = 9 ∧
    (get_number_of_threads_data_size_and_opr_type (demo_context 3 (demo_replication_table 9 2) [] 3)
      process_state.init (demo_session 0 0)).error = SUCCESS :=
  ⟨resolver_size_of_replication_source (demo_context 3 (demo_replication_table 9 2) [] 3)
      process_state.init (demo_session 0 0)
      (l1desc_t.mk true (some (dataObjInp_t.mk "/zone/obj" 0 REPLICATE_SRC))
        (some (dataObjInfo_t.mk "/vault/obj" 9)) 9)
      (dataObjInfo_t.mk "/vault/obj" 9) (by decide) (by decide) rfl,
    by decide⟩

/-- C16 (counterexample): the table holds the destination entry of a replication, with 2
threads and the `dataSize` 5, and no source entry. The resolver succeeds with the operation
type `REPLICATE_DEST` and returns the data size 5 of the destination entry. -/
theorem resolver_size_of_replication_destination :
    (demo_table REPLICATE_DEST 2 5).find?
      (is_replication_source (demo_context 3 [] [] 3).file_obj) = none ∧
    (get_number_of_threads_data_size_and_opr_type
      (demo_context 3 (demo_table REPLICATE_DEST 2 5) [] 3)
      process_state.init (demo_session 0 0)).error = SUCCESS ∧
    (get_number_of_threads_data_size_and_opr_type
      (demo_context 3 (demo_table REPLICATE_DEST 2 5) [] 3)
      process_state.init (demo_session 0 0)).oprType = REPLICATE_DEST ∧
    (get_number_of_threads_data_size_and_opr_type
      (demo_context 3 (demo_table REPLICATE_DEST 2 5) [] 3)
      process_state.init (demo_session 0 0)).data_size = 5 := by
  decide

end irods_s3

namespace irods_s3

open shared_data s3_transport

/-! ## The thread count and the countdown of the resolver -/

/-- C14: when the shared session holds a thread count above 0 on entry, the resolver
succeeds, returns that count whatever the descriptor table, the keyword `NUM_THREADS_KW`
and the data size are, and leaves that count in the shared session. -/
theorem resolver_keeps_known_thread_count (ctx : plugin_context) (proc : process_state)
    (data : multipart_shared_data) (h : 0 < data.number_of_threads) :
    (get_number_of_threads_data_size_and_opr_type ctx proc data).error = SUCCESS ∧
    (get_number_of_threads_data_size_and_opr_type ctx proc data).number_of_threads =
      data.number_of_threads ∧
    (get_number_of_threads_data_size_and_opr_type ctx proc data).shm.number_of_threads =
      data.number_of_threads :=
  ⟨(resolver_with_known_threads ctx proc data h).1,
    (resolver_with_known_threads ctx proc data h).2.1,
    (resolver_with_known_threads ctx proc data h).2.2.1⟩

/-- A worked instance: the session knows 3 threads, the table entry asks for 4; the
resolver returns 3. -/
theorem resolver_keeps_known_thread_count_witness :
    (get_number_of_threads_data_size_and_opr_type
      (demo_context 3 (demo_table PUT_OPR 4 100) [] 3)
      process_state.init (demo_session 3 0)).number_of_threads = 3 :=
  (resolver_keeps_known_thread_count (demo_context 3 (demo_table PUT_OPR 4 100) [] 3)
    process_state.init (demo_session 3 0) (by decide)).2.1

/-- C18: when the shared thread count is unknown (at most 0), the request has no
`NUM_THREADS_KW` and the resolved data size does not exceed the single-buffer threshold,
the resolver returns the thread count 1 for a known operation type other than
`REPLICATE_DEST`, and a thread count of at most 0 for the unknown operation type -1. -/
theorem resolver_default_thread_count (ctx : plugin_context) (proc : process_state)
    (data : multipart_shared_data) (hshm : data.number_of_threads ≤ 0)
    (hkw : ctx.file_obj.NUM_THREADS_KW = none)
    (hsize : (get_number_of_threads_data_size_and_opr_type ctx proc data).data_size ≤
      ctx.single_buff_sz) :
    ((get_number_of_threads_data_size_and_opr_type ctx proc data).oprType ≠ -1 →
      (get_number_of_threads_data_size_and_opr_type ctx proc data).oprType ≠ REPLICATE_DEST →
      (get_number_of_threads_data_size_and_opr_type ctx proc data).number_of_threads = 1) ∧
    ((get_number_of_threads_data_size_and_opr_type ctx proc data).oprType = -1 →
      (get_number_of_threads_data_size_and_opr_type ctx proc data).number_of_threads ≤ 0) := by
  have hzero : (if data.number_of_threads > 0 then data.number_of_threads else 0) = 0 :=
    if_neg (by omega)
  have hblock : ∀ data_size oprType requested : Int, data_size ≤ ctx.single_buff_sz →
      resolve_number_of_threads ctx 0 data_size oprType requested =
        if oprType ≠ -1 then 1 else 0 := by
    intro data_size oprType requested hds
    unfold resolve_number_of_threads
    have hnot : ¬ (data_size > ctx.single_buff_sz ∧ oprType ≠ REPLICATE_DEST) :=
      fun hc => absurd hc.1 (by omega)
    simp only [hkw, le_refl, if_true, if_neg hnot]
    by_cases hop : oprType = -1
    · simp [hop]
    · simp [hop]
  rw [resolver_oprType]
  refine ⟨?_, ?_⟩
  · intro hknown hdest
    obtain ⟨_, hds, hnt, _, _⟩ := resolver_of_other_operation ctx proc data hdest
    rw [hds] at hsize
    rw [hnt, hzero, hblock _ _ _ hsize, if_pos hknown]
  · intro hunknown
    have hdest : (first_scan ctx proc).oprType ≠ REPLICATE_DEST := by
      rw [hunknown]
      decide
    obtain ⟨_, hds, hnt, _, _⟩ := resolver_of_other_operation ctx proc data hdest
    rw [hds] at hsize
    rw [hnt, hzero, hblock _ _ _ hsize, if_neg (by simpa using hunknown)]

/-- A worked instance: a `PUT_OPR` entry of 5 bytes that asks for 4 threads resolves to 1
thread, and an empty table, with the operation type unknown, to 0 threads. -/
theorem resolver_default_thread_count_witness :
    (get_number_of_threads_data_size_and_opr_type
      (demo_context 3 (demo_table PUT_OPR 4 5) [] 3)
      process_state.init (demo_session 0 0)).number_of_threads = 1 ∧
    (get_number_of_threads_data_size_and_opr_type (demo_context 3 [] [] 3)
      process_state.init (demo_session 0 0)).number_of_threads ≤ 0 :=
  ⟨(resolver_default_thread_count (demo_context 3 (demo_table PUT_OPR 4 5) [] 3)
      process_state.init (demo_session 0 0) (by decide) rfl (by decide)).1
      (by decide) (by decide),
    (resolver_default_thread_count (demo_context 3 [] [] 3)
      process_state.init (demo_session 0 0) (by decide) rfl (by decide)).2 (by decide)⟩

/-- C19: a resolver call whose resolved operation type is `GET_OPR` succeeds and leaves
the countdown `threads_remaining_to_close` of the shared session at 0, whatever it was on
entry and whatever thread count was resolved; so `can_delete()` holds afterwards when the
session knows the number of threads. -/
theorem resolver_get_opr_countdown (ctx : plugin_context) (proc : process_state)
    (data : multipart_shared_data)
    (hopr : (get_number_of_threads_data_size_and_opr_type ctx proc data).oprType = GET_OPR) :
    (get_number_of_threads_data_size_and_opr_type ctx proc data).error = SUCCESS ∧
    (get_number_of_threads_data_size_and_opr_type ctx proc data).shm.threads_remaining_to_close =
      0 ∧
    ((get_number_of_threads_data_size_and_opr_type ctx proc data).shm.know_number_of_threads =
        true →
      (get_number_of_threads_data_size_and_opr_type ctx proc data).shm.can_delete = true) := by
  rw [resolver_oprType] at hopr
  have hdest : (first_scan ctx proc).oprType ≠ REPLICATE_DEST := by
    rw [hopr]
    decide
  obtain ⟨herr, _, _, htrc, _⟩ := resolver_of_other_operation ctx proc data hdest
  rw [if_pos hopr] at htrc
  refine ⟨herr, htrc, ?_⟩
  intro hknow
  unfold multipart_shared_data.can_delete
  rw [hknow, htrc]
  rfl

/-- A worked instance: a `GET_OPR` entry and a session whose countdown is 4 on entry; the
countdown is 0 on exit and the session can be deleted. -/
theorem resolver_get_opr_countdown_witness :
    (get_number_of_threads_data_size_and_opr_type
      (demo_context 3 (demo_table GET_OPR 1 5) [] 3)
      process_state.init (demo_session 0 4)).shm.threads_remaining_to_close = 0 ∧
    (get_number_of_threads_data_size_and_opr_type
      (demo_context 3 (demo_table GET_OPR 1 5) [] 3)
      process_state.init (demo_session 0 4)).shm.can_delete = true :=
  ⟨(resolver_get_opr_countdown (demo_context 3 (demo_table GET_OPR 1 5) [] 3)
      process_state.init (demo_session 0 4) (by decide)).2.1,
    (resolver_get_opr_countdown (demo_context 3 (demo_table GET_OPR 1 5) [] 3)
      process_state.init (demo_session 0 4) (by decide)).2.2 (by decide)⟩

end irods_s3

namespace irods_s3

open shared_data s3_transport

/-! ## The open mode of `make_dstream` -/

/-- The resolver does not read the registry `fd_data` and hands it back unchanged. -/
theorem resolver_fd_data (ctx : plugin_context) (proc : process_state)
    (data : multipart_shared_data) (fd_data : fd_to_data_map) :
    get_number_of_threads_data_size_and_opr_type ctx
        (process_state.mk proc.data_size proc.oprType fd_data) data =
      resolver_result.mk
        (get_number_of_threads_data_size_and_opr_type ctx proc data).error
        (get_number_of_threads_data_size_and_opr_type ctx proc data).number_of_threads
        (get_number_of_threads_data_size_and_opr_type ctx proc data).data_size
        (get_number_of_threads_data_size_and_opr_type ctx proc data).oprType
        (process_state.mk (get_number_of_threads_data_size_and_opr_type ctx proc data).proc.data_size
          (get_number_of_threads_data_size_and_opr_type ctx proc data).proc.oprType
          fd_data)
        (get_number_of_threads_data_size_and_opr_type ctx proc data).shm := by
  unfold get_number_of_threads_data_size_and_opr_type
  simp only []
  split_ifs <;> rfl

end irods_s3

namespace irods_s3

open shared_data s3_transport

/-- The context that `make_dstream` leaves is the one after the update of the physical
path. -/
theorem make_dstream_ctx (ctx : plugin_context) (proc : process_state)
    (shm : multipart_shared_data) :
    (make_dstream ctx proc shm).1.ctx =
      { ctx with
        file_obj := { ctx.file_obj with
          physical_path := (ctx.update_physical_path_for_decoupled_naming ctx.file_obj ctx.L1desc).1 }
        L1desc := (ctx.update_physical_path_for_decoupled_naming ctx.file_obj ctx.L1desc).2 } := by
  unfold make_dstream
  simp only []
  split
  · rfl
  split_ifs <;> rfl

/-- C20: when `make_dstream` builds the stream for a descriptor whose entry holds the
requested open mode (the descriptor has an entry, the entry has no stream and transport
yet, the path parses, the credentials are found and the resolver succeeds), the open mode
with which the stream is constructed and the open mode of the entry that is returned and
stored in the registry for the descriptor are the requested mode with the read flag
`ios_base::in` added when the resolved data size is 0, and the requested mode unchanged
when the resolved data size is not 0. -/
theorem make_dstream_open_mode (ctx : plugin_context) (proc : process_state)
    (shm : multipart_shared_data) (entry : per_thread_data)
    (hentry : proc.fd_data.get ctx.file_obj.file_descriptor = some entry)
    (hnew : ¬ (entry.dstream_ptr.isSome = true ∧ entry.s3_transport_ptr.isSome = true))
    (hparse : ctx.parseS3Path.ok = true) (hauth : ctx.s3GetAuthCredentials.ok = true)
    (hres : (get_number_of_threads_data_size_and_opr_type (make_dstream ctx proc shm).1.ctx
      proc shm).error.ok = true) :
    ∃ s3_config,
      (make_dstream ctx proc shm).2.dstream_ptr =
        some (ctx.make_dstream_obj (ctx.make_transport s3_config)
          (if (get_number_of_threads_data_size_and_opr_type (make_dstream ctx proc shm).1.ctx
              proc shm).data_size = 0 then
            entry.open_mode.or_in
          else entry.open_mode)).2 ∧
      (make_dstream ctx proc shm).2.open_mode =
        (if (get_number_of_threads_data_size_and_opr_type (make_dstream ctx proc shm).1.ctx
            proc shm).data_size = 0 then
          entry.open_mode.or_in
        else entry.open_mode) ∧
      (make_dstream ctx proc shm).1.proc.fd_data.get ctx.file_obj.file_descriptor =
        some (make_dstream ctx proc shm).2 := by
  rw [make_dstream_ctx] at hres ⊢
  obtain ⟨ds, op, fd0⟩ := proc
  simp only [] at hentry hnew hres ⊢
  have hex : ¬ fd0.fd_exists ctx.file_obj.file_descriptor = false := by
    intro h
    rw [(fd_data_get_eq_none _ _).mpr h] at hentry
    exact absurd hentry (by simp)
  generalize hM : make_dstream ctx (process_state.mk ds op fd0) shm = M
  unfold make_dstream at hM
  simp only [] at hM
  rw [if_neg hex] at hM
  simp only [] at hM
  rw [hentry] at hM
  simp only [] at hM
  rw [if_neg hnew, if_neg (by rw [hparse]; simp), if_neg (by rw [hauth]; simp)] at hM
  rw [resolver_fd_data _ (process_state.mk ds op fd0) shm _] at hM
  simp only [] at hM
  rw [if_neg (by rw [hres]; simp)] at hM
  subst hM
  simp only [openmode.or_in]
  refine ⟨?cfg, ?h1, ?h2, ?h3⟩
  case h1 => exact rfl
  case h2 => split_ifs <;> rfl
  case h3 =>
    simp only [fd_data_get_set]

/-- A worked instance: a write-only open (`out | trunc`) of an object whose table entry
records the size 0 is stored with both `out` and `in` set. -/
theorem make_dstream_open_mode_witness :
    (make_dstream (demo_context 3 (demo_table PUT_OPR 1 0) [] 3) (demo_process 3 false)
      (demo_session 0 0)).2.open_mode = openmode.mk false false false true true true ∧
    (make_dstream (demo_context 3 (demo_table PUT_OPR 1 0) [] 3) (demo_process 3 false)
      (demo_session 0 0)).1.proc.fd_data.get 3 =
      some (make_dstream (demo_context 3 (demo_table PUT_OPR 1 0) [] 3) (demo_process 3 false)
        (demo_session 0 0)).2 := by
  obtain ⟨_, _, h2, h3⟩ := make_dstream_open_mode
    (demo_context 3 (demo_table PUT_OPR 1 0) [] 3) (demo_process 3 false) (demo_session 0 0)
    (per_thread_data.mk (openmode.mk false false false false true true) none none)
    (by decide) (by decide) rfl rfl (by decide)
  exact ⟨h2.trans (by decide), h3⟩

end irods_s3

namespace irods_s3

open shared_data s3_transport

/-! ## A second close of the same descriptor -/

/-- After `fd_data.remove(fd)` the registry has no entry for `fd`. -/
theorem fd_exists_remove (m : fd_to_data_map) (fd : Int) : (m.remove fd).fd_exists fd = false := by
  unfold fd_to_data_map.remove fd_to_data_map.fd_exists
  simp only [List.any_eq_false, List.mem_filter, decide_eq_true_eq, and_imp]
  intro x _ hx
  simpa using hx

/-- The last part of a close leaves the registry without the entry of the descriptor. -/
theorem close_descriptor_registry (ctx : plugin_context) (proc : process_state)
    (shm : multipart_shared_data) (data : per_thread_data) (result : irods_error) :
    (close_descriptor ctx proc shm data result).result.proc.fd_data =
      proc.fd_data.remove ctx.file_obj.file_descriptor := by
  unfold close_descriptor
  simp only []
  split_ifs <;> rfl

/-- The write operation leaves the descriptor of the file object alone. -/
theorem write_operation_descriptor (ctx : plugin_context) (proc : process_state)
    (shm : multipart_shared_data) (_len : Int) :
    (s3_file_write_operation ctx proc shm _len).ctx.file_obj.file_descriptor =
      ctx.file_obj.file_descriptor := by
  have hctx := make_dstream_ctx ctx proc shm
  unfold s3_file_write_operation
  by_cases c1 : ctx.cacheless_mode = true
  · rw [if_pos c1]
    simp only []
    by_cases c2 : (make_dstream ctx proc shm).1.error.ok = false
    · rw [if_pos c2]
      show (make_dstream ctx proc shm).1.ctx.file_obj.file_descriptor = _
      rw [hctx]
    · rw [if_neg c2]
      cases (make_dstream ctx proc shm).2.s3_transport_ptr with
      | none =>
        show (make_dstream ctx proc shm).1.ctx.file_obj.file_descriptor = _
        rw [hctx]
      | some transport =>
        show (make_dstream ctx proc shm).1.ctx.file_obj.file_descriptor = _
        rw [hctx]
  · rw [if_neg c1]

/-- A close that returns success for a descriptor other than 0 leaves the registry
without an entry for the descriptor. -/
theorem close_success_removes_entry (ctx : plugin_context) (proc : process_state)
    (shm : multipart_shared_data)
    (hok : (s3_file_close_operation ctx proc shm).result.error.ok = true)
    (hfd : ctx.file_obj.file_descriptor ≠ 0) :
    (s3_file_close_operation ctx proc shm).result.proc.fd_data.fd_exists
      ctx.file_obj.file_descriptor = false := by
  unfold s3_file_close_operation at hok ⊢
  by_cases c1 : ctx.cacheless_mode = true
  · rw [if_pos c1] at hok ⊢
    simp only [] at hok ⊢
    rw [if_neg hfd] at hok ⊢
    by_cases c3 : proc.fd_data.fd_exists ctx.file_obj.file_descriptor = false
    · rw [if_pos c3] at hok
      exact absurd hok Bool.false_ne_true
    · rw [if_neg c3] at hok ⊢
      obtain ⟨data, hdata⟩ := fd_data_get_of_exists _ _ c3
      rw [hdata] at hok ⊢
      simp only [] at hok ⊢
      by_cases c4 : (get_number_of_threads_data_size_and_opr_type ctx proc shm).error.ok = false
      · rw [if_pos c4] at hok
        simp only [] at hok
        rw [c4] at hok
        exact absurd hok (by decide)
      · rw [if_neg c4] at hok ⊢
        by_cases c5 : data.dstream_ptr.isNone ∧
            (get_number_of_threads_data_size_and_opr_type ctx proc shm).oprType ≠ REPLICATE_SRC ∧
            (get_number_of_threads_data_size_and_opr_type ctx proc shm).oprType ≠ COPY_SRC ∧
            (get_number_of_threads_data_size_and_opr_type ctx proc shm).oprType ≠ GET_OPR
        · rw [if_pos c5] at hok ⊢
          by_cases c6 : (s3_file_write_operation ctx
              (get_number_of_threads_data_size_and_opr_type ctx proc shm).proc
              (get_number_of_threads_data_size_and_opr_type ctx proc shm).shm 0).error.ok = false
          · rw [if_pos c6] at hok
            simp only [PASS] at hok
            rw [c6] at hok
            exact absurd hok (by decide)
          · rw [if_neg c6] at hok ⊢
            generalize hw : (s3_file_write_operation ctx
              (get_number_of_threads_data_size_and_opr_type ctx proc shm).proc
              (get_number_of_threads_data_size_and_opr_type ctx proc shm).shm 0).proc.fd_data.get
                ctx.file_obj.file_descriptor = w at hok ⊢
            cases w with
            | none => exact absurd hok Bool.false_ne_true
            | some stored =>
              simp only []
              rw [close_descriptor_registry, write_operation_descriptor]
              exact fd_exists_remove _ _
        · rw [if_neg c5]
          rw [close_descriptor_registry]
          exact fd_exists_remove _ _
  · rw [if_neg c1] at hok
    exact absurd hok Bool.false_ne_true

end irods_s3

namespace irods_s3

open shared_data s3_transport

/-- C21 (amended): after a close that returned success, a second call of
`s3_file_close_operation` on the same descriptor returns no error only for the descriptor
0, for which the operation returns at once; for every other descriptor, which is no longer
in the registry, it returns the error `UNIX_FILE_CLOSE_ERR`. -/
theorem second_close_is_refused (ctx : plugin_context) (proc : process_state)
    (shm : multipart_shared_data) (ctx2 : plugin_context) (shm2 : multipart_shared_data)
    (hok : (s3_file_close_operation ctx proc shm).result.error.ok = true)
    (hmode : ctx2.cacheless_mode = true)
    (hsame : ctx2.file_obj.file_descriptor = ctx.file_obj.file_descriptor) :
    (ctx.file_obj.file_descriptor = 0 →
      (s3_file_close_operation ctx2 (s3_file_close_operation ctx proc shm).result.proc
        shm2).result.error = SUCCESS) ∧
    (ctx.file_obj.file_descriptor ≠ 0 →
      (s3_file_close_operation ctx2 (s3_file_close_operation ctx proc shm).result.proc
        shm2).result.error.ok = false ∧
      (s3_file_close_operation ctx2 (s3_file_close_operation ctx proc shm).result.proc
        shm2).result.error.code = irods_code.UNIX_FILE_CLOSE_ERR) := by
  refine ⟨?_, ?_⟩
  · intro hzero
    have hzero2 : ctx2.file_obj.file_descriptor = 0 := hsame.trans hzero
    generalize (s3_file_close_operation ctx proc shm).result.proc = proc2
    unfold s3_file_close_operation
    rw [if_pos hmode]
    simp only []
    rw [if_pos hzero2]
  · intro hfd
    have hgone := close_success_removes_entry ctx proc shm hok hfd
    rw [← hsame] at hgone hfd
    generalize (s3_file_close_operation ctx proc shm).result.proc = proc2 at hgone
    unfold s3_file_close_operation
    rw [if_pos hmode]
    simp only []
    rw [if_neg hfd, if_pos hgone]
    exact ⟨rfl, rfl⟩

/-- A worked instance: the descriptor 3 of a process that wrote through it is closed with
success; the second close returns `UNIX_FILE_CLOSE_ERR`. -/
theorem second_close_is_refused_witness :
    (s3_file_close_operation (demo_context 3 (demo_table PUT_OPR 1 5) [] 3)
      (s3_file_close_operation (demo_context 3 (demo_table PUT_OPR 1 5) [] 3)
        (demo_process 3 true) (demo_session 1 1)).result.proc
      (demo_session 1 0)).result.error.code = irods_code.UNIX_FILE_CLOSE_ERR :=
  ((second_close_is_refused (demo_context 3 (demo_table PUT_OPR 1 5) [] 3)
    (demo_process 3 true) (demo_session 1 1) (demo_context 3 (demo_table PUT_OPR 1 5) [] 3)
    (demo_session 1 0) (by decide) rfl rfl).2 (by decide)).2

/-- C21 (counterexample): an object is opened for a `PUT_OPR` of an empty object and
closed, both with success; the second close of the same descriptor returns the error
`UNIX_FILE_CLOSE_ERR`. -/
theorem second_close_of_opened_descriptor_fails :
    demo_opened.error = SUCCESS ∧
    demo_opened.ctx.file_obj.file_descriptor = 3 ∧
    demo_first_close.result.error = SUCCESS ∧
    demo_second_close.result.error.ok = false ∧
    demo_second_close.result.error.code = irods_code.UNIX_FILE_CLOSE_ERR := by
  decide

/-- C22: after a close of a descriptor (one that returned success, or one that left the
registry without an entry for the descriptor), a second call of `s3_file_close_operation`
on the same descriptor leaves the shared session as it finds it, so the countdown is not
decremented again, and leaves the process, with its registry and its saved data size and
operation type, unchanged. -/
theorem second_close_changes_nothing (ctx : plugin_context) (proc : process_state)
    (shm : multipart_shared_data) (ctx2 : plugin_context) (shm2 : multipart_shared_data)
    (hclosed : (s3_file_close_operation ctx proc shm).result.error.ok = true ∨
      (s3_file_close_operation ctx proc shm).result.proc.fd_data.fd_exists
        ctx.file_obj.file_descriptor = false)
    (hsame : ctx2.file_obj.file_descriptor = ctx.file_obj.file_descriptor) :
    (s3_file_close_operation ctx2 (s3_file_close_operation ctx proc shm).result.proc
      shm2).result.shm = shm2 ∧
    (s3_file_close_operation ctx2 (s3_file_close_operation ctx proc shm).result.proc
      shm2).result.proc = (s3_file_close_operation ctx proc shm).result.proc ∧
    (s3_file_close_operation ctx2 (s3_file_close_operation ctx proc shm).result.proc
      shm2).open_count = none := by
  have hgone : ctx2.file_obj.file_descriptor = 0 ∨
      (s3_file_close_operation ctx proc shm).result.proc.fd_data.fd_exists
        ctx2.file_obj.file_descriptor = false := by
    by_cases hfd : ctx.file_obj.file_descriptor = 0
    · exact Or.inl (hsame.trans hfd)
    · right
      rw [hsame]
      rcases hclosed with h | h
      · exact close_success_removes_entry ctx proc shm h hfd
      · exact h
  generalize (s3_file_close_operation ctx proc shm).result.proc = proc2 at hgone
  unfold s3_file_close_operation
  by_cases hmode : ctx2.cacheless_mode = true
  · rw [if_pos hmode]
    simp only []
    by_cases hzero : ctx2.file_obj.file_descriptor = 0
    · rw [if_pos hzero]
      exact ⟨rfl, rfl, rfl⟩
    · rw [if_neg hzero]
      rcases hgone with h | h
      · exact absurd h hzero
      · rw [if_pos h]
        exact ⟨rfl, rfl, rfl⟩
  · rw [if_neg hmode]
    exact ⟨rfl, rfl, rfl⟩

/-- A worked instance: after the close of descriptor 3 the countdown of the session is 0,
and a second close of descriptor 3 leaves it at 0. -/
theorem second_close_changes_nothing_witness :
    (s3_file_close_operation (demo_context 3 (demo_table PUT_OPR 1 5) [] 3)
      (demo_process 3 true) (demo_session 1 1)).result.shm.threads_remaining_to_close = 0 ∧
    (s3_file_close_operation (demo_context 3 (demo_table PUT_OPR 1 5) [] 3)
      (s3_file_close_operation (demo_context 3 (demo_table PUT_OPR 1 5) [] 3)
        (demo_process 3 true) (demo_session 1 1)).result.proc
      (demo_session 1 0)).result.shm = demo_session 1 0 :=
  ⟨by decide,
    (second_close_changes_nothing (demo_context 3 (demo_table PUT_OPR 1 5) [] 3)
      (demo_process 3 true) (demo_session 1 1) (demo_context 3 (demo_table PUT_OPR 1 5) [] 3)
      (demo_session 1 0) (Or.inl (by decide)) rfl).1⟩

end irods_s3

namespace irods_s3

open shared_data s3_transport

/-! ## The last closer of an object -/

end irods_s3

namespace irods_s3

open shared_data s3_transport

/-! ## The resolver in terms of its two loops -/

/-- The resolver returns the error of a replication destination that was not found when
the first loop leaves `REPLICATE_DEST` and the second loop finds no thread count; it then
leaves the process and the session as they are. -/
theorem resolver_of_missing_destination (ctx : plugin_context) (proc : process_state)
    (data : multipart_shared_data)
    (h : (first_scan ctx proc).oprType = REPLICATE_DEST ∧
      (second_scan ctx proc data).found_number_of_threads = false) :
    get_number_of_threads_data_size_and_opr_type ctx proc data =
      resolver_result.mk
        (ERROR irods_code.SYS_INTERNAL_ERR
          ("Replicating from source to destination but was not able to find the replication " ++
            "destination in L1desc table."))
        (second_scan ctx proc data).number_of_threads (second_scan ctx proc data).data_size
        (first_scan ctx proc).oprType proc data := by
  have key : get_number_of_threads_data_size_and_opr_type ctx proc data =
      (if (first_scan ctx proc).oprType = REPLICATE_DEST ∧
          (second_scan ctx proc data).found_number_of_threads = false then
        resolver_result.mk
          (ERROR irods_code.SYS_INTERNAL_ERR
            ("Replicating from source to destination but was not able to find the replication " ++
              "destination in L1desc table."))
          (second_scan ctx proc data).number_of_threads (second_scan ctx proc data).data_size
          (first_scan ctx proc).oprType proc data
      else _) := rfl
  rw [key, if_pos h]

/-- The resolver in every other case: it succeeds, the thread count comes from the block
`if (number_of_threads <= 0)`, data size and operation type are saved in the process, the
thread count is stored in the session, and the countdown is set as the last two statements
say. -/
theorem resolver_of_success (ctx : plugin_context) (proc : process_state)
    (data : multipart_shared_data)
    (h : ¬ ((first_scan ctx proc).oprType = REPLICATE_DEST ∧
      (second_scan ctx proc data).found_number_of_threads = false)) :
    (get_number_of_threads_data_size_and_opr_type ctx proc data).error = SUCCESS ∧
    (get_number_of_threads_data_size_and_opr_type ctx proc data).number_of_threads =
      resolve_number_of_threads ctx (second_scan ctx proc data).number_of_threads
        (second_scan ctx proc data).data_size (first_scan ctx proc).oprType
        (first_scan ctx proc).requested_number_of_threads ∧
    (get_number_of_threads_data_size_and_opr_type ctx proc data).data_size =
      (second_scan ctx proc data).data_size ∧
    (get_number_of_threads_data_size_and_opr_type ctx proc data).proc =
      process_state.mk (second_scan ctx proc data).data_size (first_scan ctx proc).oprType
        proc.fd_data ∧
    (get_number_of_threads_data_size_and_opr_type ctx proc data).shm.number_of_threads =
      (get_number_of_threads_data_size_and_opr_type ctx proc data).number_of_threads ∧
    (get_number_of_threads_data_size_and_opr_type ctx proc data).shm.threads_remaining_to_close =
      (if (first_scan ctx proc).oprType = GET_OPR then 0
        else if data.threads_remaining_to_close ≤ 0 then
          (get_number_of_threads_data_size_and_opr_type ctx proc data).number_of_threads
        else data.threads_remaining_to_close) := by
  have key : get_number_of_threads_data_size_and_opr_type ctx proc data =
      (if (first_scan ctx proc).oprType = REPLICATE_DEST ∧
          (second_scan ctx proc data).found_number_of_threads = false then _
      else
        resolver_result.mk SUCCESS
          (resolve_number_of_threads ctx (second_scan ctx proc data).number_of_threads
            (second_scan ctx proc data).data_size (first_scan ctx proc).oprType
            (first_scan ctx proc).requested_number_of_threads)
          (second_scan ctx proc data).data_size (first_scan ctx proc).oprType
          (process_state.mk (second_scan ctx proc data).data_size (first_scan ctx proc).oprType
            proc.fd_data)
          (if (first_scan ctx proc).oprType = GET_OPR then
            { (if data.threads_remaining_to_close ≤ 0 then
                { data with
                  number_of_threads := resolve_number_of_threads ctx
                    (second_scan ctx proc data).number_of_threads
                    (second_scan ctx proc data).data_size (first_scan ctx proc).oprType
                    (first_scan ctx proc).requested_number_of_threads
                  threads_remaining_to_close := resolve_number_of_threads ctx
                    (second_scan ctx proc data).number_of_threads
                    (second_scan ctx proc data).data_size (first_scan ctx proc).oprType
                    (first_scan ctx proc).requested_number_of_threads }
              else
                { data with
                  number_of_threads := resolve_number_of_threads ctx
                    (second_scan ctx proc data).number_of_threads
                    (second_scan ctx proc data).data_size (first_scan ctx proc).oprType
                    (first_scan ctx proc).requested_number_of_threads }) with
              threads_remaining_to_close := 0 }
          else
            (if data.threads_remaining_to_close ≤ 0 then
              { data with
                number_of_threads := resolve_number_of_threads ctx
                  (second_scan ctx proc data).number_of_threads
                  (second_scan ctx proc data).data_size (first_scan ctx proc).oprType
                  (first_scan ctx proc).requested_number_of_threads
                threads_remaining_to_close := resolve_number_of_threads ctx
                  (second_scan ctx proc data).number_of_threads
                  (second_scan ctx proc data).data_size (first_scan ctx proc).oprType
                  (first_scan ctx proc).requested_number_of_threads }
            else
              { data with
                number_of_threads := resolve_number_of_threads ctx
                  (second_scan ctx proc data).number_of_threads
                  (second_scan ctx proc data).data_size (first_scan ctx proc).oprType
                  (first_scan ctx proc).requested_number_of_threads }))) := rfl
  rw [key, if_neg h]
  refine ⟨rfl, rfl, rfl, rfl, ?_, ?_⟩
  · by_cases hg : (first_scan ctx proc).oprType = GET_OPR <;>
      by_cases hk : data.threads_remaining_to_close ≤ 0 <;>
      simp only [hg, hk, if_true, if_false]
  · by_cases hg : (first_scan ctx proc).oprType = GET_OPR <;>
      by_cases hk : data.threads_remaining_to_close ≤ 0 <;>
      simp only [hg, hk, if_true, if_false]

end irods_s3

namespace irods_s3

open shared_data s3_transport

/-- A resolver call that returns success did not take the error return. -/
theorem resolver_ok_not_missing (ctx : plugin_context) (proc : process_state)
    (data : multipart_shared_data)
    (hok : (get_number_of_threads_data_size_and_opr_type ctx proc data).error.ok = true) :
    ¬ ((first_scan ctx proc).oprType = REPLICATE_DEST ∧
      (second_scan ctx proc data).found_number_of_threads = false) := by
  intro h
  rw [resolver_of_missing_destination ctx proc data h] at hok
  exact absurd hok Bool.false_ne_true

/-- For a known operation type the block `if (number_of_threads <= 0)` leaves a thread
count of at least 1. -/
theorem resolve_number_of_threads_pos (ctx : plugin_context)
    (number_of_threads data_size oprType requested_number_of_threads : Int)
    (hopr : oprType ≠ -1) :
    1 ≤ resolve_number_of_threads ctx number_of_threads data_size oprType
      requested_number_of_threads := by
  have aux : ∀ n2 : Int, 1 ≤ (if n2 ≤ 0 ∧ oprType ≠ -1 then 1 else n2) := by
    intro n2
    by_cases hc : n2 ≤ 0 ∧ oprType ≠ -1
    · rw [if_pos hc]
    · rw [if_neg hc]
      by_cases hn : n2 ≤ 0
      · exact absurd ⟨hn, hopr⟩ hc
      · omega
  unfold resolve_number_of_threads
  by_cases hnt : number_of_threads ≤ 0
  · rw [if_pos hnt]
    exact aux _
  · rw [if_neg hnt]
    omega

/-- C28: whenever the resolver returns success with a resolved operation type other than
-1, the returned thread count and the `number_of_threads` stored in the shared session are
at least 1, whatever the descriptor table, the keyword `NUM_THREADS_KW`, the `numThreads`
of a replication destination entry and the result of `getNumThreads` are. -/
theorem resolver_thread_count_positive (ctx : plugin_context) (proc : process_state)
    (data : multipart_shared_data)
    (hok : (get_number_of_threads_data_size_and_opr_type ctx proc data).error.ok = true)
    (hopr : (get_number_of_threads_data_size_and_opr_type ctx proc data).oprType ≠ -1) :
    1 ≤ (get_number_of_threads_data_size_and_opr_type ctx proc data).number_of_threads ∧
    1 ≤ (get_number_of_threads_data_size_and_opr_type ctx proc data).shm.number_of_threads := by
  rw [resolver_oprType] at hopr
  obtain ⟨_, hnt, _, _, hshm, _⟩ :=
    resolver_of_success ctx proc data (resolver_ok_not_missing ctx proc data hok)
  rw [hshm, hnt]
  exact ⟨resolve_number_of_threads_pos ctx _ _ _ _ hopr,
    resolve_number_of_threads_pos ctx _ _ _ _ hopr⟩

/-- A worked instance: a request whose `NUM_THREADS_KW` parses to -5 and a replication whose
destination entry asks for 0 threads both resolve to 1 thread. -/
theorem resolver_thread_count_positive_witness :
    (get_number_of_threads_data_size_and_opr_type
      (demo_context_with_thread_hint (demo_table PUT_OPR 4 5) "-5" (some (-5)))
      process_state.init (demo_session 0 0)).number_of_threads = 1 ∧
    1 ≤ (get_number_of_threads_data_size_and_opr_type
      (demo_context 3 (demo_replication_table 9 0) [] 3)
      process_state.init (demo_session 0 0)).shm.number_of_threads :=
  ⟨by decide,
    (resolver_thread_count_positive (demo_context 3 (demo_replication_table 9 0) [] 3)
      process_state.init (demo_session 0 0) (by decide) (by decide)).2⟩

/-- C29: a resolver call that returns success with a resolved operation type other than
`GET_OPR` leaves a countdown `threads_remaining_to_close` that is above 0 on entry as it
is, and sets a countdown that is 0 or less on entry to the resolved thread count. -/
theorem resolver_keeps_running_countdown (ctx : plugin_context) (proc : process_state)
    (data : multipart_shared_data)
    (hok : (get_number_of_threads_data_size_and_opr_type ctx proc data).error.ok = true)
    (hopr : (get_number_of_threads_data_size_and_opr_type ctx proc data).oprType ≠ GET_OPR) :
    (0 < data.threads_remaining_to_close →
      (get_number_of_threads_data_size_and_opr_type ctx proc data).shm.threads_remaining_to_close =
        data.threads_remaining_to_close) ∧
    (data.threads_remaining_to_close ≤ 0 →
      (get_number_of_threads_data_size_and_opr_type ctx proc data).shm.threads_remaining_to_close =
        (get_number_of_threads_data_size_and_opr_type ctx proc data).number_of_threads) := by
  rw [resolver_oprType] at hopr
  obtain ⟨_, _, _, _, _, htrc⟩ :=
    resolver_of_success ctx proc data (resolver_ok_not_missing ctx proc data hok)
  rw [if_neg hopr] at htrc
  refine ⟨?_, ?_⟩
  · intro hpos
    rw [htrc, if_neg (by omega)]
  · intro hle
    rw [htrc, if_pos hle]

/-- A worked instance: a session of 4 threads whose countdown stands at 2 keeps the
countdown 2 across the resolver call of a `PUT_OPR`. -/
theorem resolver_keeps_running_countdown_witness :
    (get_number_of_threads_data_size_and_opr_type
      (demo_context 3 (demo_table PUT_OPR 4 5) [] 3)
      process_state.init (demo_session 4 2)).shm.threads_remaining_to_close = 2 :=
  (resolver_keeps_running_countdown (demo_context 3 (demo_table PUT_OPR 4 5) [] 3)
    process_state.init (demo_session 4 2) (by decide) (by decide)).1 (by decide)

end irods_s3

namespace irods_s3

open shared_data s3_transport

/-! ## Hints that do not parse -/

/-- The first loop reads only the two paths of the file object. -/
theorem scan_L1desc_paths (file_obj file_obj2 : file_object)
    (hl : file_obj2.logical_path = file_obj.logical_path)
    (hp : file_obj2.physical_path = file_obj.physical_path) :
    ∀ (table : List l1desc_t) (s : l1desc_scan),
      scan_L1desc file_obj2 table s = scan_L1desc file_obj table s := by
  intro table
  induction table with
  | nil => intro s; rfl
  | cons e rest ih =>
    intro s
    simp only [scan_L1desc, hl, hp, ih]

/-- The loop for a replication destination reads only the logical path of the file
object. -/
theorem scan_replication_paths (file_obj file_obj2 : file_object)
    (hl : file_obj2.logical_path = file_obj.logical_path) :
    ∀ (table : List l1desc_t) (s : replication_scan),
      scan_replication file_obj2 table s = scan_replication file_obj table s := by
  intro table
  induction table with
  | nil => intro s; rfl
  | cons e rest ih =>
    intro s
    simp only [scan_replication, hl, ih]

/-- Two contexts with the same table, whose two loops and whose block
`if (number_of_threads <= 0)` agree, get the same error, thread count, data size and
operation type from the resolver. -/
theorem resolver_congr (ctx ctx2 : plugin_context) (proc : process_state)
    (data : multipart_shared_data)
    (hfs : first_scan ctx2 proc = first_scan ctx proc)
    (hss : second_scan ctx2 proc data = second_scan ctx proc data)
    (hres : resolve_number_of_threads ctx2 (second_scan ctx proc data).number_of_threads
        (second_scan ctx proc data).data_size (first_scan ctx proc).oprType
        (first_scan ctx proc).requested_number_of_threads =
      resolve_number_of_threads ctx (second_scan ctx proc data).number_of_threads
        (second_scan ctx proc data).data_size (first_scan ctx proc).oprType
        (first_scan ctx proc).requested_number_of_threads) :
    (get_number_of_threads_data_size_and_opr_type ctx2 proc data).error =
      (get_number_of_threads_data_size_and_opr_type ctx proc data).error ∧
    (get_number_of_threads_data_size_and_opr_type ctx2 proc data).number_of_threads =
      (get_number_of_threads_data_size_and_opr_type ctx proc data).number_of_threads ∧
    (get_number_of_threads_data_size_and_opr_type ctx2 proc data).data_size =
      (get_number_of_threads_data_size_and_opr_type ctx proc data).data_size ∧
    (get_number_of_threads_data_size_and_opr_type ctx2 proc data).oprType =
      (get_number_of_threads_data_size_and_opr_type ctx proc data).oprType := by
  by_cases h : (first_scan ctx proc).oprType = REPLICATE_DEST ∧
      (second_scan ctx proc data).found_number_of_threads = false
  · have h2 : (first_scan ctx2 proc).oprType = REPLICATE_DEST ∧
        (second_scan ctx2 proc data).found_number_of_threads = false := by
      rw [hfs, hss]
      exact h
    rw [resolver_of_missing_destination ctx proc data h,
      resolver_of_missing_destination ctx2 proc data h2, hfs, hss]
    exact ⟨rfl, rfl, rfl, rfl⟩
  · have h2 : ¬ ((first_scan ctx2 proc).oprType = REPLICATE_DEST ∧
        (second_scan ctx2 proc data).found_number_of_threads = false) := by
      rw [hfs, hss]
      exact h
    obtain ⟨e1, n1, d1, _, _, _⟩ := resolver_of_success ctx proc data h
    obtain ⟨e2, n2, d2, _, _, _⟩ := resolver_of_success ctx2 proc data h2
    rw [hfs, hss] at n2
    rw [hss] at d2
    refine ⟨e2.trans e1.symm, ?_, d2.trans d1.symm, ?_⟩
    · rw [n2, n1, hres]
    · rw [resolver_oprType, resolver_oprType, hfs]

/-- A `DATA_SIZE_KW` that does not parse gives the data size before the first loop that
the request without the keyword gives. -/
theorem data_size_before_scan_malformed (ctx : plugin_context) (proc : process_state)
    (str : String) (hkw : ctx.file_obj.DATA_SIZE_KW = some str)
    (hcast : ctx.lexical_cast_uint64 str = none) :
    data_size_before_scan (without_data_size_hint ctx) proc = data_size_before_scan ctx proc := by
  unfold data_size_before_scan without_data_size_hint
  by_cases h : proc.data_size = UNKNOWN_OBJECT_SIZE
  · rw [if_pos h, if_pos h]
    simp only [hkw, hcast]
    exact h
  · rw [if_neg h, if_neg h]

/-- Without a thread count in the session and for an operation type other than
`REPLICATE_DEST`, the second loop leaves the thread count 0. -/
theorem second_scan_thread_count (ctx : plugin_context) (proc : process_state)
    (data : multipart_shared_data) (hop : (first_scan ctx proc).oprType ≠ REPLICATE_DEST)
    (hle : (second_scan ctx proc data).number_of_threads ≤ 0) :
    (second_scan ctx proc data).number_of_threads = 0 := by
  unfold second_scan at hle ⊢
  rw [if_neg hop] at hle ⊢
  simp only [] at hle ⊢
  by_cases hnt : data.number_of_threads > 0
  · rw [if_pos hnt] at hle
    omega
  · rw [if_neg hnt]

/-- A `NUM_THREADS_KW` that does not parse gives the thread count that the request without
the keyword gives, for a thread count that is 0 when the operation type is not
`REPLICATE_DEST`. -/
theorem resolve_number_of_threads_malformed (ctx : plugin_context) (str : String)
    (hkw : ctx.file_obj.NUM_THREADS_KW = some str) (hcast : ctx.lexical_cast_int str = none)
    (number_of_threads data_size oprType requested_number_of_threads : Int)
    (hzero : oprType ≠ REPLICATE_DEST → number_of_threads ≤ 0 → number_of_threads = 0) :
    resolve_number_of_threads (without_num_threads_hint ctx) number_of_threads data_size oprType
        requested_number_of_threads =
      resolve_number_of_threads ctx number_of_threads data_size oprType
        requested_number_of_threads := by
  unfold resolve_number_of_threads without_num_threads_hint
  by_cases hnt : number_of_threads ≤ 0
  · rw [if_pos hnt, if_pos hnt]
    simp only [hkw, hcast]
    by_cases hop : oprType = REPLICATE_DEST
    · have hne : oprType ≠ -1 := by
        rw [hop]
        decide
      have hnot : ¬ (data_size > ctx.single_buff_sz ∧ oprType ≠ REPLICATE_DEST) :=
        fun hc => hc.2 hop
      simp only [if_neg hnot, ite_self, if_true, hnt, hne, ne_eq, not_false_eq_true, and_self,
        le_refl]
    · have hz := hzero hop hnt
      subst hz
      rfl
  · rw [if_neg hnt, if_neg hnt]

end irods_s3

namespace irods_s3

open shared_data s3_transport

/-- C24: a `DATA_SIZE_KW` that `boost::lexical_cast<std::uint64_t>` cannot parse, and a
`NUM_THREADS_KW` that `boost::lexical_cast<int>` cannot parse, do not change the outcome of
the resolver: it returns the error state, thread count, data size and operation type that
it returns for the same request without that keyword. -/
theorem resolver_ignores_malformed_hints (ctx : plugin_context) (proc : process_state)
    (data : multipart_shared_data) :
    (∀ str, ctx.file_obj.DATA_SIZE_KW = some str → ctx.lexical_cast_uint64 str = none →
      (get_number_of_threads_data_size_and_opr_type (without_data_size_hint ctx) proc data).error =
        (get_number_of_threads_data_size_and_opr_type ctx proc data).error ∧
      (get_number_of_threads_data_size_and_opr_type (without_data_size_hint ctx) proc
          data).number_of_threads =
        (get_number_of_threads_data_size_and_opr_type ctx proc data).number_of_threads ∧
      (get_number_of_threads_data_size_and_opr_type (without_data_size_hint ctx) proc
          data).data_size =
        (get_number_of_threads_data_size_and_opr_type ctx proc data).data_size ∧
      (get_number_of_threads_data_size_and_opr_type (without_data_size_hint ctx) proc
          data).oprType =
        (get_number_of_threads_data_size_and_opr_type ctx proc data).oprType) ∧
    (∀ str, ctx.file_obj.NUM_THREADS_KW = some str → ctx.lexical_cast_int str = none →
      (get_number_of_threads_data_size_and_opr_type (without_num_threads_hint ctx) proc
          data).error =
        (get_number_of_threads_data_size_and_opr_type ctx proc data).error ∧
      (get_number_of_threads_data_size_and_opr_type (without_num_threads_hint ctx) proc
          data).number_of_threads =
        (get_number_of_threads_data_size_and_opr_type ctx proc data).number_of_threads ∧
      (get_number_of_threads_data_size_and_opr_type (without_num_threads_hint ctx) proc
          data).data_size =
        (get_number_of_threads_data_size_and_opr_type ctx proc data).data_size ∧
      (get_number_of_threads_data_size_and_opr_type (without_num_threads_hint ctx) proc
          data).oprType =
        (get_number_of_threads_data_size_and_opr_type ctx proc data).oprType) := by
  refine ⟨?_, ?_⟩
  · intro str hkw hcast
    have hfs : first_scan (without_data_size_hint ctx) proc = first_scan ctx proc := by
      unfold first_scan
      rw [data_size_before_scan_malformed ctx proc str hkw hcast]
      exact scan_L1desc_paths ctx.file_obj (without_data_size_hint ctx).file_obj rfl rfl _ _
    have hss : second_scan (without_data_size_hint ctx) proc data = second_scan ctx proc data := by
      unfold second_scan
      rw [hfs]
      rw [scan_replication_paths ctx.file_obj (without_data_size_hint ctx).file_obj rfl]
      rfl
    exact resolver_congr ctx (without_data_size_hint ctx) proc data hfs hss rfl
  · intro str hkw hcast
    have hfs : first_scan (without_num_threads_hint ctx) proc = first_scan ctx proc := by
      unfold first_scan
      exact scan_L1desc_paths ctx.file_obj (without_num_threads_hint ctx).file_obj rfl rfl _ _
    have hss : second_scan (without_num_threads_hint ctx) proc data =
        second_scan ctx proc data := by
      unfold second_scan
      rw [hfs]
      rw [scan_replication_paths ctx.file_obj (without_num_threads_hint ctx).file_obj rfl]
      rfl
    exact resolver_congr ctx (without_num_threads_hint ctx) proc data hfs hss
      (resolve_number_of_threads_malformed ctx str hkw hcast _ _ _ _
        (fun hop hle => second_scan_thread_count ctx proc data hop hle))

/-- A worked instance: a `PUT_OPR` of 5 bytes whose `NUM_THREADS_KW` is the text `four`
resolves to the thread count of the request without the keyword, which is 1. -/
theorem resolver_ignores_malformed_hints_witness :
    (get_number_of_threads_data_size_and_opr_type
      (demo_context_with_thread_hint (demo_table PUT_OPR 4 5) "four" none)
      process_state.init (demo_session 0 0)).number_of_threads = 1 := by
  have h := ((resolver_ignores_malformed_hints
    (demo_context_with_thread_hint (demo_table PUT_OPR 4 5) "four" none)
    process_state.init (demo_session 0 0)).2 "four" rfl rfl).2.1
  rw [← h]
  decide

end irods_s3

namespace irods_s3

open shared_data s3_transport

/-! ## The error of a replication destination that is not found -/

/-- Once an entry matched, the first loop ends with `found` set. -/
theorem scan_L1desc_found_stays (file_obj : file_object) :
    ∀ (table : List l1desc_t) (s : l1desc_scan), s.found = true →
      (scan_L1desc file_obj table s).found = true := by
  intro table
  induction table with
  | nil => intro s hs; exact hs
  | cons e rest ih =>
    intro s hs
    by_cases hin : e.inuseFlag = true
    · by_cases hm : l1desc_matches file_obj e = true
      · obtain ⟨inp, _, hstep⟩ := scan_L1desc_cons_match file_obj e rest s hm
        rw [hstep]
        exact ih _ rfl
      · rw [scan_L1desc_cons_other _ _ _ _ hin (by simpa using hm)]
        exact ih s hs
    · rw [scan_L1desc_cons_unused _ _ _ _ (by simpa using hin), if_pos hs]
      exact hs

/-- When the first loop ends with `found` set, either it was set on entry and the operation
type is the one on entry, or the operation type is that of an entry that matches the
object. -/
theorem scan_L1desc_oprType_source (file_obj : file_object) :
    ∀ (table : List l1desc_t) (s : l1desc_scan),
      (scan_L1desc file_obj table s).found = true →
      (s.found = true ∧ (scan_L1desc file_obj table s).oprType = s.oprType) ∨
      ∃ l, l ∈ table ∧ l1desc_matches file_obj l = true ∧
        l.dataObjInp.map dataObjInp_t.oprType = some (scan_L1desc file_obj table s).oprType := by
  intro table
  induction table with
  | nil => intro s hs; exact Or.inl ⟨hs, rfl⟩
  | cons e rest ih =>
    intro s hfound
    by_cases hin : e.inuseFlag = true
    · by_cases hm : l1desc_matches file_obj e = true
      · obtain ⟨inp, hinp, hstep⟩ := scan_L1desc_cons_match file_obj e rest s hm
        rw [hstep] at hfound ⊢
        right
        rcases ih _ hfound with ⟨_, hop⟩ | ⟨l, hl, hlm, hlo⟩
        · refine ⟨e, List.mem_cons_self _ _, hm, ?_⟩
          rw [hinp, hop]
          rfl
        · exact ⟨l, List.mem_cons_of_mem _ hl, hlm, hlo⟩
      · rw [scan_L1desc_cons_other _ _ _ _ hin (by simpa using hm)] at hfound ⊢
        rcases ih s hfound with h | ⟨l, hl, hlm, hlo⟩
        · exact Or.inl h
        · exact Or.inr ⟨l, List.mem_cons_of_mem _ hl, hlm, hlo⟩
    · rw [scan_L1desc_cons_unused _ _ _ _ (by simpa using hin)] at hfound ⊢
      by_cases hs : s.found = true
      · rw [if_pos hs]
        exact Or.inl ⟨hs, rfl⟩
      · rw [if_neg hs] at hfound ⊢
        rcases ih s hfound with h | ⟨l, hl, hlm, hlo⟩
        · exact Or.inl h
        · exact Or.inr ⟨l, List.mem_cons_of_mem _ hl, hlm, hlo⟩

/-- Before any entry matched, the first loop reaches every entry that matches. -/
theorem scan_L1desc_finds_match (file_obj : file_object) :
    ∀ (table : List l1desc_t) (s : l1desc_scan), s.found = false →
      (∃ e, e ∈ table ∧ l1desc_matches file_obj e = true) →
      (scan_L1desc file_obj table s).found = true := by
  intro table
  induction table with
  | nil => intro s _ h; obtain ⟨e, he, _⟩ := h; exact absurd he (List.not_mem_nil e)
  | cons e rest ih =>
    intro s hs hex
    by_cases hm : l1desc_matches file_obj e = true
    · obtain ⟨inp, _, hstep⟩ := scan_L1desc_cons_match file_obj e rest s hm
      rw [hstep]
      exact scan_L1desc_found_stays file_obj rest _ rfl
    · have hm2 : l1desc_matches file_obj e = false := by simpa using hm
      have hstep : scan_L1desc file_obj (e :: rest) s = scan_L1desc file_obj rest s := by
        by_cases hin : e.inuseFlag = true
        · exact scan_L1desc_cons_other _ _ _ _ hin hm2
        · rw [scan_L1desc_cons_unused _ _ _ _ (by simpa using hin), if_neg (by simp [hs])]
      rw [hstep]
      obtain ⟨x, hx, hxm⟩ := hex
      rcases List.mem_cons.mp hx with hxe | hxr
      · rw [hxe] at hxm
        exact absurd hxm hm
      · exact ih s hs ⟨x, hxr, hxm⟩

/-- A destination entry gives the thread count to the replication loop. -/
theorem replication_entry_of_destination (l1d : l1desc_t) (dobj_input : dataObjInp_t)
    (s : replication_scan) (hop : dobj_input.oprType = REPLICATE_DEST) :
    (replication_entry l1d dobj_input s).found_number_of_threads = true := by
  unfold replication_entry
  cases l1d.dataObjInfo with
  | none =>
    simp only []
    by_cases hs : s.found_number_of_threads = false
    · rw [if_pos ⟨hs, hop⟩]
    · rw [if_neg (fun hc => hs hc.1)]
      simpa using hs
  | some dobj_info =>
    simp only []
    by_cases hc : s.found_data_size = false ∧ dobj_input.oprType = REPLICATE_SRC
    · rw [if_pos hc]
      simp only []
      by_cases hs : s.found_number_of_threads = false
      · rw [if_pos ⟨hs, hop⟩]
      · rw [if_neg (fun hc => hs hc.1)]
        simpa using hs
    · rw [if_neg hc]
      by_cases hs : s.found_number_of_threads = false
      · rw [if_pos ⟨hs, hop⟩]
      · rw [if_neg (fun hc => hs hc.1)]
        simpa using hs

/-- The replication loop finds the thread count when the table holds an in-use entry for
the logical path whose operation type is `REPLICATE_DEST`. -/
theorem scan_replication_finds_destination (file_obj : file_object) :
    ∀ (table : List l1desc_t) (s : replication_scan),
      (∃ e, e ∈ table ∧ e.inuseFlag = true ∧
        ∃ dobj_input, e.dataObjInp = some dobj_input ∧
          dobj_input.objPath = file_obj.logical_path ∧ dobj_input.oprType = REPLICATE_DEST) →
      (scan_replication file_obj table s).found_number_of_threads = true := by
  intro table
  induction table with
  | nil => intro s h; obtain ⟨e, he, _⟩ := h; exact absurd he (List.not_mem_nil e)
  | cons l1d rest ih =>
    intro s hex
    obtain ⟨e, he, hein, inp, heinp, hepath, heop⟩ := hex
    by_cases hin : l1d.inuseFlag = true
    · cases hinp : l1d.dataObjInp with
      | none =>
        rw [scan_replication_cons_skip _ _ _ _ (Or.inr (Or.inl hinp))]
        rcases List.mem_cons.mp he with hel | her
        · rw [hel, hinp] at heinp
          exact absurd heinp (by simp)
        · exact ih s ⟨e, her, hein, inp, heinp, hepath, heop⟩
      | some dobj_input =>
        by_cases hpath : dobj_input.objPath = file_obj.logical_path
        · rw [scan_replication_cons_same_path _ _ _ _ _ hin hinp hpath]
          by_cases hboth : (replication_entry l1d dobj_input s).found_data_size = true ∧
              (replication_entry l1d dobj_input s).found_number_of_threads = true
          · rw [if_pos hboth]
            exact hboth.2
          · rw [if_neg hboth]
            rcases List.mem_cons.mp he with hel | her
            · rw [hel, hinp] at heinp
              have hsame : dobj_input = inp := Option.some.inj heinp
              rw [← hsame] at heop
              exact (scan_replication_found file_obj rest _
                (replication_entry_of_destination l1d dobj_input s heop)).1
            · exact ih _ ⟨e, her, hein, inp, heinp, hepath, heop⟩
        · rw [scan_replication_cons_skip _ _ _ _ (Or.inr (Or.inr ⟨dobj_input, hinp, hpath⟩))]
          rcases List.mem_cons.mp he with hel | her
          · rw [hel, hinp] at heinp
            have hsame : dobj_input = inp := Option.some.inj heinp
            rw [← hsame] at hepath
            exact absurd hepath hpath
          · exact ih s ⟨e, her, hein, inp, heinp, hepath, heop⟩
    · have hin2 : l1d.inuseFlag = false := by simpa using hin
      rw [scan_replication_cons_skip _ _ _ _ (Or.inl hin2)]
      rcases List.mem_cons.mp he with hel | her
      · rw [hel, hin2] at hein
        exact absurd hein (by decide)
      · exact ih s ⟨e, her, hein, inp, heinp, hepath, heop⟩

/-- An entry that matches the object is in use and its `dataObjInp` names the logical path
of the object. -/
theorem l1desc_matches_entry (file_obj : file_object) (e : l1desc_t)
    (hm : l1desc_matches file_obj e = true) :
    e.inuseFlag = true ∧
      ∃ inp, e.dataObjInp = some inp ∧ inp.objPath = file_obj.logical_path := by
  obtain ⟨inuse, dinp, dinfo, dsz⟩ := e
  cases dinp with
  | none => simp [l1desc_matches] at hm
  | some inp =>
    cases dinfo with
    | none => simp [l1desc_matches] at hm
    | some info =>
      simp only [l1desc_matches, Bool.and_eq_true, decide_eq_true_eq] at hm
      exact ⟨hm.1, inp, rfl, hm.2.1⟩

end irods_s3

namespace irods_s3

open shared_data s3_transport

/-- C30: when the descriptor table holds an entry that matches the object (in use, same
logical and physical path), so that the resolver takes the operation type from the table,
the resolver returns success, also when that operation type is `REPLICATE_DEST`. The
resolver fails only with `SYS_INTERNAL_ERR`, and only when `REPLICATE_DEST` is the
operation type saved in the process while no entry matches, no in-use entry for the logical
path has the operation type `REPLICATE_DEST`, and the shared session has no thread
count. -/
theorem replication_destination_error (ctx : plugin_context) (proc : process_state)
    (data : multipart_shared_data) :
    ((∃ e, e ∈ ctx.L1desc ∧ l1desc_matches ctx.file_obj e = true) →
      (get_number_of_threads_data_size_and_opr_type ctx proc data).error = SUCCESS) ∧
    ((get_number_of_threads_data_size_and_opr_type ctx proc data).error.ok = false →
      (get_number_of_threads_data_size_and_opr_type ctx proc data).error.code =
        irods_code.SYS_INTERNAL_ERR ∧
      proc.oprType = REPLICATE_DEST ∧
      (∀ e, e ∈ ctx.L1desc → l1desc_matches ctx.file_obj e = false) ∧
      (∀ e, e ∈ ctx.L1desc → e.inuseFlag = true → ∀ inp, e.dataObjInp = some inp →
        inp.objPath = ctx.file_obj.logical_path → inp.oprType ≠ REPLICATE_DEST) ∧
      data.number_of_threads ≤ 0) := by
  -- the facts that follow from the error condition
  have hcond : (first_scan ctx proc).oprType = REPLICATE_DEST ∧
      (second_scan ctx proc data).found_number_of_threads = false →
      proc.oprType = REPLICATE_DEST ∧
      (∀ e, e ∈ ctx.L1desc → l1desc_matches ctx.file_obj e = false) ∧
      (∀ e, e ∈ ctx.L1desc → e.inuseFlag = true → ∀ inp, e.dataObjInp = some inp →
        inp.objPath = ctx.file_obj.logical_path → inp.oprType ≠ REPLICATE_DEST) ∧
      data.number_of_threads ≤ 0 := by
    intro h
    obtain ⟨hdest, hmissing⟩ := h
    have hss : (scan_replication ctx.file_obj ctx.L1desc
        (replication_scan.mk false
          (decide ((if data.number_of_threads > 0 then data.number_of_threads else 0) > 0))
          (first_scan ctx proc).data_size
          (if data.number_of_threads > 0 then data.number_of_threads else 0))).found_number_of_threads =
        false := by
      unfold second_scan at hmissing
      rw [if_pos hdest] at hmissing
      exact hmissing
    -- no in-use destination entry for the logical path
    have hnodest : ∀ e, e ∈ ctx.L1desc → e.inuseFlag = true → ∀ inp, e.dataObjInp = some inp →
        inp.objPath = ctx.file_obj.logical_path → inp.oprType ≠ REPLICATE_DEST := by
      intro e he hin inp hinp hpath hop
      have hfound := scan_replication_finds_destination ctx.file_obj ctx.L1desc
        (replication_scan.mk false
          (decide ((if data.number_of_threads > 0 then data.number_of_threads else 0) > 0))
          (first_scan ctx proc).data_size
          (if data.number_of_threads > 0 then data.number_of_threads else 0))
        ⟨e, he, hin, inp, hinp, hpath, hop⟩
      rw [hss] at hfound
      exact absurd hfound Bool.false_ne_true
    -- no thread count in the session
    have hthreads : data.number_of_threads ≤ 0 := by
      by_contra hpos
      have hgt : data.number_of_threads > 0 := by omega
      have hfound := (scan_replication_found ctx.file_obj ctx.L1desc
        (replication_scan.mk false
          (decide ((if data.number_of_threads > 0 then data.number_of_threads else 0) > 0))
          (first_scan ctx proc).data_size
          (if data.number_of_threads > 0 then data.number_of_threads else 0))
        (by
          show decide ((if data.number_of_threads > 0 then data.number_of_threads else 0) > 0) =
            true
          rw [if_pos hgt]
          exact decide_eq_true hgt)).1
      rw [hss] at hfound
      exact absurd hfound Bool.false_ne_true
    -- no entry matches, so the operation type is the saved one
    have hnomatch : ∀ e, e ∈ ctx.L1desc → l1desc_matches ctx.file_obj e = false := by
      intro e he
      by_contra hm
      have hm2 : l1desc_matches ctx.file_obj e = true := by simpa using hm
      have hfound : (first_scan ctx proc).found = true :=
        scan_L1desc_finds_match ctx.file_obj ctx.L1desc _ rfl ⟨e, he, hm2⟩
      rcases scan_L1desc_oprType_source ctx.file_obj ctx.L1desc _ hfound with
        ⟨hinit, _⟩ | ⟨l, hl, hlm, hlo⟩
      · exact absurd hinit Bool.false_ne_true
      · obtain ⟨hlin, inp, hlinp, hlpath⟩ := l1desc_matches_entry ctx.file_obj l hlm
        rw [hlinp] at hlo
        have hop : inp.oprType = (first_scan ctx proc).oprType := Option.some.inj hlo
        exact hnodest l hl hlin inp hlinp hlpath (hop.trans hdest)
    have hsaved : (first_scan ctx proc).oprType = proc.oprType := by
      unfold first_scan
      rw [scan_L1desc_no_match _ _ _ rfl hnomatch]
    exact ⟨hsaved.symm.trans hdest, hnomatch, hnodest, hthreads⟩
  refine ⟨?_, ?_⟩
  · intro hex
    obtain ⟨e, he, hm⟩ := hex
    by_cases h : (first_scan ctx proc).oprType = REPLICATE_DEST ∧
        (second_scan ctx proc data).found_number_of_threads = false
    · have hno := (hcond h).2.1 e he
      rw [hm] at hno
      exact absurd hno (by decide)
    · exact (resolver_of_success ctx proc data h).1
  · intro hfail
    by_cases h : (first_scan ctx proc).oprType = REPLICATE_DEST ∧
        (second_scan ctx proc data).found_number_of_threads = false
    · refine ⟨?_, hcond h⟩
      rw [resolver_of_missing_destination ctx proc data h]
      rfl
    · rw [(resolver_of_success ctx proc data h).1] at hfail
      exact absurd hfail (by decide)

/-- A worked instance: a replication whose destination entry matches the object resolves
with success, and a process that saved `REPLICATE_DEST`, with an empty table and a session
without thread count, gets the error `SYS_INTERNAL_ERR`. -/
theorem replication_destination_error_witness :
    (get_number_of_threads_data_size_and_opr_type
      (demo_context 3 (demo_replication_table 9 2) [] 3)
      process_state.init (demo_session 0 0)).error = SUCCESS ∧
    (get_number_of_threads_data_size_and_opr_type (demo_context 3 [] [] 3)
      (process_state.mk UNKNOWN_OBJECT_SIZE REPLICATE_DEST fd_to_data_map.init)
      (demo_session 0 0)).error.code = irods_code.SYS_INTERNAL_ERR :=
  ⟨(replication_destination_error (demo_context 3 (demo_replication_table 9 2) [] 3)
      process_state.init (demo_session 0 0)).1
      ⟨l1desc_t.mk true (some (dataObjInp_t.mk "/zone/obj" 2 REPLICATE_DEST))
        (some (dataObjInfo_t.mk "/bucket/obj" 0)) UNKNOWN_OBJECT_SIZE, by decide, by decide⟩,
    ((replication_destination_error (demo_context 3 [] [] 3)
      (process_state.mk UNKNOWN_OBJECT_SIZE REPLICATE_DEST fd_to_data_map.init)
      (demo_session 0 0)).2 (by decide)).1⟩

end irods_s3

namespace irods_s3

open shared_data s3_transport

/-! ## Open modes -/

/-- C25: for every open mode and operation type, `operation_requires_that_object_exists`
returns true exactly when the mode without the flags `ate` and `binary` is exactly `in`, or
is exactly `in | out` while the operation type is none of `PUT_OPR`, `REPLICATE_DEST` and
`COPY_DEST`; in every other case, a mode with `trunc` or `app` included, it returns
false. -/
theorem operation_requires_that_object_exists_iff (open_mode : openmode) (oprType : Int) :
    operation_requires_that_object_exists open_mode oprType = true ↔
      (openmode.mk open_mode.app false false open_mode.in_ open_mode.out open_mode.trunc =
          openmode.mk false false false true false false ∨
        (openmode.mk open_mode.app false false open_mode.in_ open_mode.out open_mode.trunc =
            openmode.mk false false false true true false ∧
          oprType ≠ PUT_OPR ∧ oprType ≠ REPLICATE_DEST ∧ oprType ≠ COPY_DEST)) := by
  obtain ⟨app, ate, binary, in_, out, trunc⟩ := open_mode
  unfold operation_requires_that_object_exists
  by_cases hput : oprType = PUT_OPR ∨ oprType = REPLICATE_DEST ∨ oprType = COPY_DEST
  · have hnot : ¬ (oprType ≠ PUT_OPR ∧ oprType ≠ REPLICATE_DEST ∧ oprType ≠ COPY_DEST) := by
      intro h
      rcases hput with h1 | h1 | h1
      · exact h.1 h1
      · exact h.2.1 h1
      · exact h.2.2 h1
    cases app <;> cases in_ <;> cases out <;> cases trunc <;> simp [hput, hnot]
  · have hall : oprType ≠ PUT_OPR ∧ oprType ≠ REPLICATE_DEST ∧ oprType ≠ COPY_DEST :=
      ⟨fun h => hput (Or.inl h), fun h => hput (Or.inr (Or.inl h)),
        fun h => hput (Or.inr (Or.inr h))⟩
    cases app <;> cases in_ <;> cases out <;> cases trunc <;> simp [hput, hall]

/-- On a platform with the usual layout of the flags, the word
`O_WRONLY | O_CREAT | O_TRUNC` translates to `out | trunc`. -/
theorem translate_write_create_trunc (fl : fcntl_flags) (hfl : fl.posix_layout) :
    translate_open_mode_posix_to_stream fl (int_or (int_or fl.O_WRONLY fl.O_CREAT) fl.O_TRUNC) =
      openmode.mk false false false false true true := by
  obtain ⟨h1, h2, h3, h4, h5⟩ := hfl
  have hin : ¬ (fl.O_WRONLY = fl.O_RDONLY ∨ fl.O_WRONLY = fl.O_RDWR) := by
    intro hc
    rcases hc with hc | hc
    · exact h2 hc
    · exact h3 hc
  have happ : ¬ (int_and (int_or (int_or fl.O_WRONLY fl.O_CREAT) fl.O_TRUNC) fl.O_APPEND ≠ 0) :=
    fun hc => hc h5
  unfold translate_open_mode_posix_to_stream
  simp only [h1, true_or, if_true, if_neg hin, if_pos h4, if_neg happ]

/-- The open operation on a `PUT_OPR` whose flags hold a bit of `O_WRONLY` or `O_RDWR`. -/
theorem s3_file_open_operation_of_put (fl : fcntl_flags) (ctx : plugin_context)
    (proc : process_state) (object_key : String) (response : head_response)
    (S3_restore_object : restore_request → S3Status) (restoration_days : Nat)
    (restoration_tier : String) (hfl : fl.posix_layout) (hmode : ctx.cacheless_mode = true)
    (hput : (scan_open ctx.file_obj ctx.L1desc (open_scan.mk false (-1))).oprType = PUT_OPR)
    (hwrite : int_and ctx.file_obj.flags fl.O_WRONLY ≠ 0 ∨
      int_and ctx.file_obj.flags fl.O_RDWR ≠ 0) :
    s3_file_open_operation fl ctx proc object_key response S3_restore_object restoration_days
        restoration_tier =
      open_result.mk SUCCESS
        { ctx with file_obj := { ctx.file_obj with file_descriptor := proc.fd_data.fd_counter } }
        { proc with
          fd_data := proc.fd_data.get_and_increment_fd_counter.2.set proc.fd_data.fd_counter
            (per_thread_data.mk (openmode.mk false false false false true true) none none) }
        false false [] := by
  have hexists : operation_requires_that_object_exists
      (openmode.mk false false false false true true) PUT_OPR = false := by decide
  unfold s3_file_open_operation
  rw [if_pos hmode]
  simp only [hput, true_and, if_pos hwrite, translate_write_create_trunc fl hfl, hexists,
    Bool.false_eq_true, if_false]
  rfl

end irods_s3

namespace irods_s3

open shared_data s3_transport

/-- C26: in `s3_file_open_operation` in cacheless mode, on a platform with the usual layout
of the open flags, for every open whose operation type is `PUT_OPR` and whose flags hold a
bit of `O_WRONLY` or of `O_RDWR`, the open mode recorded for the new descriptor is exactly
`out | trunc`, whatever the other flags are; no existence check and no glacier handling is
performed, no restore is requested, and the open succeeds. -/
theorem put_open_records_out_trunc (fl : fcntl_flags) (ctx : plugin_context)
    (proc : process_state) (object_key : String) (response : head_response)
    (S3_restore_object : restore_request → S3Status) (restoration_days : Nat)
    (restoration_tier : String) (hfl : fl.posix_layout) (hmode : ctx.cacheless_mode = true)
    (hput : (scan_open ctx.file_obj ctx.L1desc (open_scan.mk false (-1))).oprType = PUT_OPR)
    (hwrite : int_and ctx.file_obj.flags fl.O_WRONLY ≠ 0 ∨
      int_and ctx.file_obj.flags fl.O_RDWR ≠ 0) :
    ((s3_file_open_operation fl ctx proc object_key response S3_restore_object restoration_days
          restoration_tier).proc.fd_data.get
        (s3_file_open_operation fl ctx proc object_key response S3_restore_object
          restoration_days restoration_tier).ctx.file_obj.file_descriptor).map
          per_thread_data.open_mode =
        some (openmode.mk false false false false true true) ∧
      (s3_file_open_operation fl ctx proc object_key response S3_restore_object restoration_days
        restoration_tier).existence_checked = false ∧
      (s3_file_open_operation fl ctx proc object_key response S3_restore_object restoration_days
        restoration_tier).glacier_handled = false ∧
      (s3_file_open_operation fl ctx proc object_key response S3_restore_object restoration_days
        restoration_tier).restore_requests = [] ∧
      (s3_file_open_operation fl ctx proc object_key response S3_restore_object restoration_days
        restoration_tier).error = SUCCESS := by
  rw [s3_file_open_operation_of_put fl ctx proc object_key response S3_restore_object
    restoration_days restoration_tier hfl hmode hput hwrite]
  refine ⟨?_, rfl, rfl, rfl, rfl⟩
  show ((proc.fd_data.get_and_increment_fd_counter.2.set proc.fd_data.fd_counter _).get
    proc.fd_data.fd_counter).map per_thread_data.open_mode = _
  rw [fd_data_get_set]
  rfl

/-- C26 at an open of a `PUT_OPR` with the Linux flags `O_RDWR | O_APPEND`: the recorded
mode is `out | trunc` and the object is not looked up. -/
theorem put_open_records_out_trunc_witness :
    linux_fcntl.posix_layout ∧
      ((s3_file_open_operation linux_fcntl (demo_open_context (demo_table PUT_OPR 1 0) 1026)
            process_state.init "obj" (demo_head_response none none)
            (fun _ => S3Status.S3StatusOK) 7 "Standard").proc.fd_data.get
          (s3_file_open_operation linux_fcntl (demo_open_context (demo_table PUT_OPR 1 0) 1026)
            process_state.init "obj" (demo_head_response none none)
            (fun _ => S3Status.S3StatusOK) 7 "Standard").ctx.file_obj.file_descriptor).map
          per_thread_data.open_mode =
        some (openmode.mk false false false false true true) ∧
      (s3_file_open_operation linux_fcntl (demo_open_context (demo_table PUT_OPR 1 0) 1026)
        process_state.init "obj" (demo_head_response none none)
        (fun _ => S3Status.S3StatusOK) 7 "Standard").existence_checked = false :=
  have h := put_open_records_out_trunc linux_fcntl
    (demo_open_context (demo_table PUT_OPR 1 0) 1026) process_state.init "obj"
    (demo_head_response none none) (fun _ => S3Status.S3StatusOK) 7 "Standard"
    (by unfold fcntl_flags.posix_layout; decide) (by decide) (by decide) (by decide)
  ⟨by unfold fcntl_flags.posix_layout; decide, h.1, h.2.1⟩

/-! ## A failed HEAD request -/

/-- C27: for every HEAD status other than OK, the retryable ones included,
`get_object_s3_status` returns success, classifies the object as `DOES_NOT_EXIST` and
leaves `object_size` and `storage_class` of the caller as they were; `handle_glacier_status`
on that classification returns the error `S3_FILE_OPEN_ERR` and requests no restore. -/
theorem head_failure_is_open_error (response : head_response) (object_size : Int)
    (storage_class : String) (S3_restore_object : restore_request → S3Status)
    (object_key : String) (restoration_days : Nat) (restoration_tier : String)
    (hstatus : response.status ≠ S3Status.S3StatusOK) :
    get_object_s3_status response object_size storage_class =
        object_status_result.mk SUCCESS object_size object_s3_status.DOES_NOT_EXIST
          storage_class ∧
      handle_glacier_status S3_restore_object object_key restoration_days restoration_tier
          (get_object_s3_status response object_size storage_class).object_status
          (get_object_s3_status response object_size storage_class).storage_class =
        (ERROR irods_code.S3_FILE_OPEN_ERR
          "Object does not exist and open mode requires it to exist.", []) ∧
      (handle_glacier_status S3_restore_object object_key restoration_days restoration_tier
          (get_object_s3_status response object_size storage_class).object_status
          (get_object_s3_status response object_size storage_class).storage_class).1.code =
        irods_code.S3_FILE_OPEN_ERR := by
  have hget : get_object_s3_status response object_size storage_class =
      object_status_result.mk SUCCESS object_size object_s3_status.DOES_NOT_EXIST
        storage_class := by
    unfold get_object_s3_status
    simp only [(S3_head_object_fields response).1]
    rw [if_pos hstatus]
  rw [hget]
  exact ⟨rfl, rfl, rfl⟩

/-- C27 at a HEAD request that timed out, a retryable status: the object counts as
absent and the open fails with `S3_FILE_OPEN_ERR`. -/
theorem head_failure_is_open_error_witness :
    libs3_S3_status_is_retryable S3Status.S3StatusErrorRequestTimeout = true ∧
      get_object_s3_status (head_response.mk none S3Status.S3StatusErrorRequestTimeout) 42
          "GLACIER" =
        object_status_result.mk SUCCESS 42 object_s3_status.DOES_NOT_EXIST "GLACIER" ∧
      (handle_glacier_status (fun _ => S3Status.S3StatusOK) "obj" 7 "Standard"
          (get_object_s3_status (head_response.mk none S3Status.S3StatusErrorRequestTimeout) 42
            "GLACIER").object_status
          (get_object_s3_status (head_response.mk none S3Status.S3StatusErrorRequestTimeout) 42
            "GLACIER").storage_class).1.code = irods_code.S3_FILE_OPEN_ERR :=
  have h := head_failure_is_open_error
    (head_response.mk none S3Status.S3StatusErrorRequestTimeout) 42 "GLACIER"
    (fun _ => S3Status.S3StatusOK) "obj" 7 "Standard" (by decide)
  ⟨by decide, h.1, h.2.2⟩

end irods_s3

namespace irods_s3

open shared_data s3_transport

/-! ## The assertion of `fd_data.get` -/

/-- The resolver hands the registry back as it finds it. -/
theorem resolver_keeps_registry (ctx : plugin_context) (proc : process_state)
    (data : multipart_shared_data) :
    (get_number_of_threads_data_size_and_opr_type ctx proc data).proc.fd_data = proc.fd_data := by
  unfold get_number_of_threads_data_size_and_opr_type
  simp only []
  split_ifs <;> rfl

/-- In `make_dstream` the assertion of `fd_data.get` holds: the function never returns
through the branch of the failed assertion, and it leaves an entry for the descriptor in
the registry. -/
theorem make_dstream_keeps_entry (ctx : plugin_context) (proc : process_state)
    (shm : multipart_shared_data) :
    ∃ data, (make_dstream ctx proc shm).1.proc.fd_data.get ctx.file_obj.file_descriptor =
      some data := by
  by_cases hex : proc.fd_data.fd_exists ctx.file_obj.file_descriptor = false
  · have hdata := fd_data_get_set proc.fd_data ctx.file_obj.file_descriptor
      (per_thread_data.mk ctx.indeterminate_open_mode none none)
    unfold make_dstream
    simp only []
    rw [if_pos hex]
    simp only []
    rw [hdata]
    simp only []
    split_ifs
    all_goals first
      | exact ⟨_, hdata⟩
      | exact ⟨_, fd_data_get_set _ _ _⟩
      | (refine ⟨per_thread_data.mk ctx.indeterminate_open_mode none none, ?_⟩
         show (get_number_of_threads_data_size_and_opr_type _ _ shm).proc.fd_data.get _ = _
         rw [resolver_keeps_registry]
         exact hdata)
  · obtain ⟨data, hdata⟩ := fd_data_get_of_exists _ _ hex
    unfold make_dstream
    simp only []
    rw [if_neg hex, hdata]
    simp only []
    split_ifs
    all_goals first
      | exact ⟨_, hdata⟩
      | exact ⟨_, fd_data_get_set _ _ _⟩
      | (refine ⟨data, ?_⟩
         show (get_number_of_threads_data_size_and_opr_type _ _ shm).proc.fd_data.get _ = _
         rw [resolver_keeps_registry]
         exact hdata)

/-- After the write operation in cacheless mode the registry holds an entry for the
descriptor, so the assertion of the `fd_data.get` that follows the write of zero bytes in
the close holds. -/
theorem write_operation_keeps_entry (ctx : plugin_context) (proc : process_state)
    (shm : multipart_shared_data) (_len : Int) (hmode : ctx.cacheless_mode = true) :
    ∃ data, (s3_file_write_operation ctx proc shm _len).proc.fd_data.get
      ctx.file_obj.file_descriptor = some data := by
  obtain ⟨data, hdata⟩ := make_dstream_keeps_entry ctx proc shm
  have hctx := make_dstream_ctx ctx proc shm
  unfold s3_file_write_operation
  rw [if_pos hmode]
  simp only []
  by_cases c2 : (make_dstream ctx proc shm).1.error.ok = false
  · rw [if_pos c2]
    exact ⟨data, hdata⟩
  · rw [if_neg c2]
    cases (make_dstream ctx proc shm).2.s3_transport_ptr with
    | none => exact ⟨data, hdata⟩
    | some transport =>
      simp only []
      rw [hctx]
      exact ⟨_, fd_data_get_set _ _ _⟩

end irods_s3
